import Mathlib

/-!
# B-plus: render-context state diffing and draw dispatch

A shallow embedding of `Engine/Renderer/Context.cpp`.  The context keeps a cached
copy ("shadow") of the native driver state; every setter compares the requested
value with the cache and emits native calls only on a difference.

Conventions of the embedding:

* a native call is a value of `GLCall`; a setter maps the cache to the new cache and
  the list of native calls it emitted, in order;
* a failed `BPAssert` is the `Except.error` result carrying the assertion message;
* `uint32_t` / `GLuint` values are natural numbers, `GLint` values are integers;
* a float is a number, an infinity or NaN; `==` on floats is `GLfloat.eq`, under which
  NaN is equal to nothing, itself included;
* the native driver is a state record; a call that OpenGL rejects with an error leaves
  the record as it is.
-/

namespace Bplus

/-! ## Native types and constants -/

abbrev GLenum := Nat
abbrev GLuint := Nat
abbrev GLint := Int

/-- A `float`: a number, an infinity or NaN.  The numbers are rationals; the two zeros of
a float, which `==` does not tell apart, are the one number zero. -/
inductive GLfloat where
  | num (q : ℚ)
  | posInf
  | negInf
  | nan
  deriving DecidableEq

instance (n : Nat) : OfNat GLfloat n := ⟨GLfloat.num n⟩

/-- Whether a float is NaN. -/
def GLfloat.isNaN : GLfloat → Bool
  | .nan => true
  | _ => false

/-- The comparison `==` of two floats: NaN is equal to nothing, itself included. -/
def GLfloat.eq (x y : GLfloat) : Bool := !x.isNaN && decide (x = y)

def GL_NEVER : GLenum := 0x0200
def GL_LESS : GLenum := 0x0201
def GL_EQUAL : GLenum := 0x0202
def GL_LEQUAL : GLenum := 0x0203
def GL_GREATER : GLenum := 0x0204
def GL_NOTEQUAL : GLenum := 0x0205
def GL_GEQUAL : GLenum := 0x0206
def GL_ALWAYS : GLenum := 0x0207
def GL_FRONT : GLenum := 0x0404
def GL_BACK : GLenum := 0x0405
def GL_FRONT_AND_BACK : GLenum := 0x0408
def GL_INVALID_ENUM : GLenum := 0x0500
def GL_CULL_FACE : GLenum := 0x0B44
def GL_DEPTH_TEST : GLenum := 0x0B71
def GL_DEPTH_WRITEMASK : GLenum := 0x0B72
def GL_STENCIL_TEST : GLenum := 0x0B90
def GL_BLEND : GLenum := 0x0BE2
def GL_SCISSOR_TEST : GLenum := 0x0C11
def GL_UNSIGNED_BYTE : GLenum := 0x1401
def GL_UNSIGNED_SHORT : GLenum := 0x1403
def GL_UNSIGNED_INT : GLenum := 0x1405
def GL_PROGRAM_POINT_SIZE : GLenum := 0x8642
def GL_POINT_SPRITE_COORD_ORIGIN : GLenum := 0x8CA0
def GL_UPPER_LEFT : GLenum := 0x8CA2
def GL_FRAMEBUFFER : GLenum := 0x8D40
def GL_PRIMITIVE_RESTART_FIXED_INDEX : GLenum := 0x8D69
def GL_PRIMITIVE_RESTART : GLenum := 0x8F9D
def GL_NONE : GLenum := 0
def GL_ZERO : GLenum := 0
def GL_ONE : GLenum := 1
def GL_SRC_COLOR : GLenum := 0x0300
def GL_SRC_ALPHA_SATURATE : GLenum := 0x0308
def GL_CONSTANT_COLOR : GLenum := 0x8001
def GL_ONE_MINUS_CONSTANT_ALPHA : GLenum := 0x8004
def GL_SRC1_ALPHA : GLenum := 0x8589
def GL_SRC1_COLOR : GLenum := 0x88F9
def GL_ONE_MINUS_SRC1_ALPHA : GLenum := 0x88FB
def GL_FUNC_ADD : GLenum := 0x8006
def GL_MIN : GLenum := 0x8007
def GL_MAX : GLenum := 0x8008
def GL_FUNC_SUBTRACT : GLenum := 0x800A
def GL_FUNC_REVERSE_SUBTRACT : GLenum := 0x800B
def GL_KEEP : GLenum := 0x1E00
def GL_REPLACE : GLenum := 0x1E01
def GL_INCR : GLenum := 0x1E02
def GL_DECR : GLenum := 0x1E03
def GL_INVERT : GLenum := 0x150A
def GL_INCR_WRAP : GLenum := 0x8507
def GL_DECR_WRAP : GLenum := 0x8508
def GL_LINE_SMOOTH : GLenum := 0x0B20
def GL_POLYGON_SMOOTH : GLenum := 0x0B41
def GL_DITHER : GLenum := 0x0BD0
def GL_COLOR_LOGIC_OP : GLenum := 0x0BF2
def GL_POLYGON_OFFSET_POINT : GLenum := 0x2A01
def GL_POLYGON_OFFSET_LINE : GLenum := 0x2A02
def GL_CLIP_DISTANCE0 : GLenum := 0x3000
def GL_POLYGON_OFFSET_FILL : GLenum := 0x8037
def GL_MULTISAMPLE : GLenum := 0x809D
def GL_SAMPLE_ALPHA_TO_COVERAGE : GLenum := 0x809E
def GL_SAMPLE_ALPHA_TO_ONE : GLenum := 0x809F
def GL_SAMPLE_COVERAGE : GLenum := 0x80A0
def GL_DEBUG_OUTPUT_SYNCHRONOUS : GLenum := 0x8242
def GL_DEPTH_CLAMP : GLenum := 0x864F
def GL_TEXTURE_CUBE_MAP_SEAMLESS : GLenum := 0x884F
def GL_SAMPLE_SHADING : GLenum := 0x8C36
def GL_RASTERIZER_DISCARD : GLenum := 0x8C89
def GL_FRAMEBUFFER_SRGB : GLenum := 0x8DB9
def GL_SAMPLE_MASK : GLenum := 0x8E51
def GL_DEBUG_OUTPUT : GLenum := 0x92E0
def GL_COLOR : GLenum := 0x1800
def GL_DEPTH : GLenum := 0x1801
def GL_STENCIL : GLenum := 0x1802
def GL_DEPTH_STENCIL_ATTACHMENT : GLenum := 0x821A
def GL_DRAW_FRAMEBUFFER : GLenum := 0x8CA9
def GL_FRAMEBUFFER_COMPLETE : GLenum := 0x8CD5
def GL_FRAMEBUFFER_INCOMPLETE_ATTACHMENT : GLenum := 0x8CD6
def GL_FRAMEBUFFER_UNSUPPORTED : GLenum := 0x8CDD
def GL_COLOR_ATTACHMENT0 : GLenum := 0x8CE0
def GL_DEPTH_ATTACHMENT : GLenum := 0x8D00
def GL_STENCIL_ATTACHMENT : GLenum := 0x8D20
def GL_RENDERBUFFER : GLenum := 0x8D41
def GL_FRAMEBUFFER_INCOMPLETE_LAYER_TARGETS : GLenum := 0x8DA8
def GL_FRAMEBUFFER_DEFAULT_WIDTH : GLenum := 0x9310
def GL_FRAMEBUFFER_DEFAULT_HEIGHT : GLenum := 0x9311
def GL_FRAMEBUFFER_DEFAULT_LAYERS : GLenum := 0x9312

/-- The glm vector `glm::vec1`. -/
structure FVec1 where
  x : GLfloat
  deriving DecidableEq

/-- The glm vector `glm::vec3`, with its colour accessors. -/
structure FVec3 where
  r : GLfloat
  g : GLfloat
  b : GLfloat
  deriving DecidableEq

/-- The glm vector `glm::vec4`, with its colour accessors. -/
structure FVec4 where
  r : GLfloat
  g : GLfloat
  b : GLfloat
  a : GLfloat
  deriving DecidableEq

/-- The glm vector `glm::ivec4`. -/
structure IVec4 where
  x : GLint
  y : GLint
  z : GLint
  w : GLint
  deriving DecidableEq

/-- The glm vector `glm::bvec4`. -/
structure BVec4 where
  r : Bool
  g : Bool
  b : Bool
  a : Bool
  deriving DecidableEq

/-- The comparison `==` of glm on `vec1`: the components are compared with `==`. -/
def FVec1.eq (a b : FVec1) : Bool := a.x.eq b.x

/-- The comparison `==` of glm on `vec3`: the components are compared with `==`. -/
def FVec3.eq (a b : FVec3) : Bool := a.r.eq b.r && a.g.eq b.g && a.b.eq b.b

/-- Whether a component of the vector is NaN. -/
def FVec1.hasNaN (v : FVec1) : Bool := v.x.isNaN

/-- Whether a component of the vector is NaN. -/
def FVec3.hasNaN (v : FVec3) : Bool := v.r.isNaN || v.g.isNaN || v.b.isNaN

/-- Whether a component of the vector is NaN. -/
def FVec4.hasNaN (v : FVec4) : Bool := v.r.isNaN || v.g.isNaN || v.b.isNaN || v.a.isNaN

/-- The glm constructor of a `vec4` from a `vec3` and a `vec1`. -/
def FVec4.ofRGBAlpha (rgb : FVec3) (alpha : FVec1) : FVec4 :=
  { r := rgb.r, g := rgb.g, b := rgb.b, a := alpha.x }

/-! ## Render-state data (declared in `Data.h`, which is not part of the sources) -/

/-- Modelled from the spec: the enum `FaceCullModes` is declared in the absent `Data.h`.
It is an enum over `GLenum`; the code uses its member `Off`, compares members for
equality and passes the integral value of the others to `glCullFace`. -/
structure FaceCullModes where
  integral : GLenum
  deriving DecidableEq

/-- Modelled from the spec: the member `FaceCullModes::Off` (culling disabled). -/
def FaceCullModes.Off : FaceCullModes := ⟨GL_INVALID_ENUM⟩

/-- Modelled from the spec: the enum `ValueTests` is declared in the absent `Data.h`.
Its members are the comparison functions that the native depth and stencil tests
accept and report (`ValueTests::Off` is the test that always passes). -/
inductive ValueTests where
  | Off
  | Never
  | LessThan
  | LessThanOrEqual
  | GreaterThan
  | GreaterThanOrEqual
  | Equal
  | NotEqual
  deriving DecidableEq

/-- The cast `(GLenum)test` of a `ValueTests` member. -/
def ValueTests.toGLenum : ValueTests → GLenum
  | .Off => GL_ALWAYS
  | .Never => GL_NEVER
  | .LessThan => GL_LESS
  | .LessThanOrEqual => GL_LEQUAL
  | .GreaterThan => GL_GREATER
  | .GreaterThanOrEqual => GL_GEQUAL
  | .Equal => GL_EQUAL
  | .NotEqual => GL_NOTEQUAL

/-- The checked conversion `ValueTests::_from_integral`: absent for a value that is
not the integral value of a member. -/
def ValueTests._from_integral (e : GLenum) : Option ValueTests :=
  if e = GL_ALWAYS then some .Off
  else if e = GL_NEVER then some .Never
  else if e = GL_LESS then some .LessThan
  else if e = GL_LEQUAL then some .LessThanOrEqual
  else if e = GL_GREATER then some .GreaterThan
  else if e = GL_GEQUAL then some .GreaterThanOrEqual
  else if e = GL_EQUAL then some .Equal
  else if e = GL_NOTEQUAL then some .NotEqual
  else none

/-- Modelled from the spec: the enum `BlendFactors` of the absent `Data.h`, an enum over
`GLenum` of which the code only uses equality and the integral value. -/
structure BlendFactors where
  integral : GLenum
  deriving DecidableEq

/-- Modelled from the spec: the enum `BlendOps` of the absent `Data.h`, an enum over
`GLenum` of which the code only uses equality and the integral value. -/
structure BlendOps where
  integral : GLenum
  deriving DecidableEq

/-- Modelled from the spec: the enum `StencilOps` of the absent `Data.h`, an enum over
`GLenum` of which the code only uses equality and the integral value. -/
structure StencilOps where
  integral : GLenum
  deriving DecidableEq

/-- The template `BlendState<Constant_t>`: source factor, destination factor, blend
operation and blend constant. -/
structure BlendState (C : Type) where
  Src : BlendFactors
  Dest : BlendFactors
  Op : BlendOps
  Constant : C
  deriving DecidableEq

/-- Modelled from the spec: the operator `==` of `BlendState<Constant_t>` in the absent
`Data.h`, which compares the four fields; the constants are glm vectors of floats, and
`constantEq` is their `==`. -/
def BlendState.eq {C : Type} (constantEq : C → C → Bool) (a b : BlendState C) : Bool :=
  decide (a.Src = b.Src) && decide (a.Dest = b.Dest) && decide (a.Op = b.Op) &&
    constantEq a.Constant b.Constant

abbrev BlendStateRGB := BlendState FVec3
abbrev BlendStateAlpha := BlendState FVec1
abbrev BlendStateRGBA := BlendState FVec4

/-- The stencil test: comparison, reference value and value mask. -/
structure StencilTest where
  Test : ValueTests
  RefValue : GLint
  Mask : GLuint
  deriving DecidableEq

/-- What happens to the stencil buffer for each outcome of the stencil and depth tests. -/
structure StencilResult where
  OnFailStencil : StencilOps
  OnPassStencilFailDepth : StencilOps
  OnPassStencilDepth : StencilOps
  deriving DecidableEq

/-- The record `RenderState`, with the twelve fields that `Context::SetState` applies. -/
structure RenderState where
  CullMode : FaceCullModes
  DepthTest : ValueTests
  EnableDepthWrite : Bool
  ColorWriteMask : BVec4
  ColorBlending : BlendStateRGB
  AlphaBlending : BlendStateAlpha
  StencilTestFront : StencilTest
  StencilTestBack : StencilTest
  StencilResultFront : StencilResult
  StencilResultBack : StencilResult
  StencilMaskFront : GLuint
  StencilMaskBack : GLuint
  deriving DecidableEq

/-! ## Native calls -/

/-- The native driver calls emitted by the embedded functions. -/
inductive GLCall where
  | glEnable (cap : GLenum)
  | glDisable (cap : GLenum)
  | glPointParameteri (pname : GLenum) (param : GLenum)
  | glCullFace (mode : GLenum)
  | glDepthFunc (func : GLenum)
  | glColorMask (r g b a : Bool)
  | glBlendFunc (src dst : GLenum)
  | glBlendEquation (op : GLenum)
  | glBlendFuncSeparate (srcRGB dstRGB srcAlpha dstAlpha : GLenum)
  | glBlendEquationSeparate (opRGB opAlpha : GLenum)
  | glBlendColor (r g b a : GLfloat)
  | glStencilFunc (func : GLenum) (ref : GLint) (mask : GLuint)
  | glStencilFuncSeparate (face : GLenum) (func : GLenum) (ref : GLint) (mask : GLuint)
  | glStencilOp (sfail dpfail dppass : GLenum)
  | glStencilOpSeparate (face : GLenum) (sfail dpfail dppass : GLenum)
  | glStencilMask (mask : GLuint)
  | glStencilMaskSeparate (face : GLenum) (mask : GLuint)
  | glViewport (x y width height : GLint)
  | glScissor (x y width height : GLint)
  | glBindFramebuffer (target : GLenum) (framebuffer : GLuint)
  | glUseProgram (program : GLuint)
  | glBindVertexArray (array : GLuint)
  | glPrimitiveRestartIndex (index : GLuint)
  | glDrawElements (mode : GLenum) (count : Nat) (type : GLenum) (firstByte : Nat)
  | glDrawElementsBaseVertex (mode : GLenum) (count : Nat) (type : GLenum)
      (firstByte : Nat) (basevertex : Nat)
  | glCreateFramebuffers (created : GLuint)
  | glDeleteFramebuffers (framebuffer : GLuint)
  | glNamedFramebufferParameteri (framebuffer : GLuint) (pname : GLenum) (param : GLint)
  | glNamedFramebufferTexture (framebuffer : GLuint) (attachment : GLenum) (texture : GLuint)
      (level : Nat)
  | glNamedFramebufferTextureLayer (framebuffer : GLuint) (attachment : GLenum)
      (texture : GLuint) (level : Nat) (layer : GLint)
  | glNamedFramebufferRenderbuffer (framebuffer : GLuint) (attachment : GLenum)
      (renderbuffertarget : GLenum) (renderbuffer : GLuint)
  | glNamedFramebufferDrawBuffers (framebuffer : GLuint) (n : GLint) (bufs : List GLenum)
  | glClearNamedFramebufferfv (framebuffer : GLuint) (buffer : GLenum) (drawbuffer : GLint)
      (value : List GLfloat)
  | glClearNamedFramebufferuiv (framebuffer : GLuint) (buffer : GLenum) (drawbuffer : GLint)
      (value : List GLuint)
  | glClearNamedFramebufferiv (framebuffer : GLuint) (buffer : GLenum) (drawbuffer : GLint)
      (value : List GLint)
  deriving DecidableEq

/-! ## The context and its setters -/

/-- The cached fields of `Context`: the render state, the viewport, the scissor
rectangle (a `Lazy<glm::ivec4>`: absent when not created), the active target handle
and the vsync mode (as its integral value). -/
structure Context where
  state : RenderState
  viewport : IVec4
  scissor : Option IVec4
  activeRT : GLuint
  vsync : Int
  deriving DecidableEq

/-- The result of a setter: the cache afterwards and the native calls emitted, in order. -/
abbrev Emitted := Context × List GLCall

/-- Sequencing of two setters: run `f` on the cache left by `p` and append its calls. -/
def Emitted.andThen (p : Emitted) (f : Context → Emitted) : Emitted :=
  ((f p.1).1, p.2 ++ (f p.1).2)

namespace Context

def SetFaceCulling (c : Context) (mode : FaceCullModes) : Emitted :=
  if mode = FaceCullModes.Off then
    if c.state.CullMode ≠ FaceCullModes.Off then
      ({ c with state := { c.state with CullMode := FaceCullModes.Off } },
        [GLCall.glDisable GL_CULL_FACE])
    else (c, [])
  else
    let enable : List GLCall :=
      if c.state.CullMode = FaceCullModes.Off then [GLCall.glEnable GL_CULL_FACE] else []
    if c.state.CullMode ≠ mode then
      ({ c with state := { c.state with CullMode := mode } },
        enable ++ [GLCall.glCullFace mode.integral])
    else (c, enable)

def SetDepthTest (c : Context) (newTest : ValueTests) : Emitted :=
  let enable : List GLCall :=
    if c.state.DepthTest.toGLenum = GL_INVALID_ENUM then [GLCall.glEnable GL_DEPTH_TEST] else []
  if c.state.DepthTest ≠ newTest then
    ({ c with state := { c.state with DepthTest := newTest } },
      enable ++ [GLCall.glDepthFunc newTest.toGLenum])
  else (c, enable)

def SetDepthWrites (c : Context) (canWriteDepth : Bool) : Emitted :=
  if canWriteDepth ≠ c.state.EnableDepthWrite then
    ({ c with state := { c.state with EnableDepthWrite := canWriteDepth } },
      if canWriteDepth then [GLCall.glEnable GL_DEPTH_WRITEMASK]
      else [GLCall.glDisable GL_DEPTH_WRITEMASK])
  else (c, [])

def SetColorWriteMask (c : Context) (canWrite : BVec4) : Emitted :=
  if canWrite = c.state.ColorWriteMask then (c, [])
  else
    ({ c with state := { c.state with ColorWriteMask := canWrite } },
      [GLCall.glColorMask canWrite.r canWrite.g canWrite.b canWrite.a])


def GetBlending (c : Context) : Except String BlendStateRGBA :=
  let colorBlendTest : BlendStateAlpha :=
    { Src := c.state.ColorBlending.Src, Dest := c.state.ColorBlending.Dest,
      Op := c.state.ColorBlending.Op, Constant := c.state.AlphaBlending.Constant }
  if BlendState.eq FVec1.eq c.state.AlphaBlending colorBlendTest then
    .ok { Src := c.state.ColorBlending.Src, Dest := c.state.ColorBlending.Dest,
          Op := c.state.ColorBlending.Op,
          Constant := FVec4.ofRGBAlpha c.state.ColorBlending.Constant
                        c.state.AlphaBlending.Constant }
  else .error "Alpha blend state and color blend state do not match up"

def SetBlending (c : Context) (blendState : BlendStateRGBA) : Emitted :=
  let newColorBlending : BlendStateRGB :=
    { Src := blendState.Src, Dest := blendState.Dest, Op := blendState.Op,
      Constant := { r := blendState.Constant.r, g := blendState.Constant.g,
                    b := blendState.Constant.b } }
  let newAlphaBlending : BlendStateAlpha :=
    { Src := blendState.Src, Dest := blendState.Dest, Op := blendState.Op,
      Constant := { x := blendState.Constant.a } }
  if BlendState.eq FVec3.eq newColorBlending c.state.ColorBlending &&
      BlendState.eq FVec1.eq newAlphaBlending c.state.AlphaBlending then
    (c, [])
  else
    ({ c with state := { c.state with ColorBlending := newColorBlending,
                                      AlphaBlending := newAlphaBlending } },
      [GLCall.glBlendFunc blendState.Src.integral blendState.Dest.integral,
       GLCall.glBlendEquation blendState.Op.integral,
       GLCall.glBlendColor blendState.Constant.r blendState.Constant.g
         blendState.Constant.b blendState.Constant.a])

/-- The three native calls shared by `SetColorBlending` and `SetAlphaBlending`, which
read the cached state after the assignment. -/
def emitSeparateBlend (s : RenderState) : List GLCall :=
  [GLCall.glBlendFuncSeparate s.ColorBlending.Src.integral s.ColorBlending.Dest.integral
     s.AlphaBlending.Src.integral s.AlphaBlending.Dest.integral,
   GLCall.glBlendEquationSeparate s.ColorBlending.Op.integral s.AlphaBlending.Op.integral,
   GLCall.glBlendColor s.ColorBlending.Constant.r s.ColorBlending.Constant.g
     s.ColorBlending.Constant.b s.AlphaBlending.Constant.x]

def SetColorBlending (c : Context) (blendState : BlendStateRGB) : Emitted :=
  if BlendState.eq FVec3.eq blendState c.state.ColorBlending then (c, [])
  else
    let s : RenderState := { c.state with ColorBlending := blendState }
    ({ c with state := s }, emitSeparateBlend s)

def SetAlphaBlending (c : Context) (blendState : BlendStateAlpha) : Emitted :=
  if BlendState.eq FVec1.eq blendState c.state.AlphaBlending then (c, [])
  else
    let s : RenderState := { c.state with AlphaBlending := blendState }
    ({ c with state := s }, emitSeparateBlend s)

def GetStencilTest (c : Context) : Except String StencilTest :=
  if c.state.StencilTestFront = c.state.StencilTestBack then .ok c.state.StencilTestFront
  else .error "Front-face stencil test and back-face stencil test do not match"

def SetStencilTest (c : Context) (test : StencilTest) : Emitted :=
  if c.state.StencilTestFront = test ∧ c.state.StencilTestBack = test then (c, [])
  else
    ({ c with state := { c.state with StencilTestFront := test, StencilTestBack := test } },
      [GLCall.glStencilFunc test.Test.toGLenum test.RefValue test.Mask])

def SetStencilTestFrontFaces (c : Context) (test : StencilTest) : Emitted :=
  if test = c.state.StencilTestFront then (c, [])
  else
    ({ c with state := { c.state with StencilTestFront := test } },
      [GLCall.glStencilFuncSeparate GL_FRONT test.Test.toGLenum test.RefValue test.Mask])

def SetStencilTestBackFaces (c : Context) (test : StencilTest) : Emitted :=
  if test = c.state.StencilTestBack then (c, [])
  else
    ({ c with state := { c.state with StencilTestBack := test } },
      [GLCall.glStencilFuncSeparate GL_BACK test.Test.toGLenum test.RefValue test.Mask])

def GetStencilResult (c : Context) : Except String StencilResult :=
  if c.state.StencilResultFront = c.state.StencilResultBack then
    .ok c.state.StencilResultFront
  else .error "Front-face stencil result and back-face stencil result do not match"

def SetStencilResult (c : Context) (result : StencilResult) : Emitted :=
  if c.state.StencilResultFront = result ∧ c.state.StencilResultBack = result then (c, [])
  else
    ({ c with state := { c.state with StencilResultFront := result,
                                      StencilResultBack := result } },
      [GLCall.glStencilOp result.OnFailStencil.integral
         result.OnPassStencilFailDepth.integral result.OnPassStencilDepth.integral])

def SetStencilResultFrontFaces (c : Context) (result : StencilResult) : Emitted :=
  if result = c.state.StencilResultFront then (c, [])
  else
    ({ c with state := { c.state with StencilResultFront := result } },
      [GLCall.glStencilOpSeparate GL_FRONT result.OnFailStencil.integral
         result.OnPassStencilFailDepth.integral result.OnPassStencilDepth.integral])

def SetStencilResultBackFaces (c : Context) (result : StencilResult) : Emitted :=
  if result = c.state.StencilResultBack then (c, [])
  else
    ({ c with state := { c.state with StencilResultBack := result } },
      [GLCall.glStencilOpSeparate GL_BACK result.OnFailStencil.integral
         result.OnPassStencilFailDepth.integral result.OnPassStencilDepth.integral])

def GetStencilMask (c : Context) : Except String GLuint :=
  if c.state.StencilMaskFront = c.state.StencilMaskBack then .ok c.state.StencilMaskFront
  else .error "Front-face stencil mask and back-face stencil mask do not match up"

def SetStencilMask (c : Context) (mask : GLuint) : Emitted :=
  if c.state.StencilMaskFront = mask ∧ c.state.StencilMaskBack = mask then (c, [])
  else
    ({ c with state := { c.state with StencilMaskFront := mask, StencilMaskBack := mask } },
      [GLCall.glStencilMask mask])

def SetStencilMaskFrontFaces (c : Context) (mask : GLuint) : Emitted :=
  if mask = c.state.StencilMaskFront then (c, [])
  else
    ({ c with state := { c.state with StencilMaskFront := mask } },
      [GLCall.glStencilMaskSeparate GL_FRONT mask])

def SetStencilMaskBackFaces (c : Context) (mask : GLuint) : Emitted :=
  if mask = c.state.StencilMaskBack then (c, [])
  else
    ({ c with state := { c.state with StencilMaskBack := mask } },
      [GLCall.glStencilMaskSeparate GL_BACK mask])

def SetState (c : Context) (newState : RenderState) : Emitted :=
  (c.SetFaceCulling newState.CullMode)
    |>.andThen (fun c => c.SetDepthTest newState.DepthTest)
    |>.andThen (fun c => c.SetDepthWrites newState.EnableDepthWrite)
    |>.andThen (fun c => c.SetColorWriteMask newState.ColorWriteMask)
    |>.andThen (fun c => c.SetColorBlending newState.ColorBlending)
    |>.andThen (fun c => c.SetAlphaBlending newState.AlphaBlending)
    |>.andThen (fun c => c.SetStencilTestFrontFaces newState.StencilTestFront)
    |>.andThen (fun c => c.SetStencilTestBackFaces newState.StencilTestBack)
    |>.andThen (fun c => c.SetStencilResultFrontFaces newState.StencilResultFront)
    |>.andThen (fun c => c.SetStencilResultBackFaces newState.StencilResultBack)
    |>.andThen (fun c => c.SetStencilMaskFrontFaces newState.StencilMaskFront)
    |>.andThen (fun c => c.SetStencilMaskBackFaces newState.StencilMaskBack)

def SetActiveTarget (c : Context) (t : GLuint) : Emitted :=
  if c.activeRT ≠ t then
    ({ c with activeRT := t }, [GLCall.glBindFramebuffer GL_FRAMEBUFFER t])
  else (c, [])

def SetViewport (c : Context) (minX minY width height : GLint) : Emitted :=
  let newViewport : IVec4 := { x := minX, y := minY, z := width, w := height }
  if newViewport = c.viewport then (c, [])
  else ({ c with viewport := newViewport }, [GLCall.glViewport minX minY width height])

/-- The out-parameters of `GetViewport`, in the order (minX, minY, width, height). -/
def GetViewport (c : Context) : GLint × GLint × GLint × GLint :=
  (c.viewport.x, c.viewport.y, c.viewport.z, c.viewport.w)

def SetScissor (c : Context) (minX minY width height : GLint) : Emitted :=
  let created : Emitted :=
    if c.scissor.isNone then
      ({ c with scissor := some { x := -1, y := -1, z := -1, w := -1 } },
        [GLCall.glEnable GL_SCISSOR_TEST])
    else (c, [])
  let newScissor : IVec4 := { x := minX, y := minY, z := width, w := height }
  created.andThen fun c1 =>
    if c1.scissor ≠ some newScissor then
      ({ c1 with scissor := some newScissor }, [GLCall.glScissor minX minY width height])
    else (c1, [])

def DisableScissor (c : Context) : Emitted :=
  if c.scissor.isSome then
    ({ c with scissor := none }, [GLCall.glDisable GL_SCISSOR_TEST])
  else (c, [])

/-- The function `GetScissor`: the returned flag and the out-parameters (minX, minY,
width, height), which keep the caller's values `out` when the scissor is disabled. -/
def GetScissor (c : Context) (out : GLint × GLint × GLint × GLint) :
    Bool × (GLint × GLint × GLint × GLint) :=
  match c.scissor with
  | some r => (true, (r.x, r.y, r.z, r.w))
  | none => (false, out)

end Context

/-! ## The native driver, as the state record that the emitted calls update -/

/-- The capabilities of OpenGL 4.5 (core profile): the values that `glEnable`,
`glDisable` and `glIsEnabled` accept.  `GL_DEPTH_WRITEMASK` is not one of them: it names
the depth mask, which `glDepthMask` sets and `glGetBooleanv` reads. -/
def isCapability (cap : GLenum) : Bool :=
  decide (cap ∈ [GL_BLEND, GL_COLOR_LOGIC_OP, GL_CULL_FACE, GL_DEBUG_OUTPUT,
    GL_DEBUG_OUTPUT_SYNCHRONOUS, GL_DEPTH_CLAMP, GL_DEPTH_TEST, GL_DITHER, GL_FRAMEBUFFER_SRGB,
    GL_LINE_SMOOTH, GL_MULTISAMPLE, GL_POLYGON_OFFSET_FILL, GL_POLYGON_OFFSET_LINE,
    GL_POLYGON_OFFSET_POINT, GL_POLYGON_SMOOTH, GL_PRIMITIVE_RESTART,
    GL_PRIMITIVE_RESTART_FIXED_INDEX, GL_RASTERIZER_DISCARD, GL_SAMPLE_ALPHA_TO_COVERAGE,
    GL_SAMPLE_ALPHA_TO_ONE, GL_SAMPLE_COVERAGE, GL_SAMPLE_SHADING, GL_SAMPLE_MASK,
    GL_SCISSOR_TEST, GL_STENCIL_TEST, GL_TEXTURE_CUBE_MAP_SEAMLESS, GL_PROGRAM_POINT_SIZE]) ||
  (decide (GL_CLIP_DISTANCE0 ≤ cap) && decide (cap < GL_CLIP_DISTANCE0 + 8))

/-- The face selectors `GL_FRONT`, `GL_BACK` and `GL_FRONT_AND_BACK`. -/
def isFaceSelector (face : GLenum) : Bool :=
  decide (face = GL_FRONT) || decide (face = GL_BACK) || decide (face = GL_FRONT_AND_BACK)

/-- The eight comparison functions, `GL_NEVER` to `GL_ALWAYS`. -/
def isComparison (func : GLenum) : Bool := decide (GL_NEVER ≤ func) && decide (func ≤ GL_ALWAYS)

/-- The blend factors that `glBlendFunc` and `glBlendFuncSeparate` accept. -/
def isBlendFactor (factor : GLenum) : Bool :=
  decide (factor = GL_ZERO) || decide (factor = GL_ONE) ||
  (decide (GL_SRC_COLOR ≤ factor) && decide (factor ≤ GL_SRC_ALPHA_SATURATE)) ||
  (decide (GL_CONSTANT_COLOR ≤ factor) && decide (factor ≤ GL_ONE_MINUS_CONSTANT_ALPHA)) ||
  decide (factor = GL_SRC1_ALPHA) ||
  (decide (GL_SRC1_COLOR ≤ factor) && decide (factor ≤ GL_ONE_MINUS_SRC1_ALPHA))

/-- The blend equations that `glBlendEquation` and `glBlendEquationSeparate` accept. -/
def isBlendEquation (mode : GLenum) : Bool :=
  decide (mode ∈ [GL_FUNC_ADD, GL_MIN, GL_MAX, GL_FUNC_SUBTRACT, GL_FUNC_REVERSE_SUBTRACT])

/-- The stencil operations that `glStencilOp` and `glStencilOpSeparate` accept. -/
def isStencilOp (op : GLenum) : Bool :=
  decide (op ∈ [GL_KEEP, GL_ZERO, GL_REPLACE, GL_INCR, GL_INCR_WRAP, GL_DECR, GL_DECR_WRAP,
    GL_INVERT])

/-- The per-face stencil state of the driver. -/
structure StencilFace where
  func : GLenum
  ref : GLint
  valueMask : GLuint
  sfail : GLenum
  dpfail : GLenum
  dppass : GLenum
  writeMask : GLuint

/-- The part of the native driver state that the context mirrors, with what decides
whether the driver accepts a call: the capability flags switched by `glEnable` /
`glDisable`, the depth mask, the values read back by the `glGet` queries of
`Context::RefreshState`, the names of the framebuffer objects that exist, and the
limits of the implementation (the number of stencil bits, the largest viewport size and the
range of the viewport origin). -/
structure Driver where
  enabled : GLenum → Bool
  depthWriteMask : Bool
  cullFaceMode : GLenum
  depthFunc : GLenum
  colorWriteMask : BVec4
  blendSrcRGB : GLenum
  blendDstRGB : GLenum
  blendEquationRGB : GLenum
  blendSrcAlpha : GLenum
  blendDstAlpha : GLenum
  blendEquationAlpha : GLenum
  blendColor : FVec4
  stencilFront : StencilFace
  stencilBack : StencilFace
  stencilBits : Nat
  viewport : IVec4
  maxViewportWidth : GLint
  maxViewportHeight : GLint
  viewportBoundsMin : GLint
  viewportBoundsMax : GLint
  scissorBox : IVec4
  framebuffer : GLuint
  isFramebuffer : GLuint → Bool
  swapInterval : Int

namespace Driver

/-- Whether a face selector of a `...Separate` call covers the front faces. -/
def coversFront (face : GLenum) : Bool := face = GL_FRONT || face = GL_FRONT_AND_BACK

/-- Whether a face selector of a `...Separate` call covers the back faces. -/
def coversBack (face : GLenum) : Bool := face = GL_BACK || face = GL_FRONT_AND_BACK

/-- The query `glIsEnabled(cap)`: the flag of a capability, and false (with the error
`GL_INVALID_ENUM`) for a value that is no capability. -/
def isEnabled (d : Driver) (cap : GLenum) : Bool := isCapability cap && d.enabled cap

/-- The stencil reference value as the driver keeps it: clamped to the range of the
stencil buffer, from 0 to `2 ^ stencilBits - 1`. -/
def clampRef (d : Driver) (ref : GLint) : GLint := max 0 (min ref (2 ^ d.stencilBits - 1))

/-- A coordinate of the viewport origin as the driver keeps it: clamped to the viewport
bounds range. -/
def clampOrigin (d : Driver) (v : GLint) : GLint :=
  max d.viewportBoundsMin (min v d.viewportBoundsMax)

/-- The effect of one native call on the driver state.  A call with an argument that
OpenGL rejects (`GL_INVALID_ENUM` for a value that is no capability, face, comparison,
blend factor, blend equation or stencil operation; `GL_INVALID_VALUE` for a negative
width or height; `GL_INVALID_OPERATION` for a framebuffer name that does not exist)
leaves the state unchanged.  `glViewport` clamps the size to the largest viewport size
and the origin to the viewport bounds range, `glStencilFunc` the reference value to the
range of the stencil buffer.  Calls that do not touch the mirrored state (program and
vertex-array binding, draw calls, point parameters, the other calls on a named
framebuffer object) leave it unchanged. -/
def exec (d : Driver) : GLCall → Driver
  | .glEnable cap =>
      if isCapability cap then
        { d with enabled := fun k => if k = cap then true else d.enabled k }
      else d
  | .glDisable cap =>
      if isCapability cap then
        { d with enabled := fun k => if k = cap then false else d.enabled k }
      else d
  | .glCullFace mode => if isFaceSelector mode then { d with cullFaceMode := mode } else d
  | .glDepthFunc func => if isComparison func then { d with depthFunc := func } else d
  | .glColorMask r g b a => { d with colorWriteMask := { r := r, g := g, b := b, a := a } }
  | .glBlendFunc src dst =>
      if isBlendFactor src && isBlendFactor dst then
        { d with blendSrcRGB := src, blendDstRGB := dst, blendSrcAlpha := src,
                 blendDstAlpha := dst }
      else d
  | .glBlendEquation op =>
      if isBlendEquation op then { d with blendEquationRGB := op, blendEquationAlpha := op }
      else d
  | .glBlendFuncSeparate srcRGB dstRGB srcAlpha dstAlpha =>
      if isBlendFactor srcRGB && isBlendFactor dstRGB && isBlendFactor srcAlpha &&
          isBlendFactor dstAlpha then
        { d with blendSrcRGB := srcRGB, blendDstRGB := dstRGB,
                 blendSrcAlpha := srcAlpha, blendDstAlpha := dstAlpha }
      else d
  | .glBlendEquationSeparate opRGB opAlpha =>
      if isBlendEquation opRGB && isBlendEquation opAlpha then
        { d with blendEquationRGB := opRGB, blendEquationAlpha := opAlpha }
      else d
  | .glBlendColor r g b a => { d with blendColor := { r := r, g := g, b := b, a := a } }
  | .glStencilFunc func ref mask =>
      if isComparison func then
        { d with
          stencilFront :=
            { d.stencilFront with func := func, ref := d.clampRef ref, valueMask := mask },
          stencilBack :=
            { d.stencilBack with func := func, ref := d.clampRef ref, valueMask := mask } }
      else d
  | .glStencilFuncSeparate face func ref mask =>
      if isFaceSelector face && isComparison func then
        { d with
          stencilFront :=
            if coversFront face then
              { d.stencilFront with func := func, ref := d.clampRef ref, valueMask := mask }
            else d.stencilFront,
          stencilBack :=
            if coversBack face then
              { d.stencilBack with func := func, ref := d.clampRef ref, valueMask := mask }
            else d.stencilBack }
      else d
  | .glStencilOp sfail dpfail dppass =>
      if isStencilOp sfail && isStencilOp dpfail && isStencilOp dppass then
        { d with
          stencilFront :=
            { d.stencilFront with sfail := sfail, dpfail := dpfail, dppass := dppass },
          stencilBack :=
            { d.stencilBack with sfail := sfail, dpfail := dpfail, dppass := dppass } }
      else d
  | .glStencilOpSeparate face sfail dpfail dppass =>
      if isFaceSelector face && isStencilOp sfail && isStencilOp dpfail &&
          isStencilOp dppass then
        { d with
          stencilFront :=
            if coversFront face then
              { d.stencilFront with sfail := sfail, dpfail := dpfail, dppass := dppass }
            else d.stencilFront,
          stencilBack :=
            if coversBack face then
              { d.stencilBack with sfail := sfail, dpfail := dpfail, dppass := dppass }
            else d.stencilBack }
      else d
  | .glStencilMask mask =>
      { d with stencilFront := { d.stencilFront with writeMask := mask },
               stencilBack := { d.stencilBack with writeMask := mask } }
  | .glStencilMaskSeparate face mask =>
      if isFaceSelector face then
        { d with
          stencilFront :=
            if coversFront face then { d.stencilFront with writeMask := mask }
            else d.stencilFront,
          stencilBack :=
            if coversBack face then { d.stencilBack with writeMask := mask }
            else d.stencilBack }
      else d
  | .glViewport x y width height =>
      if width < 0 ∨ height < 0 then d
      else
        { d with viewport := { x := d.clampOrigin x, y := d.clampOrigin y,
                               z := min width d.maxViewportWidth,
                               w := min height d.maxViewportHeight } }
  | .glScissor x y width height =>
      if width < 0 ∨ height < 0 then d
      else { d with scissorBox := { x := x, y := y, z := width, w := height } }
  | .glBindFramebuffer target framebuffer =>
      if (target = GL_FRAMEBUFFER ∨ target = GL_DRAW_FRAMEBUFFER) ∧
          (framebuffer = 0 ∨ d.isFramebuffer framebuffer = true) then
        { d with framebuffer := framebuffer }
      else d
  | .glCreateFramebuffers created =>
      { d with isFramebuffer := fun k => if k = created then true else d.isFramebuffer k }
  | .glDeleteFramebuffers framebuffer =>
      { d with
        isFramebuffer := fun k => if k = framebuffer then false else d.isFramebuffer k,
        framebuffer := if d.framebuffer = framebuffer then 0 else d.framebuffer }
  | .glPointParameteri _ _ => d
  | .glUseProgram _ => d
  | .glBindVertexArray _ => d
  | .glPrimitiveRestartIndex _ => d
  | .glDrawElements _ _ _ _ => d
  | .glDrawElementsBaseVertex _ _ _ _ _ => d
  | .glNamedFramebufferParameteri _ _ _ => d
  | .glNamedFramebufferTexture _ _ _ _ => d
  | .glNamedFramebufferTextureLayer _ _ _ _ _ => d
  | .glNamedFramebufferRenderbuffer _ _ _ _ => d
  | .glNamedFramebufferDrawBuffers _ _ _ => d
  | .glClearNamedFramebufferfv _ _ _ _ => d
  | .glClearNamedFramebufferuiv _ _ _ _ => d
  | .glClearNamedFramebufferiv _ _ _ _ => d

/-- The driver state after a list of native calls, executed in order. -/
def execAll (d : Driver) (calls : List GLCall) : Driver := calls.foldl exec d

/-- The render state that the driver holds, each field by the query that reads it
(`glIsEnabled(GL_CULL_FACE)` and `glGet` with `GL_CULL_FACE_MODE` for the cull mode, `glGet`
with `GL_DEPTH_WRITEMASK` for the depth-write flag, and so on); absent when a comparison
function it holds is no member of `ValueTests`. -/
def reportedState (d : Driver) : Option RenderState :=
  match ValueTests._from_integral d.depthFunc,
        ValueTests._from_integral d.stencilFront.func,
        ValueTests._from_integral d.stencilBack.func with
  | some depthTest, some testFront, some testBack =>
      some
        { CullMode := if d.isEnabled GL_CULL_FACE then ⟨d.cullFaceMode⟩ else FaceCullModes.Off,
          DepthTest := depthTest,
          EnableDepthWrite := d.depthWriteMask,
          ColorWriteMask := d.colorWriteMask,
          ColorBlending :=
            { Src := ⟨d.blendSrcRGB⟩, Dest := ⟨d.blendDstRGB⟩, Op := ⟨d.blendEquationRGB⟩,
              Constant := { r := d.blendColor.r, g := d.blendColor.g, b := d.blendColor.b } },
          AlphaBlending :=
            { Src := ⟨d.blendSrcAlpha⟩, Dest := ⟨d.blendDstAlpha⟩, Op := ⟨d.blendEquationAlpha⟩,
              Constant := { x := d.blendColor.a } },
          StencilTestFront :=
            { Test := testFront, RefValue := d.stencilFront.ref, Mask := d.stencilFront.valueMask },
          StencilTestBack :=
            { Test := testBack, RefValue := d.stencilBack.ref, Mask := d.stencilBack.valueMask },
          StencilResultFront :=
            { OnFailStencil := ⟨d.stencilFront.sfail⟩,
              OnPassStencilFailDepth := ⟨d.stencilFront.dpfail⟩,
              OnPassStencilDepth := ⟨d.stencilFront.dppass⟩ },
          StencilResultBack :=
            { OnFailStencil := ⟨d.stencilBack.sfail⟩,
              OnPassStencilFailDepth := ⟨d.stencilBack.dpfail⟩,
              OnPassStencilDepth := ⟨d.stencilBack.dppass⟩ },
          StencilMaskFront := d.stencilFront.writeMask,
          StencilMaskBack := d.stencilBack.writeMask }
  | _, _, _ => none

/-- The scissor rectangle that the driver reports: absent when the scissor test is
disabled. -/
def reportedScissor (d : Driver) : Option IVec4 :=
  if d.isEnabled GL_SCISSOR_TEST then some d.scissorBox else none

end Driver

/-- The value that a `glGetIntegerv` query stores into a `GLint` for an unsigned
32-bit state variable (the same 32 bits, read as a signed number). -/
def asGLint (n : GLuint) : GLint := if n < 2 ^ 31 then (n : Int) else (n : Int) - 2 ^ 32

/-- The cast `(GLuint)i` of a `GLint`. -/
def toGLuint (i : GLint) : GLuint := (i % 2 ^ 32).toNat

/-- The native calls at the start of `Context::RefreshState`, which leave a handful of
features enabled permanently. -/
def refreshPrelude : List GLCall :=
  [GLCall.glEnable GL_BLEND, GLCall.glEnable GL_STENCIL_TEST, GLCall.glEnable GL_DEPTH_TEST,
   GLCall.glEnable GL_PROGRAM_POINT_SIZE, GLCall.glDisable GL_PRIMITIVE_RESTART_FIXED_INDEX,
   GLCall.glPointParameteri GL_POINT_SPRITE_COORD_ORIGIN GL_UPPER_LEFT]

/-- The function `Context::RefreshState`, on the cache `c` and the driver `d`: the cache
and the driver afterwards, or `none` when a checked `_from_integral` conversion rejects
a value that the driver reports.  The statements are in the order of the source; the
registered refresh callbacks, which belong to other subsystems and do not touch the
fields of the context, are left out. -/
def Context.RefreshState (c : Context) (d : Driver) : Option (Context × Driver) := do
  let d := d.execAll refreshPrelude
  -- if (glIsEnabled(GL_SCISSOR_TEST)) scissor = tempI4 (GL_SCISSOR_BOX) else scissor.Clear()
  let scissor : Option IVec4 := if d.isEnabled GL_SCISSOR_TEST then some d.scissorBox else none
  -- state.EnableDepthWrite = glIsEnabled(GL_DEPTH_WRITEMASK)
  let enableDepthWrite := d.isEnabled GL_DEPTH_WRITEMASK
  let vsync := d.swapInterval
  let colorWriteMask := d.colorWriteMask
  let cullMode : FaceCullModes :=
    if d.isEnabled GL_CULL_FACE then ⟨d.cullFaceMode⟩ else FaceCullModes.Off
  -- glGetIntegerv(GL_VIEWPORT, glm::value_ptr(tempI4)): the value read into tempI4 is
  -- overwritten by no assignment to the cached viewport
  let _tempI4 : IVec4 := d.viewport
  let depthTest ← ValueTests._from_integral d.depthFunc
  let colorBlending : BlendStateRGB :=
    { Src := ⟨d.blendSrcRGB⟩, Dest := ⟨d.blendDstRGB⟩, Op := ⟨d.blendEquationRGB⟩,
      Constant := { r := d.blendColor.r, g := d.blendColor.g, b := d.blendColor.b } }
  let alphaBlending : BlendStateAlpha :=
    { Src := ⟨d.blendSrcAlpha⟩, Dest := ⟨d.blendDstAlpha⟩, Op := ⟨d.blendEquationAlpha⟩,
      Constant := { x := d.blendColor.a } }
  -- faceI == 0
  let testFront ← ValueTests._from_integral d.stencilFront.func
  let stencilTestFront : StencilTest :=
    { Test := testFront, RefValue := d.stencilFront.ref,
      Mask := toGLuint (asGLint d.stencilFront.valueMask) }
  let stencilResultFront : StencilResult :=
    { OnFailStencil := ⟨d.stencilFront.sfail⟩, OnPassStencilFailDepth := ⟨d.stencilFront.dpfail⟩,
      OnPassStencilDepth := ⟨d.stencilFront.dppass⟩ }
  let stencilMaskFront := toGLuint (asGLint d.stencilFront.writeMask)
  -- faceI == 1
  let testBack ← ValueTests._from_integral d.stencilBack.func
  let stencilTestBack : StencilTest :=
    { Test := testBack, RefValue := d.stencilBack.ref,
      Mask := toGLuint (asGLint d.stencilBack.valueMask) }
  let stencilResultBack : StencilResult :=
    { OnFailStencil := ⟨d.stencilBack.sfail⟩, OnPassStencilFailDepth := ⟨d.stencilBack.dpfail⟩,
      OnPassStencilDepth := ⟨d.stencilBack.dppass⟩ }
  let stencilMaskBack := toGLuint (asGLint d.stencilBack.writeMask)
  pure
    ({ c with
        scissor := scissor
        vsync := vsync
        state :=
          { CullMode := cullMode, DepthTest := depthTest, EnableDepthWrite := enableDepthWrite,
            ColorWriteMask := colorWriteMask, ColorBlending := colorBlending,
            AlphaBlending := alphaBlending,
            StencilTestFront := stencilTestFront, StencilTestBack := stencilTestBack,
            StencilResultFront := stencilResultFront, StencilResultBack := stencilResultBack,
            StencilMaskFront := stencilMaskFront, StencilMaskBack := stencilMaskBack } },
     d)

/-! ## Meshes and draw dispatch -/

/-- Modelled from the spec: the enum `IndexDataTypes` of the absent mesh headers, the
unsigned integer types that an index buffer can hold. -/
inductive IndexDataTypes where
  | UInt8
  | UInt16
  | UInt32
  deriving DecidableEq

/-- Modelled from the spec: the helper `GetByteSize(IndexDataTypes)` of the absent mesh
headers, the per-index byte size of an index type. -/
def GetByteSize : IndexDataTypes → Nat
  | .UInt8 => 1
  | .UInt16 => 2
  | .UInt32 => 4

/-- The cast `(GLenum)indexType`. -/
def IndexDataTypes.toGLenum : IndexDataTypes → GLenum
  | .UInt8 => GL_UNSIGNED_BYTE
  | .UInt16 => GL_UNSIGNED_SHORT
  | .UInt32 => GL_UNSIGNED_INT

/-- A native buffer: its handle and its size in bytes (`Buffer::GetByteSize`). -/
structure Buffer where
  glPtr : GLuint
  byteSize : Nat
  deriving DecidableEq

/-- A reference to a buffer holding mesh data, with the byte size of one element. -/
structure MeshDataSource where
  Buf : Buffer
  DataStructSize : Nat
  InitialByteOffset : Nat
  deriving DecidableEq

/-- The fields of `MeshData` that draw dispatch reads.  The index data is held with the
buffer that `Buffer::Find` returns for the stored buffer handle. -/
structure MeshData where
  glPtr : GLuint
  PrimitiveType : GLenum
  indexDataType : IndexDataTypes
  indexData : Option MeshDataSource
  deriving DecidableEq

namespace MeshData

/-- Modelled from the spec: the inline accessor `MeshData::HasIndexData` of the absent
`MeshData.h`, whether index data is present. -/
def HasIndexData (m : MeshData) : Bool := m.indexData.isSome

def GetIndexData (m : MeshData) : Option MeshDataSource :=
  if m.HasIndexData then m.indexData else none

def GetIndexDataType (m : MeshData) : Option IndexDataTypes :=
  if m.HasIndexData then some m.indexDataType else none

def Activate (m : MeshData) : List GLCall := [GLCall.glBindVertexArray m.glPtr]

end MeshData

/-- The one-dimensional unsigned interval `Math::IntervalU`, by the `x` components of
its minimum corner and its size. -/
structure IntervalU where
  MinCorner : Nat
  Size : Nat
  deriving DecidableEq

/-- Modelled from the spec: the factory `Math::IntervalU::MakeSize` of the absent math
headers, the interval of the given size that starts at zero. -/
def IntervalU.MakeSize (size : Nat) : IntervalU := { MinCorner := 0, Size := size }

/-- The draw description `DrawMeshMode_Basic`. -/
structure DrawMeshMode_Basic where
  Data : MeshData
  Primitive : GLenum
  Elements : IntervalU
  deriving DecidableEq

/-- The constructor `DrawMeshMode_Basic::DrawMeshMode_Basic(mesh, _nElements)`.  The
local `nElements` is a `uint32_t`, so the quotient is reduced modulo `2 ^ 32`. -/
def DrawMeshMode_Basic.construct (mesh : MeshData) (_nElements : Option Nat) :
    Except String DrawMeshMode_Basic :=
  let finish (nElements : Nat) : DrawMeshMode_Basic :=
    { Data := mesh, Primitive := mesh.PrimitiveType, Elements := IntervalU.MakeSize nElements }
  match _nElements with
  | some n => .ok (finish n)
  | none =>
    if mesh.HasIndexData then
      match mesh.GetIndexData, mesh.GetIndexDataType with
      | some indexData, some indexType =>
        if indexData.DataStructSize ≠ GetByteSize indexType then
          .error "Listed byte-size of the data in the index buffer does not match the size expected by the mesh"
        else if indexData.Buf.byteSize % indexData.DataStructSize ≠ 0 then
          .error "Index buffer size is not divisible by the byte size of one element"
        else .ok (finish (indexData.Buf.byteSize / indexData.DataStructSize % 2 ^ 32))
      | _, _ => .error "bad optional access"
    else .error "Cannot deduce the Count from a non-indexed MeshData automatically!"

/-- The indexed-draw parameters `DrawMeshMode_Indexed`. -/
structure DrawMeshMode_Indexed where
  ResetValue : Option GLuint
  ValueOffset : Nat
  deriving DecidableEq

/-- A compiled shader, identified by its program handle. -/
structure CompiledShader where
  programHandle : GLuint
  deriving DecidableEq

/-- The function `CompiledShader::Activate`, on the thread's current shader: the
current shader afterwards and the native calls emitted. -/
def CompiledShader.Activate (shader : CompiledShader) (currentShader : Option CompiledShader) :
    Option CompiledShader × List GLCall :=
  if currentShader = some shader then (currentShader, [])
  else (some shader, [GLCall.glUseProgram shader.programHandle])

/-- What a draw call did: the native calls emitted up to its return or its failed
assertion, and the thread's current shader on return or the assertion message. -/
structure DrawOutcome where
  emitted : List GLCall
  result : Except String (Option CompiledShader)

/-- The indexed overload `Context::Draw(mesh, indices, shader)`. -/
def Context.Draw (mesh : DrawMeshMode_Basic) (indices : DrawMeshMode_Indexed)
    (shader : CompiledShader) (currentShader : Option CompiledShader) : DrawOutcome :=
  if ¬ mesh.Data.HasIndexData then
    { emitted := [], result := .error "Using indexed drawing on a mesh with no index data" }
  else
    let activated := shader.Activate currentShader
    let restart : List GLCall :=
      match indices.ResetValue with
      | some v => [GLCall.glEnable GL_PRIMITIVE_RESTART, GLCall.glPrimitiveRestartIndex v]
      | none => [GLCall.glDisable GL_PRIMITIVE_RESTART]
    let calls := activated.2 ++ mesh.Data.Activate ++ restart
    match mesh.Data.GetIndexDataType with
    | none => { emitted := calls, result := .error "bad optional access" }
    | some indexType =>
      let firstByte := GetByteSize indexType * mesh.Elements.MinCorner
      let draw : GLCall :=
        if indices.ValueOffset = 0 then
          GLCall.glDrawElements mesh.Primitive mesh.Elements.Size indexType.toGLenum firstByte
        else
          GLCall.glDrawElementsBaseVertex mesh.Primitive mesh.Elements.Size indexType.toGLenum
            firstByte indices.ValueOffset
      { emitted := calls ++ [draw], result := .ok activated.1 }

/-! ## The setters as one family -/

/-- A call of one of the diffing setters of `Context`, with its arguments. -/
inductive SetterCall where
  | SetFaceCulling (mode : FaceCullModes)
  | SetDepthTest (newTest : ValueTests)
  | SetDepthWrites (canWriteDepth : Bool)
  | SetColorWriteMask (canWrite : BVec4)
  | SetBlending (blendState : BlendStateRGBA)
  | SetColorBlending (blendState : BlendStateRGB)
  | SetAlphaBlending (blendState : BlendStateAlpha)
  | SetStencilTest (test : StencilTest)
  | SetStencilTestFrontFaces (test : StencilTest)
  | SetStencilTestBackFaces (test : StencilTest)
  | SetStencilResult (result : StencilResult)
  | SetStencilResultFrontFaces (result : StencilResult)
  | SetStencilResultBackFaces (result : StencilResult)
  | SetStencilMask (mask : GLuint)
  | SetStencilMaskFrontFaces (mask : GLuint)
  | SetStencilMaskBackFaces (mask : GLuint)
  | SetViewport (minX minY width height : GLint)
  | SetActiveTarget (t : GLuint)

namespace SetterCall

/-- Running a setter call on the cache. -/
def run (c : Context) : SetterCall → Emitted
  | SetFaceCulling mode => c.SetFaceCulling mode
  | SetDepthTest newTest => c.SetDepthTest newTest
  | SetDepthWrites canWriteDepth => c.SetDepthWrites canWriteDepth
  | SetColorWriteMask canWrite => c.SetColorWriteMask canWrite
  | SetBlending blendState => c.SetBlending blendState
  | SetColorBlending blendState => c.SetColorBlending blendState
  | SetAlphaBlending blendState => c.SetAlphaBlending blendState
  | SetStencilTest test => c.SetStencilTest test
  | SetStencilTestFrontFaces test => c.SetStencilTestFrontFaces test
  | SetStencilTestBackFaces test => c.SetStencilTestBackFaces test
  | SetStencilResult result => c.SetStencilResult result
  | SetStencilResultFrontFaces result => c.SetStencilResultFrontFaces result
  | SetStencilResultBackFaces result => c.SetStencilResultBackFaces result
  | SetStencilMask mask => c.SetStencilMask mask
  | SetStencilMaskFrontFaces mask => c.SetStencilMaskFrontFaces mask
  | SetStencilMaskBackFaces mask => c.SetStencilMaskBackFaces mask
  | SetViewport minX minY width height => c.SetViewport minX minY width height
  | SetActiveTarget t => c.SetActiveTarget t

/-- The cache `c` holds the value that the call requests, in every field that the call
writes (for a combined setter: in both halves). -/
def HeldBy (c : Context) : SetterCall → Prop
  | SetFaceCulling mode => c.state.CullMode = mode
  | SetDepthTest newTest => c.state.DepthTest = newTest
  | SetDepthWrites canWriteDepth => c.state.EnableDepthWrite = canWriteDepth
  | SetColorWriteMask canWrite => c.state.ColorWriteMask = canWrite
  | SetBlending blendState =>
      c.state.ColorBlending =
          { Src := blendState.Src, Dest := blendState.Dest, Op := blendState.Op,
            Constant := { r := blendState.Constant.r, g := blendState.Constant.g,
                          b := blendState.Constant.b } } ∧
        c.state.AlphaBlending =
          { Src := blendState.Src, Dest := blendState.Dest, Op := blendState.Op,
            Constant := { x := blendState.Constant.a } }
  | SetColorBlending blendState => c.state.ColorBlending = blendState
  | SetAlphaBlending blendState => c.state.AlphaBlending = blendState
  | SetStencilTest test => c.state.StencilTestFront = test ∧ c.state.StencilTestBack = test
  | SetStencilTestFrontFaces test => c.state.StencilTestFront = test
  | SetStencilTestBackFaces test => c.state.StencilTestBack = test
  | SetStencilResult result =>
      c.state.StencilResultFront = result ∧ c.state.StencilResultBack = result
  | SetStencilResultFrontFaces result => c.state.StencilResultFront = result
  | SetStencilResultBackFaces result => c.state.StencilResultBack = result
  | SetStencilMask mask => c.state.StencilMaskFront = mask ∧ c.state.StencilMaskBack = mask
  | SetStencilMaskFrontFaces mask => c.state.StencilMaskFront = mask
  | SetStencilMaskBackFaces mask => c.state.StencilMaskBack = mask
  | SetViewport minX minY width height =>
      c.viewport = { x := minX, y := minY, z := width, w := height }
  | SetActiveTarget t => c.activeRT = t

/-- Whether the value that the call requests holds a NaN, in a blend constant. -/
def hasNaN : SetterCall → Bool
  | SetBlending blendState => blendState.Constant.hasNaN
  | SetColorBlending blendState => blendState.Constant.hasNaN
  | SetAlphaBlending blendState => blendState.Constant.hasNaN
  | _ => false

end SetterCall

/-- Whether a blend constant of the render state holds a NaN. -/
def RenderState.hasNaN (s : RenderState) : Bool :=
  s.ColorBlending.Constant.hasNaN || s.AlphaBlending.Constant.hasNaN

/-! ## Concrete inputs -/

/-- A blend state with source factor 1, destination factor 0, operation `GL_FUNC_ADD`. -/
def exampleBlend (C : Type) (constant : C) : BlendState C :=
  { Src := ⟨1⟩, Dest := ⟨0⟩, Op := ⟨0x8006⟩, Constant := constant }

/-- A stencil test that always passes. -/
def exampleStencilTest : StencilTest := { Test := .Off, RefValue := 0, Mask := 0xFFFFFFFF }

/-- A stencil result that keeps the stencil buffer (`GL_KEEP`). -/
def exampleStencilResult : StencilResult :=
  { OnFailStencil := ⟨0x1E00⟩, OnPassStencilFailDepth := ⟨0x1E00⟩,
    OnPassStencilDepth := ⟨0x1E00⟩ }

/-- A render state: no culling, depth test `LessThan` with depth writes, opaque blending. -/
def exampleState : RenderState :=
  { CullMode := FaceCullModes.Off, DepthTest := .LessThan, EnableDepthWrite := true,
    ColorWriteMask := { r := true, g := true, b := true, a := true },
    ColorBlending := exampleBlend FVec3 { r := 0, g := 0, b := 0 },
    AlphaBlending := exampleBlend FVec1 { x := 0 },
    StencilTestFront := exampleStencilTest, StencilTestBack := exampleStencilTest,
    StencilResultFront := exampleStencilResult, StencilResultBack := exampleStencilResult,
    StencilMaskFront := 0xFFFFFFFF, StencilMaskBack := 0xFFFFFFFF }

/-- A context whose cache holds `exampleState`, an empty viewport and no scissor. -/
def exampleContext : Context :=
  { state := exampleState, viewport := { x := 0, y := 0, z := 0, w := 0 },
    scissor := none, activeRT := 0, vsync := 0 }

/-- The example render state with NaN as the red component of the RGB blend constant. -/
def exampleNaNState : RenderState :=
  { exampleState with ColorBlending := exampleBlend FVec3 { r := .nan, g := 0, b := 0 } }

/-- The example context with NaN as the alpha blend constant; the RGB and the alpha blend
state have the same factors and operation. -/
def exampleNaNAlphaContext : Context :=
  { exampleContext with
    state := { exampleState with AlphaBlending := exampleBlend FVec1 { x := .nan } } }

/-- The stencil state of one face in `exampleDriver`. -/
def exampleStencilFace : StencilFace :=
  { func := GL_ALWAYS, ref := 0, valueMask := 0xFFFFFFFF,
    sfail := 0x1E00, dpfail := 0x1E00, dppass := 0x1E00, writeMask := 0xFFFFFFFF }

/-- A driver whose state is the one `exampleContext` caches, with the given viewport. -/
def exampleDriver (viewport : IVec4) : Driver :=
  { enabled := fun _ => false, depthWriteMask := true,
    cullFaceMode := GL_BACK, depthFunc := GL_LESS,
    colorWriteMask := { r := true, g := true, b := true, a := true },
    blendSrcRGB := 1, blendDstRGB := 0, blendEquationRGB := 0x8006,
    blendSrcAlpha := 1, blendDstAlpha := 0, blendEquationAlpha := 0x8006,
    blendColor := { r := 0, g := 0, b := 0, a := 0 },
    stencilFront := exampleStencilFace, stencilBack := exampleStencilFace, stencilBits := 8,
    viewport := viewport, maxViewportWidth := 16384, maxViewportHeight := 16384,
    viewportBoundsMin := -32768, viewportBoundsMax := 32767,
    scissorBox := { x := 0, y := 0, z := 800, w := 600 },
    framebuffer := 0, isFramebuffer := fun _ => false, swapInterval := 0 }

/-- The two-triangle mesh of the unit tests: six 16-bit indices in a 12-byte buffer. -/
def exampleIndexedMesh : MeshData :=
  { glPtr := 1, PrimitiveType := 4, indexDataType := .UInt16,
    indexData := some { Buf := { glPtr := 2, byteSize := 12 }, DataStructSize := 2,
                        InitialByteOffset := 0 } }

/-- A mesh whose index buffer holds `2 ^ 32` 8-bit indices. -/
def exampleHugeMesh : MeshData :=
  { glPtr := 1, PrimitiveType := 4, indexDataType := .UInt8,
    indexData := some { Buf := { glPtr := 2, byteSize := 2 ^ 32 }, DataStructSize := 1,
                        InitialByteOffset := 0 } }

/-- A mesh without index data (the full-screen triangle of the unit tests). -/
def examplePlainMesh : MeshData :=
  { glPtr := 3, PrimitiveType := 4, indexDataType := .UInt8, indexData := none }

/-! ## The driver state, field by field -/

/-- The type of data representing each colour channel of a pixel. -/
inductive FormatTypes where
  | Float
  | NormalizedUInt
  | NormalizedInt
  | UInt
  | Int
  deriving DecidableEq

/-- The sets of components of a simple format. -/
inductive FormatComponents where
  | R
  | RG
  | RGB
  | RGBA
  deriving DecidableEq

/-- The bit depths of the components of a simple format. -/
inductive BitDepths where
  | B2
  | B4
  | B5
  | B8
  | B10
  | B12
  | B16
  deriving DecidableEq

/-- A straightforward texture format (the field `Type` is written `Type_`). -/
structure SimpleFormat where
  Type_ : FormatTypes
  Components : FormatComponents
  ChannelBitSize : BitDepths
  deriving DecidableEq

/-- Special one-off texture formats. -/
inductive SpecialFormats where
  | R5_G6_B5
  | RGB10_A2
  | RGB10_A2_UInt
  | RGB_TinyFloats
  | RGB_SharedExpFloats
  | sRGB
  | sRGB_LinearAlpha
  | R3_G3_B2
  | RGB5_A1
  deriving DecidableEq

/-- Block-compressed texture formats. -/
inductive CompressedFormats where
  | Greyscale_NormalizedUInt
  | Greyscale_NormalizedInt
  | RG_NormalizedUInt
  | RG_NormalizedInt
  | RGB_Float
  | RGB_UFloat
  | RGBA_NormalizedUInt
  | RGBA_sRGB_NormalizedUInt
  deriving DecidableEq

/-- Formats for depth and/or stencil textures. -/
inductive DepthStencilFormats where
  | Depth_16U
  | Depth_24U
  | Depth_32U
  | Depth_32F
  | Stencil_8
  | Depth24U_Stencil8
  | Depth32F_Stencil8
  deriving DecidableEq

/-- Modelled from the spec: the free function `IsDepthOnly(DepthStencilFormats)`, which
`Target.cpp` calls and no source file defines; read off the member comments of the enum
(a depth texture with no stencil). -/
def IsDepthOnly : DepthStencilFormats → Bool
  | .Depth_16U => true
  | .Depth_24U => true
  | .Depth_32U => true
  | .Depth_32F => true
  | _ => false

/-- Modelled from the spec: the free function `IsStencilOnly(DepthStencilFormats)`, which
`Target.cpp` calls and no source file defines (a stencil texture with no depth). -/
def IsStencilOnly : DepthStencilFormats → Bool
  | .Stencil_8 => true
  | _ => false

/-- Modelled from the spec: the free function `IsDepthAndStencil(DepthStencilFormats)`,
which `Target.cpp` calls and no source file defines (a hybrid depth/stencil texture). -/
def IsDepthAndStencil : DepthStencilFormats → Bool
  | .Depth24U_Stencil8 => true
  | .Depth32F_Stencil8 => true
  | _ => false

/-- The pixel format of a texture: the variant `Format::TypeUnion`. -/
inductive Format where
  | Simple (format : SimpleFormat)
  | Special (format : SpecialFormats)
  | Compressed (format : CompressedFormats)
  | DepthStencil (format : DepthStencilFormats)
  deriving DecidableEq

namespace Format

def IsSimple : Format → Bool
  | .Simple _ => true
  | _ => false

def IsCompressed : Format → Bool
  | .Compressed _ => true
  | _ => false

def IsDepthStencil : Format → Bool
  | .DepthStencil _ => true
  | _ => false

/-- Modelled from the spec: the accessor `Format::AsDepthStencil`, which `Target.cpp`
calls and this `Format.h` does not declare: the depth/stencil alternative of the
variant, and a failed variant access for every other alternative. -/
def AsDepthStencil : Format → Except String DepthStencilFormats
  | .DepthStencil format => .ok format
  | _ => .error "bad variant access"

end Format

/-- Modelled from the spec: the queries `Format::IsInteger` and
`Format::GetComponentType`, which the sources call and this `Format.h` does not declare
(the numeric-kind classification of a pixel format), taken as parameters. -/
structure FormatQueries where
  IsInteger : Format → Bool
  GetComponentType : Format → FormatTypes

/-! ## Textures and target outputs (`Target.cpp`) -/

/-- The glm vector `glm::uvec2`. -/
structure UVec2 where
  x : Nat
  y : Nat
  deriving DecidableEq

/-- The glm vector `glm::uvec3`. -/
structure UVec3 where
  x : Nat
  y : Nat
  z : Nat
  deriving DecidableEq

/-- The component-wise minimum `glm::min` on `glm::uvec2`. -/
def UVec2.min (a b : UVec2) : UVec2 := { x := Nat.min a.x b.x, y := Nat.min a.y b.y }

/-- The largest `uint32_t`, `std::numeric_limits<uint32_t>().max()`. -/
def u32Max : Nat := 2 ^ 32 - 1

/-- What the target code reads of a texture object (`Texture1D`, `Texture2D`,
`Texture3D` or `TextureCube`, whose classes are not part of the sources): its native
handle, its format and its size (`GetSize()`; for a cubemap `GetSize2D()` is the `x` and
`y` components). -/
structure Texture where
  glPtr : GLuint
  format : Format
  size : UVec3
  deriving DecidableEq

/-- Modelled from the spec: the enum `CubeFaces` of the absent texture headers, the six
faces of a cubemap in the order of their index. -/
inductive CubeFaces where
  | PosX
  | NegX
  | PosY
  | NegY
  | PosZ
  | NegZ
  deriving DecidableEq

/-- The index `_to_index()` of a cubemap face. -/
def CubeFaces._to_index : CubeFaces → Nat
  | .PosX => 0
  | .NegX => 1
  | .PosY => 2
  | .NegY => 3
  | .PosZ => 4
  | .NegZ => 5

/-- The variant held by a `TargetOutput`, one alternative for each constructor. -/
inductive TargetOutputData where
  | Tex1D (tex : Texture)
  | Tex2D (tex : Texture)
  | Tex3D (tex : Texture)
  | TexCube (tex : Texture)
  | Tex3DSlice (tex : Texture) (slice : Nat)
  | TexCubeFace (tex : Texture) (face : CubeFaces)
  deriving DecidableEq

/-- A reference to part or all of a texture, to be used as an output of a target. -/
structure TargetOutput where
  data : TargetOutputData
  MipLevel : Nat
  deriving DecidableEq

namespace TargetOutput

/-! The `IsTex...` and `GetTex...` accessors are declared in the absent `Target.h`; they
are the `std::holds_alternative` and `std::get` of the variant. -/

def IsTex1D (o : TargetOutput) : Bool := match o.data with | .Tex1D _ => true | _ => false
def IsTex2D (o : TargetOutput) : Bool := match o.data with | .Tex2D _ => true | _ => false
def IsTex3D (o : TargetOutput) : Bool := match o.data with | .Tex3D _ => true | _ => false
def IsTexCube (o : TargetOutput) : Bool := match o.data with | .TexCube _ => true | _ => false
def IsTex3DSlice (o : TargetOutput) : Bool :=
  match o.data with | .Tex3DSlice _ _ => true | _ => false
def IsTexCubeFace (o : TargetOutput) : Bool :=
  match o.data with | .TexCubeFace _ _ => true | _ => false

def GetTex1D (o : TargetOutput) : Except String Texture :=
  match o.data with | .Tex1D tex => .ok tex | _ => .error "bad variant access"
def GetTex2D (o : TargetOutput) : Except String Texture :=
  match o.data with | .Tex2D tex => .ok tex | _ => .error "bad variant access"
def GetTex3D (o : TargetOutput) : Except String Texture :=
  match o.data with | .Tex3D tex => .ok tex | _ => .error "bad variant access"
def GetTexCube (o : TargetOutput) : Except String Texture :=
  match o.data with | .TexCube tex => .ok tex | _ => .error "bad variant access"
def GetTex3DSlice (o : TargetOutput) : Except String (Texture × Nat) :=
  match o.data with | .Tex3DSlice tex slice => .ok (tex, slice) | _ => .error "bad variant access"
def GetTexCubeFace (o : TargetOutput) : Except String (Texture × CubeFaces) :=
  match o.data with
  | .TexCubeFace tex face => .ok (tex, face)
  | _ => .error "bad variant access"

def IsLayered (o : TargetOutput) : Except String Bool :=
  if o.IsTex3D || o.IsTexCube then .ok true
  else if o.IsTex1D || o.IsTex2D || o.IsTex3DSlice || o.IsTexCubeFace then .ok false
  else .error "Unknown TargetOutput type"

def IsFlat (o : TargetOutput) : Except String Bool :=
  if o.IsTex1D || o.IsTex2D then .ok true
  else if o.IsTex3D || o.IsTexCube || o.IsTex3DSlice || o.IsTexCubeFace then .ok false
  else .error "Unknown TargetOutput type"

def GetTex (o : TargetOutput) : Except String Texture :=
  if o.IsTex1D then o.GetTex1D
  else if o.IsTex2D then o.GetTex2D
  else if o.IsTex3D then o.GetTex3D
  else if o.IsTex3DSlice then do
    let slice ← o.GetTex3DSlice
    pure slice.1
  else if o.IsTexCubeFace then do
    let face ← o.GetTexCubeFace
    pure face.1
  else .error "Unknown type for TargetOutput"

def GetSize (o : TargetOutput) : Except String UVec2 :=
  if o.IsTex1D then do
    let tex ← o.GetTex1D
    pure { x := tex.size.x, y := 1 }
  else if o.IsTex2D then do
    let tex ← o.GetTex2D
    pure { x := tex.size.x, y := tex.size.y }
  else if o.IsTex3D then do
    let tex ← o.GetTex3D
    pure { x := tex.size.x, y := tex.size.y }
  else if o.IsTexCube then do
    let tex ← o.GetTexCube
    pure { x := tex.size.x, y := tex.size.y }
  else if o.IsTexCubeFace then do
    let face ← o.GetTexCubeFace
    pure { x := face.1.size.x, y := face.1.size.y }
  else if o.IsTex3DSlice then do
    let slice ← o.GetTex3DSlice
    pure { x := slice.1.size.x, y := slice.1.size.y }
  else .error "Unknown type for TargetOutput"

def GetLayer (o : TargetOutput) : Except String Nat := do
  let layered ← o.IsLayered
  if layered then
    throw "Trying to get the specific layer from a multi-layered output"
  else if o.IsTex1D || o.IsTex2D then pure 0
  else if o.IsTex3DSlice then do
    let slice ← o.GetTex3DSlice
    pure slice.2
  else if o.IsTexCubeFace then do
    let face ← o.GetTexCubeFace
    pure face.2._to_index
  else if o.IsTex3D || o.IsTexCube then throw "Shouldn't ever get here"
  else throw "Unknown TargetOutput type"

def GetLayerCount (o : TargetOutput) : Except String Nat := do
  let layered ← o.IsLayered
  if ¬ layered then pure 1
  else if o.IsTex3D then do
    let tex ← o.GetTex3D
    pure tex.size.z
  else if o.IsTexCube then pure 6
  else throw "Unknown TargetOutput type"

end TargetOutput

/-! ## Thread-local data and the target object -/

/-- The callbacks that subsystems register with the context, by what they do. -/
inductive Callback where
  | TargetRefresh
  | TargetDestroyed
  | ShaderRefresh
  | ShaderDestroyed
  deriving DecidableEq

/-- The thread-local `ContextThreadData` of `Context.cpp`; a context is identified by
its address. -/
structure ContextThreadData where
  Instance : Option Nat
  RefreshCallbacks : List Callback
  DestroyCallbacks : List Callback
  deriving DecidableEq

/-- The thread-local `ThreadTargetData` of `Target.cpp`.  The map `targetsByOglPtr` from
native handles to target objects (by address) is a list of entries with distinct
handles. -/
structure ThreadTargetData where
  initializedYet : Bool
  targetsByOglPtr : List (GLuint × Nat)
  deriving DecidableEq

/-- The thread-local data that the target code reads and writes. -/
structure Thread where
  contextThreadData : ContextThreadData
  threadData : ThreadTargetData
  deriving DecidableEq

namespace HandleMap

/-- The lookup `find` of an `unordered_map`: the mapped value, or absent (`end()`). -/
def find (m : List (GLuint × Nat)) (key : GLuint) : Option Nat :=
  (m.find? fun e => decide (e.1 = key)).map Prod.snd

/-- The assignment `m[key] = value` of an `unordered_map`. -/
def assign (m : List (GLuint × Nat)) (key : GLuint) (value : Nat) : List (GLuint × Nat) :=
  if (find m key).isSome then m.map fun e => if e.1 = key then (key, value) else e
  else m ++ [(key, value)]

/-- The removal `erase(key)` of an `unordered_map`. -/
def erase (m : List (GLuint × Nat)) (key : GLuint) : List (GLuint × Nat) :=
  m.filter fun e => decide (e.1 ≠ key)

end HandleMap

/-- The function `CheckInit` of `Target.cpp`: on its first call on a thread it registers
the refresh and the destroy callback of the target subsystem with the context. -/
def CheckInit (thread : Thread) : Thread :=
  if ¬ thread.threadData.initializedYet then
    { thread with
      threadData := { thread.threadData with initializedYet := true }
      contextThreadData :=
        { thread.contextThreadData with
          RefreshCallbacks := thread.contextThreadData.RefreshCallbacks ++ [Callback.TargetRefresh]
          DestroyCallbacks :=
            thread.contextThreadData.DestroyCallbacks ++ [Callback.TargetDestroyed] } }
  else thread

/-- Modelled from the spec: the enum `TargetStates` of the absent `Target.h`, the
validity states that `Target::GetStatus` returns. -/
inductive TargetStates where
  | Ready
  | CompressedFormat
  | DriverUnsupported
  | LayerMixup
  | Unknown
  deriving DecidableEq

/-- Modelled from the spec: what the target code reads of the class `TargetBuffer` (a
renderbuffer), which is not part of the sources: its native handle, and the format and
size it was created with. -/
structure TargetBuffer where
  glPtr : GLuint
  format : Format
  size : UVec2
  deriving DecidableEq

/-- The fields of a `Target`. -/
structure Target where
  glPtr : GLuint
  size : UVec2
  tex_colors : List TargetOutput
  tex_depth : Option TargetOutput
  tex_stencil : Option TargetOutput
  depthBuffer : Option TargetBuffer
  isDepthRBBound : Bool
  isStencilRBBound : Bool
  managedTextures : List Texture
  activeColorAttachments : List (Option Nat)
  internalActiveColorAttachments : List GLenum
  deriving DecidableEq

/-- The storage of a target before any constructor has run: the null handle and empty
fields (the default member initialisers of the absent `Target.h`). -/
def Target.raw : Target :=
  { glPtr := 0, size := { x := 0, y := 0 }, tex_colors := [], tex_depth := none,
    tex_stencil := none, depthBuffer := none, isDepthRBBound := false,
    isStencilRBBound := false, managedTextures := [], activeColorAttachments := [],
    internalActiveColorAttachments := [] }

/-- What a member function or constructor of `Target` works on: the object itself, the
thread-local data, and the native calls emitted so far. -/
structure World where
  this : Target
  thread : Thread
  emitted : List GLCall
  deriving DecidableEq

/-- A member function or constructor of `Target`: from the world before to the returned
value or the message of the failed assertion, and the world at that point. -/
def TargetM (α : Type) : Type := World → Except String α × World

namespace TargetM

/-- Running a member function on a world. -/
def run {α : Type} (m : TargetM α) (w : World) : Except String α × World := m w

/-- Returning a value. -/
def ret {α : Type} (a : α) : TargetM α := fun w => (.ok a, w)

/-- Sequencing: the second step runs only when the first one returned. -/
def andThen {α β : Type} (m : TargetM α) (f : α → TargetM β) : TargetM β := fun w =>
  match m w with
  | (.ok a, w1) => f a w1
  | (.error e, w1) => (.error e, w1)

instance : Monad TargetM where
  pure := ret
  bind := andThen

def getThis : TargetM Target := fun w => (.ok w.this, w)

def setThis (t : Target) : TargetM Unit := fun w => (.ok (), { w with this := t })

def getThread : TargetM Thread := fun w => (.ok w.thread, w)

def setThread (thread : Thread) : TargetM Unit := fun w => (.ok (), { w with thread := thread })

/-- Emitting one native call. -/
def emit (call : GLCall) : TargetM Unit := fun w =>
  (.ok (), { w with emitted := w.emitted ++ [call] })

/-- The macro `BP_ASSERT(cond, msg)`. -/
def BP_ASSERT (cond : Bool) (msg : String) : TargetM Unit := fun w =>
  (if cond then .ok () else .error msg, w)

/-- A value computed by a function that can fail an assertion of its own. -/
def liftExcept {α : Type} (e : Except String α) : TargetM α := fun w => (e, w)

/-- A failure at this point: `BP_ASSERT(false, msg)`, or an access that has no value. -/
def fail {α : Type} (msg : String) : TargetM α := fun w => (.error msg, w)

end TargetM

/-- The world in which a constructor starts on fresh storage. -/
def World.fresh (thread : Thread) : World :=
  { this := Target.raw, thread := thread, emitted := [] }

/-! ## Member functions of `Target` -/

/-- The helper template `ComputeMin` of `Target.cpp`, used to find the minimum size and
layer count; the array `outputsList` with its length `nOutputsInList` is a list. -/
def ComputeMin {T : Type} (ValueGetter : TargetOutput → Except String T) (MinFunc : T → T → T)
    (outputsList : List TargetOutput) (optionalOutput : Option TargetOutput)
    (maxVal defaultVal : T) : Except String T :=
  if outputsList.length = 0 ∧ optionalOutput.isNone then .ok defaultVal
  else do
    let output ← match optionalOutput with
      | some o => do
        let v ← ValueGetter o
        pure (MinFunc maxVal v)
      | none => pure maxVal
    outputsList.foldlM (fun output o => do
      let v ← ValueGetter o
      pure (MinFunc output v)) output

def GetTargOutSize (output : TargetOutput) : Except String UVec2 := output.GetSize

def GetTargOutLayerCount (output : TargetOutput) : Except String Nat :=
  output.GetLayerCount

def MinU32 (a b : Nat) : Nat := Nat.min a b

namespace Target

open TargetM

/-- Modelled from the spec: the inline accessor `Target::GetNColorOutputs` of the absent
`Target.h`, the number of colour outputs of the target. -/
def GetNColorOutputs (t : Target) : Nat := t.tex_colors.length

/-- The function `Target::Find`, on the thread-local data: the address of the target
registered for the handle (absent for `nullptr`), and the thread-local data afterwards. -/
def Find (thread : Thread) (ptr : GLuint) : Option Nat × Thread :=
  let thread := CheckInit thread
  (HandleMap.find thread.threadData.targetsByOglPtr ptr, thread)

/-- The condition `o.has_value() && o.value().GetTex()->GetFormat().IsCompressed()` of
`GetStatus`. -/
def outputCompressed (o : Option TargetOutput) : Except String Bool :=
  match o with
  | some output => do
    let tex ← output.GetTex
    pure tex.format.IsCompressed
  | none => pure false

/-- The `std::any_of` over the colour outputs in `GetStatus`, which stops at the first
output with a compressed format. -/
def anyCompressed : List TargetOutput → Except String Bool
  | [] => pure false
  | o :: rest => do
    let tex ← o.GetTex
    if tex.format.IsCompressed then pure true else anyCompressed rest

/-- The function `Target::GetStatus`; `status` is the code that
`glCheckNamedFramebufferStatus` returns for the framebuffer when it is asked. -/
def GetStatus (t : Target) (status : GLenum) : Except String TargetStates := do
  let depth ← outputCompressed t.tex_depth
  let depthOrStencil ← if depth then pure true else outputCompressed t.tex_stencil
  let any ← if depthOrStencil then pure true else anyCompressed t.tex_colors
  if any then pure TargetStates.CompressedFormat
  else if status = GL_FRAMEBUFFER_COMPLETE then pure TargetStates.Ready
  else if status = GL_FRAMEBUFFER_UNSUPPORTED then pure TargetStates.DriverUnsupported
  else if status = GL_FRAMEBUFFER_INCOMPLETE_LAYER_TARGETS then pure TargetStates.LayerMixup
  else throw "Unexpected glCheckFramebufferStatus code"

/-- The call `GetStatus()` inside a member function; `native` gives the code the driver
returns for the framebuffer of a target in a given state. -/
def GetStatusM (native : Target → GLenum) : TargetM TargetStates := do
  let this ← getThis
  liftExcept (this.GetStatus (native this))

def AttachTexture (attachment : GLenum) (output : TargetOutput) : TargetM Unit := do
  let this ← getThis
  let layered ← liftExcept output.IsLayered
  let layeredOrFlat ← if layered then pure true else liftExcept output.IsFlat
  if layeredOrFlat then do
    let tex ← liftExcept output.GetTex
    emit (GLCall.glNamedFramebufferTexture this.glPtr attachment tex.glPtr output.MipLevel)
  else do
    let tex ← liftExcept output.GetTex
    let layer ← liftExcept output.GetLayer
    emit (GLCall.glNamedFramebufferTextureLayer this.glPtr attachment tex.glPtr output.MipLevel
      (asGLint layer))

/-- The function `Target::AttachBuffer`; `rb` is the handle of the renderbuffer that the
driver creates when a new `TargetBuffer` is constructed.  The native calls of the absent
class `TargetBuffer` are not part of the emitted calls. -/
def AttachBuffer (rb : GLuint) (format : DepthStencilFormats) : TargetM Unit := do
  let this ← getThis
  BP_ASSERT this.tex_stencil.isNone
    "Can't use a stencil texture and a depth buffer separately; they must be the same texture"
  if this.depthBuffer.isNone ∨ this.depthBuffer.map (fun b => b.size) ≠ some this.size then
    setThis { this with
      depthBuffer := some { glPtr := rb, format := Format.DepthStencil format, size := this.size } }
  let this ← getThis
  let attachment ←
    if IsDepthOnly format then pure GL_DEPTH_ATTACHMENT
    else if IsDepthAndStencil format then pure GL_DEPTH_STENCIL_ATTACHMENT
    else fail "Attaching Renderbuffer for FBO, but format isn't supported"
  match this.depthBuffer with
  | some buffer =>
    emit (GLCall.glNamedFramebufferRenderbuffer this.glPtr attachment GL_RENDERBUFFER buffer.glPtr)
  | none => fail "bad optional access"

/-- The native draw-buffer name of an optional slot index; the sum is a 32-bit sum. -/
def drawBufferName (attachment : Option Nat) : GLenum :=
  match attachment with
  | some slot => (GL_COLOR_ATTACHMENT0 + slot) % 2 ^ 32
  | none => GL_NONE

/-- The function `Target::SetDrawBuffers`; the array `attachments` with its length
`nAttachments` is a list. -/
def SetDrawBuffers (attachments : List (Option Nat)) : TargetM Unit := do
  let this ← getThis
  setThis { this with
    activeColorAttachments := attachments
    internalActiveColorAttachments := attachments.map drawBufferName }
  let this ← getThis
  emit (GLCall.glNamedFramebufferDrawBuffers this.glPtr (asGLint (attachments.length % 2 ^ 32))
    this.internalActiveColorAttachments)

/-- The function `Target::GetOutput_Color`: `some` of the output for a non-null pointer,
`none` for `nullptr`, and a failure for an access outside a vector or to the value of an
empty optional. -/
def GetOutput_Color (t : Target) (index : Nat) : Except String (Option TargetOutput) :=
  if index < t.GetNColorOutputs then
    match t.activeColorAttachments[index]? with
    | none => .error "activeColorAttachments: index out of range"
    | some none => .error "bad optional access"
    | some (some slot) =>
      match t.tex_colors[slot]? with
      | none => .error "tex_colors: index out of range"
      | some output => .ok (some output)
  else .ok none

/-- The overload `Target::ClearColor(const glm::fvec4&, uint32_t)`. -/
def ClearColor_fvec4 (q : FormatQueries) (rgba : FVec4) (index : Nat) : TargetM Unit := do
  let this ← getThis
  BP_ASSERT (index < this.GetNColorOutputs) "Not enough color outputs to reach this index"
  let output ← liftExcept (this.GetOutput_Color index)
  BP_ASSERT output.isSome "No color output at this index"
  match output with
  | none => fail "null pointer"
  | some o => do
    let tex ← liftExcept o.GetTex
    BP_ASSERT (!q.IsInteger tex.format) "Trying to clear an int/uint texture with a float value"
    emit (GLCall.glClearNamedFramebufferfv this.glPtr GL_COLOR (asGLint index)
      [rgba.r, rgba.g, rgba.b, rgba.a])

/-- The glm vector `glm::uvec4`, as the list of its components. -/
abbrev UVec4 := GLuint × GLuint × GLuint × GLuint

/-- The overload `Target::ClearColor(const glm::uvec4&, uint32_t)`. -/
def ClearColor_uvec4 (q : FormatQueries) (rgba : UVec4) (index : Nat) : TargetM Unit := do
  let this ← getThis
  BP_ASSERT (index < this.GetNColorOutputs) "Not enough color outputs to clear"
  let output ← liftExcept (this.GetOutput_Color index)
  match output with
  | none => fail "null pointer"
  | some o => do
    let tex ← liftExcept o.GetTex
    BP_ASSERT (q.GetComponentType tex.format = FormatTypes.UInt)
      "Trying to clear a non-UInt texture with a uint value"
    emit (GLCall.glClearNamedFramebufferuiv this.glPtr GL_COLOR (asGLint index)
      [rgba.1, rgba.2.1, rgba.2.2.1, rgba.2.2.2])

/-- The overload `Target::ClearColor(const glm::ivec4&, uint32_t)`. -/
def ClearColor_ivec4 (q : FormatQueries) (rgba : IVec4) (index : Nat) : TargetM Unit := do
  let this ← getThis
  BP_ASSERT (index < this.GetNColorOutputs) "Not enough color outputs to clear"
  let output ← liftExcept (this.GetOutput_Color index)
  match output with
  | none => fail "null pointer"
  | some o => do
    let tex ← liftExcept o.GetTex
    BP_ASSERT (q.GetComponentType tex.format = FormatTypes.Int)
      "Trying to clear a non-Int texture with an int value"
    emit (GLCall.glClearNamedFramebufferiv this.glPtr GL_COLOR (asGLint index)
      [rgba.x, rgba.y, rgba.z, rgba.w])

def GetAttachmentType (format : DepthStencilFormats) : Except String GLenum :=
  if IsDepthOnly format then .ok GL_DEPTH_ATTACHMENT
  else if IsStencilOnly format then .ok GL_STENCIL_ATTACHMENT
  else if IsDepthAndStencil format then .ok GL_DEPTH_STENCIL_ATTACHMENT
  else .error "Format is not depth, stencil, or both. How is that possible?"

end Target

/-- Modelled from the spec: the inline accessor `Context::GetDepthWrites` of the absent
`Context.h`, the cached depth-write flag. -/
def Context.GetDepthWrites (c : Context) : Bool := c.state.EnableDepthWrite

/-- The function `Target::ClearDepth`, on the cache of the current context. -/
def Target.ClearDepth (t : Target) (context : Context) (depth : GLfloat) : Emitted :=
  let oldState := context.GetDepthWrites
  (context.SetDepthWrites true)
    |>.andThen (fun c => (c, [GLCall.glClearNamedFramebufferfv t.glPtr GL_DEPTH 0 [depth]]))
    |>.andThen (fun c => c.SetDepthWrites oldState)

/-! ## Constructors of `Target` -/

namespace Target

open TargetM

/-- The constructor `Target(TargetStates&, const glm::uvec2&, uint32_t)`, returning the
status written to `outStatus`.  `fb` is the handle that `glCreateFramebuffers` returns,
`thisAddr` the address of the object under construction. -/
def construct (native : Target → GLenum) (fb : GLuint) (thisAddr : Nat) (_size : UVec2)
    (nLayers : Nat) : TargetM TargetStates := do
  emit (GLCall.glCreateFramebuffers fb)
  setThis { Target.raw with
    size := _size
    glPtr := fb
    activeColorAttachments := [some 0]
    internalActiveColorAttachments := [GL_COLOR_ATTACHMENT0] }
  let thread ← getThread
  let thread := CheckInit thread
  setThread { thread with
    threadData := { thread.threadData with
      targetsByOglPtr := HandleMap.assign thread.threadData.targetsByOglPtr fb thisAddr } }
  BP_ASSERT (0 < _size.x) "Target's width can't be 0"
  BP_ASSERT (0 < _size.y) "Target's height can't be 0"
  emit (GLCall.glNamedFramebufferParameteri fb GL_FRAMEBUFFER_DEFAULT_WIDTH (asGLint _size.x))
  emit (GLCall.glNamedFramebufferParameteri fb GL_FRAMEBUFFER_DEFAULT_HEIGHT (asGLint _size.y))
  if 1 < nLayers then
    emit (GLCall.glNamedFramebufferParameteri fb GL_FRAMEBUFFER_DEFAULT_LAYERS (asGLint nLayers))
  GetStatusM native

/-- The statement `tex_colors.push_back(output)`. -/
def pushColor (output : TargetOutput) : TargetM Unit := do
  let this ← getThis
  setThis { this with tex_colors := this.tex_colors ++ [output] }

/-- The statements that record a depth/stencil texture output: `tex_depth = output`, and
`tex_stencil = output` for a stencil-only or hybrid format. -/
def recordDepthStencil (format : DepthStencilFormats) (output : TargetOutput) : TargetM Unit := do
  let this ← getThis
  setThis { this with tex_depth := some output }
  if IsStencilOnly format ∨ IsDepthAndStencil format then do
    let this ← getThis
    setThis { this with tex_stencil := some output }

/-- The constructor `Target(TargetStates&, const glm::uvec2&, const Format&,
DepthStencilFormats, bool, uint_mipLevel_t)`, which creates the textures it attaches.
`colorPtr` and `depthPtr` are the handles of the textures that `new Texture2D` creates;
the delegated constructor is called with its default layer count, taken to be 1. -/
def constructManaged (native : Target → GLenum) (fb : GLuint) (thisAddr : Nat)
    (colorPtr depthPtr rb : GLuint) (_size : UVec2) (colorFormat : Format)
    (depthFormat : DepthStencilFormats) (depthIsRenderBuffer : Bool) :
    TargetM TargetStates := do
  let _ ← construct native fb thisAddr _size 1
  let this ← getThis
  let colorTex : Texture :=
    { glPtr := colorPtr, format := colorFormat, size := { x := this.size.x, y := this.size.y, z := 1 } }
  setThis { this with managedTextures := this.managedTextures ++ [colorTex] }
  pushColor { data := TargetOutputData.Tex2D colorTex, MipLevel := 0 }
  AttachTexture GL_COLOR_ATTACHMENT0 { data := TargetOutputData.Tex2D colorTex, MipLevel := 0 }
  if depthIsRenderBuffer then
    AttachBuffer rb depthFormat
  else do
    let this ← getThis
    let tex : Texture :=
      { glPtr := depthPtr, format := Format.DepthStencil depthFormat,
        size := { x := this.size.x, y := this.size.y, z := 1 } }
    setThis { this with managedTextures := this.managedTextures ++ [tex] }
    let format ← liftExcept tex.format.AsDepthStencil
    let attachment ← liftExcept (GetAttachmentType format)
    AttachTexture attachment { data := TargetOutputData.Tex2D tex, MipLevel := 0 }
    recordDepthStencil format { data := TargetOutputData.Tex2D tex, MipLevel := 0 }
  GetStatusM native

/-- The body of the constructor `Target(TargetStates&, const TargetOutput&, const
TargetOutput&)`, which runs after the delegated constructor. -/
def constructColorDepthBody (native : Target → GLenum) (color depthStencil : TargetOutput) :
    TargetM TargetStates := do
  let depthSize ← liftExcept depthStencil.GetSize
  let colorSize ← liftExcept color.GetSize
  BP_ASSERT (depthSize = colorSize) "Color and depth aren't same size"
  let depthTex ← liftExcept depthStencil.GetTex
  BP_ASSERT depthTex.format.IsDepthStencil
    "Depth/stencil texture isn't a depth or stencil format"
  AttachTexture GL_COLOR_ATTACHMENT0 color
  pushColor color
  let depthTex ← liftExcept depthStencil.GetTex
  let depthFormat ← liftExcept depthTex.format.AsDepthStencil
  let attachment ← liftExcept (GetAttachmentType depthFormat)
  AttachTexture attachment depthStencil
  recordDepthStencil depthFormat depthStencil
  GetStatusM native

/-- The constructor `Target(TargetStates&, const TargetOutput&, const TargetOutput&)`:
it delegates to the size-and-layers constructor with the minimum of the two sizes and of
the two layer counts, then runs its body. -/
def constructColorDepth (native : Target → GLenum) (fb : GLuint) (thisAddr : Nat)
    (color depthStencil : TargetOutput) : TargetM TargetStates := do
  let colorSize ← liftExcept color.GetSize
  let depthSize ← liftExcept depthStencil.GetSize
  let colorLayers ← liftExcept color.GetLayerCount
  let depthLayers ← liftExcept depthStencil.GetLayerCount
  let _ ← construct native fb thisAddr (UVec2.min colorSize depthSize)
    (Nat.min colorLayers depthLayers)
  constructColorDepthBody native color depthStencil

/-- The constructor `Target(TargetStates&, const TargetOutput&, DepthStencilFormats)`. -/
def constructColorBuffer (native : Target → GLenum) (fb : GLuint) (thisAddr : Nat)
    (rb : GLuint) (color : TargetOutput) (depthFormat : DepthStencilFormats) :
    TargetM TargetStates := do
  let colorSize ← liftExcept color.GetSize
  let colorLayers ← liftExcept color.GetLayerCount
  let _ ← construct native fb thisAddr colorSize colorLayers
  AttachTexture GL_COLOR_ATTACHMENT0 color
  pushColor color
  AttachBuffer rb depthFormat
  GetStatusM native

/-- The first loop of the array constructor, from index `i` on: each colour output is
attached at `GL_COLOR_ATTACHMENT0 + i` (a 32-bit sum) and recorded. -/
def attachColors : List TargetOutput → Nat → TargetM Unit
  | [], _ => pure ()
  | output :: rest, i => do
    AttachTexture ((GL_COLOR_ATTACHMENT0 + i) % 2 ^ 32) output
    pushColor output
    attachColors rest (i + 1)

/-- The body of the constructor `Target(TargetStates&, const TargetOutput*, uint32_t,
std::optional<TargetOutput>)`, which runs after the delegated constructor. -/
def constructOutputsBody (native : Target → GLenum) (rb : GLuint)
    (colorOutputs : List TargetOutput) (depthOutput : Option TargetOutput) :
    TargetM TargetStates := do
  attachColors colorOutputs 0
  SetDrawBuffers ((List.range colorOutputs.length).map some)
  match depthOutput with
  | some depth => do
    let depthTex ← liftExcept depth.GetTex
    BP_ASSERT depthTex.format.IsDepthStencil "Depth attachment isn't a depth/stencil format"
    let format ← liftExcept depthTex.format.AsDepthStencil
    let attachment ← liftExcept (GetAttachmentType format)
    AttachTexture attachment depth
    recordDepthStencil format depth
  | none => AttachBuffer rb DepthStencilFormats.Depth_24U
  GetStatusM native

/-- The constructor `Target(TargetStates&, const TargetOutput*, uint32_t,
std::optional<TargetOutput>)`; the array of colour outputs with its length is a list.  It
delegates to the size-and-layers constructor with the two results of `ComputeMin`, then
runs its body. -/
def constructOutputs (native : Target → GLenum) (fb : GLuint) (thisAddr : Nat) (rb : GLuint)
    (colorOutputs : List TargetOutput) (depthOutput : Option TargetOutput) :
    TargetM TargetStates := do
  let size ← liftExcept (ComputeMin GetTargOutSize UVec2.min colorOutputs depthOutput
    { x := u32Max, y := u32Max } { x := 1, y := 1 })
  let nLayers ← liftExcept (ComputeMin GetTargOutLayerCount MinU32 colorOutputs depthOutput
    u32Max 1)
  let _ ← construct native fb thisAddr size nLayers
  constructOutputsBody native rb colorOutputs depthOutput

/-- Modelled from the spec: the state in which moving from a `TargetBuffer` leaves it
(the class is not part of the sources): the null handle. -/
def movedFromBuffer (buffer : TargetBuffer) : TargetBuffer := { buffer with glPtr := 0 }

/-- The move constructor `Target(Target&& from)`, returning the source `from` as the
move leaves it.  `defaultLayers` is the value that `glGetNamedFramebufferParameteriv` returns
for `GL_FRAMEBUFFER_DEFAULT_LAYERS` of the source (`GetNDefaultLayers`). -/
def constructMove (native : Target → GLenum) (fb : GLuint) (thisAddr : Nat)
    (defaultLayers : GLint) (source : Target) : TargetM Target := do
  let _ ← construct native fb thisAddr source.size (toGLuint defaultLayers)
  let this ← getThis
  setThis { this with
    glPtr := source.glPtr
    tex_colors := source.tex_colors
    tex_depth := source.tex_depth
    tex_stencil := source.tex_stencil
    depthBuffer := source.depthBuffer
    isDepthRBBound := source.isDepthRBBound
    isStencilRBBound := source.isStencilRBBound
    managedTextures := source.managedTextures }
  let moved : Target :=
    { source with
      glPtr := 0
      tex_colors := []
      depthBuffer := source.depthBuffer.map movedFromBuffer
      managedTextures := [] }
  let thread ← getThread
  BP_ASSERT (HandleMap.find thread.threadData.targetsByOglPtr source.glPtr).isSome
    "Un-indexed Target detected"
  setThread { thread with
    threadData := { thread.threadData with
      targetsByOglPtr :=
        thread.threadData.targetsByOglPtr.map fun e =>
          if e.1 = source.glPtr then (e.1, thisAddr) else e } }
  pure moved

end Target

/-! ## Reference definitions, in the words of the spec -/

/-- The texture that a target output was constructed from. -/
def TargetOutput.constructedFrom (o : TargetOutput) : Texture :=
  match o.data with
  | .Tex1D tex => tex
  | .Tex2D tex => tex
  | .Tex3D tex => tex
  | .TexCube tex => tex
  | .Tex3DSlice tex _ => tex
  | .TexCubeFace tex _ => tex

/-- The outputs recorded on a target: the depth output, the stencil output and the
colour outputs. -/
def Target.recordedOutputs (t : Target) : List TargetOutput :=
  t.tex_depth.toList ++ t.tex_stencil.toList ++ t.tex_colors

/-- The status of a target as the spec words it: `CompressedFormat` if the depth output,
the stencil output or any colour output refers to a texture with a compressed format,
whatever the native code is; otherwise `Ready` for the native code 'complete',
`DriverUnsupported` for 'unsupported', `LayerMixup` for 'incomplete layer targets', and
a failed assertion for every other native code. -/
def Target.GetStatus_reference (t : Target) (status : GLenum) : Except String TargetStates :=
  if t.recordedOutputs.any (fun o => o.constructedFrom.format.IsCompressed) then
    .ok TargetStates.CompressedFormat
  else if status = GL_FRAMEBUFFER_COMPLETE then .ok TargetStates.Ready
  else if status = GL_FRAMEBUFFER_UNSUPPORTED then .ok TargetStates.DriverUnsupported
  else if status = GL_FRAMEBUFFER_INCOMPLETE_LAYER_TARGETS then .ok TargetStates.LayerMixup
  else .error "Unexpected glCheckFramebufferStatus code"

/-- The native completeness codes that `Target::GetStatus` maps to a status. -/
def HandledStatus (status : GLenum) : Prop :=
  status = GL_FRAMEBUFFER_COMPLETE ∨ status = GL_FRAMEBUFFER_UNSUPPORTED ∨
    status = GL_FRAMEBUFFER_INCOMPLETE_LAYER_TARGETS

/-- The value that `TargetOutput::GetSize` returns, as a total function. -/
def TargetOutput.size2D (o : TargetOutput) : UVec2 :=
  match o.data with
  | .Tex1D tex => { x := tex.size.x, y := 1 }
  | .Tex2D tex => { x := tex.size.x, y := tex.size.y }
  | .Tex3D tex => { x := tex.size.x, y := tex.size.y }
  | .TexCube tex => { x := tex.size.x, y := tex.size.y }
  | .Tex3DSlice tex _ => { x := tex.size.x, y := tex.size.y }
  | .TexCubeFace tex _ => { x := tex.size.x, y := tex.size.y }

/-- The value that `TargetOutput::GetLayerCount` returns, as a total function. -/
def TargetOutput.layerCount (o : TargetOutput) : Nat :=
  match o.data with
  | .Tex3D tex => tex.size.z
  | .TexCube _ => 6
  | _ => 1

/-- The native call by which `Target::AttachTexture` binds an output that `GetTex`
accepts: the whole-texture bind for a flat or layered output, the single-layer bind
otherwise. -/
def Target.attachCall (glPtr : GLuint) (attachment : GLenum) (o : TargetOutput) : GLCall :=
  match o.data with
  | .Tex3DSlice tex slice =>
    GLCall.glNamedFramebufferTextureLayer glPtr attachment tex.glPtr o.MipLevel (asGLint slice)
  | .TexCubeFace tex face =>
    GLCall.glNamedFramebufferTextureLayer glPtr attachment tex.glPtr o.MipLevel
      (asGLint face._to_index)
  | _ => GLCall.glNamedFramebufferTexture glPtr attachment o.constructedFrom.glPtr o.MipLevel

/-- The object that the size-and-layers constructor initialises. -/
def Target.initial (fb : GLuint) (_size : UVec2) : Target :=
  { Target.raw with
    size := _size
    glPtr := fb
    activeColorAttachments := [some 0]
    internalActiveColorAttachments := [GL_COLOR_ATTACHMENT0] }

/-- The thread-local data after a target at `thisAddr` has registered the handle `fb`. -/
def Thread.registered (thread : Thread) (fb : GLuint) (thisAddr : Nat) : Thread :=
  { CheckInit thread with
    threadData := { (CheckInit thread).threadData with
      targetsByOglPtr :=
        HandleMap.assign (CheckInit thread).threadData.targetsByOglPtr fb thisAddr } }

/-- The native calls of the size-and-layers constructor when its assertions pass. -/
def Target.initialCalls (fb : GLuint) (_size : UVec2) (nLayers : Nat) : List GLCall :=
  [GLCall.glCreateFramebuffers fb,
   GLCall.glNamedFramebufferParameteri fb GL_FRAMEBUFFER_DEFAULT_WIDTH (asGLint _size.x),
   GLCall.glNamedFramebufferParameteri fb GL_FRAMEBUFFER_DEFAULT_HEIGHT (asGLint _size.y)] ++
  (if 1 < nLayers then
    [GLCall.glNamedFramebufferParameteri fb GL_FRAMEBUFFER_DEFAULT_LAYERS (asGLint nLayers)]
   else [])

/-- The invariant on the depth and stencil outputs: a recorded stencil output is the recorded
depth output, and then no renderbuffer is owned. -/
def Target.StencilIsDepth (t : Target) : Prop :=
  ∀ s, t.tex_stencil = some s → t.tex_depth = some s ∧ t.depthBuffer = none

/-- A partial-correctness statement on a member function: from every world satisfying
`P`, a run that returns a value `a` ends in a world satisfying `Q a`. -/
def TargetM.Triple {α : Type} (P : World → Prop) (m : TargetM α) (Q : α → World → Prop) :
    Prop :=
  ∀ w, P w → ∀ a w1, m.run w = (.ok a, w1) → Q a w1

/-- A predicate on the target object, as a predicate on worlds. -/
def World.onThis (p : Target → Prop) : World → Prop := fun w => p w.this

/-- A two-dimensional texture of the given handle, format and size. -/
def exampleTexture (ptr : GLuint) (format : Format) (width height : Nat) : Texture :=
  { glPtr := ptr, format := format, size := { x := width, y := height, z := 1 } }

/-- An 8-bit normalised RGBA colour format. -/
def exampleColorFormat : Format :=
  Format.Simple { Type_ := .NormalizedUInt, Components := .RGBA, ChannelBitSize := .B8 }

/-- An 8-bit unsigned-integer RGBA colour format. -/
def exampleUIntFormat : Format :=
  Format.Simple { Type_ := .UInt, Components := .RGBA, ChannelBitSize := .B8 }

/-- A 4x4 colour texture as an output. -/
def exampleColorOutput : TargetOutput :=
  { data := .Tex2D (exampleTexture 5 exampleColorFormat 4 4), MipLevel := 0 }

/-- A 4x4 unsigned-integer colour texture as an output. -/
def exampleUIntOutput : TargetOutput :=
  { data := .Tex2D (exampleTexture 5 exampleUIntFormat 4 4), MipLevel := 0 }

/-- A 4x4 hybrid depth/stencil texture as an output. -/
def exampleDepthOutput : TargetOutput :=
  { data := .Tex2D (exampleTexture 6 (.DepthStencil .Depth24U_Stencil8) 4 4), MipLevel := 0 }

/-- A 4x4 texture with a depth format, given as a colour output. -/
def exampleDepthAsColor : TargetOutput :=
  { data := .Tex2D (exampleTexture 5 (.DepthStencil .Depth_24U) 4 4), MipLevel := 0 }

/-- A whole cubemap with 4x4 faces and an uncompressed colour format, as an output. -/
def exampleCubeOutput : TargetOutput :=
  { data := .TexCube (exampleTexture 7 exampleColorFormat 4 4), MipLevel := 0 }

/-- A thread with a context, on which no target has been created yet. -/
def exampleThread : Thread :=
  { contextThreadData := { Instance := some 1000, RefreshCallbacks := [], DestroyCallbacks := [] },
    threadData := { initializedYet := false, targetsByOglPtr := [] } }

/-- A driver that reports every framebuffer complete. -/
def exampleComplete : Target → GLenum := fun _ => GL_FRAMEBUFFER_COMPLETE

/-- A driver that reports an incomplete attachment for a framebuffer with a colour
attachment of a depth/stencil format, which is not colour-renderable, and every other
framebuffer complete. -/
def exampleRenderable : Target → GLenum := fun t =>
  if t.tex_colors.any (fun o => o.constructedFrom.format.IsDepthStencil) then
    GL_FRAMEBUFFER_INCOMPLETE_ATTACHMENT
  else GL_FRAMEBUFFER_COMPLETE

/-- The world after a target has been constructed at address 100 from the unsigned-integer
colour output and a depth renderbuffer, on a driver that reports it complete. -/
def exampleConstructed : World :=
  ((Target.constructColorBuffer exampleComplete 3 100 9 exampleUIntOutput
    DepthStencilFormats.Depth_24U).run (World.fresh exampleThread)).2

/-- The world after `SetDrawBuffers` has then been called with one absent entry. -/
def exampleInactive : World :=
  ((Target.SetDrawBuffers [none]).run exampleConstructed).2

/-- The world in which a second target starts its construction on fresh storage, after
the first one has been constructed. -/
def exampleSecond : World :=
  { this := Target.raw, thread := exampleConstructed.thread,
    emitted := exampleConstructed.emitted }

/-- The thread-local `threadData` of `CompiledShader.cpp`; a shader object is identified
by its address. -/
structure ThreadShaderData where
  currentShader : Option Nat
  initializedYet : Bool
  shadersByHandle : List (GLuint × Nat)
  deriving DecidableEq

/-- The thread-local data of `Context.cpp`, `Target.cpp` and `CompiledShader.cpp`. -/
structure ThreadLocal where
  thread : Thread
  shaderData : ThreadShaderData
  deriving DecidableEq

/-- The function `Context::GetCurrentContext`. -/
def GetCurrentContext (tl : ThreadLocal) : Option Nat := tl.thread.contextThreadData.Instance

/-- A registered callback, run on the thread-local data: the result, or the message of
its failed assertion, and the data at that point.  `currentProgram` is the value that
`glGetIntegerv(GL_CURRENT_PROGRAM)` returns. -/
def Callback.run (cb : Callback) (currentProgram : GLint) (tl : ThreadLocal) :
    Except String Unit × ThreadLocal :=
  match cb with
  | .TargetRefresh => (.ok (), tl)
  | .TargetDestroyed =>
    if tl.thread.threadData.targetsByOglPtr.length = 0 then
      (.ok (), { tl with thread := { tl.thread with
        threadData := { tl.thread.threadData with targetsByOglPtr := [] } } })
    else (.error "Target memory leaks!", tl)
  | .ShaderRefresh =>
    (.ok (), { tl with shaderData := { tl.shaderData with
      currentShader :=
        HandleMap.find tl.shaderData.shadersByHandle (toGLuint currentProgram) } })
  | .ShaderDestroyed =>
    if tl.shaderData.shadersByHandle.length = 0 then
      (.ok (), { tl with shaderData := { tl.shaderData with shadersByHandle := [] } })
    else (.error "Some CompiledShader instances haven't been cleaned up", tl)

/-- The loops `for (callback : ...Callbacks) callback();`, which stop at a failed
assertion. -/
def runCallbacks (currentProgram : GLint) : List Callback → ThreadLocal →
    Except String Unit × ThreadLocal
  | [], tl => (.ok (), tl)
  | cb :: rest, tl =>
    match cb.run currentProgram tl with
    | (.ok _, tl1) => runCallbacks currentProgram rest tl1
    | (.error e, tl1) => (.error e, tl1)

/-- The calls to the windowing library and to GLEW. -/
inductive WindowCall where
  | SDL_GL_SetAttribute_major (value : Int)
  | SDL_GL_SetAttribute_minor (value : Int)
  | SDL_GL_CreateContext (owner : Nat)
  | SDL_GL_DeleteContext (context : Option Nat)
  | glewInit
  deriving DecidableEq

/-- What the windowing library and GLEW answer to the calls of the constructor of
`Context`: for each of the two attribute calls the error text if it fails, the created
context or the error text, and the error text of `glewInit` if it fails. -/
structure WindowDriver where
  setMajor : Option String
  setMinor : Option String
  createContext : Except String Nat
  glew : Option String

/-- Modelled from the spec: the helper `TrySDL`, which the constructor calls and no
source file defines: whether the call succeeded, writing the given description and the
error text of the library to `errMsg` when it failed. -/
def TrySDL (failure : Option String) (errMsg description : String) : Bool × String :=
  match failure with
  | none => (true, errMsg)
  | some text => (false, description ++ ": " ++ text)

/-- The fields of a `Context` object: the cache of the native state, and the fields that
the constructor and the destructor use. -/
structure ContextObject where
  cache : Context
  owner : Nat
  sdlContext : Option Nat
  isInitialized : Bool
  deriving DecidableEq

/-- Modelled from the spec: the storage of a context before its constructor runs; the
default member initialiser of `isInitialized` in the absent `Context.h` is `false`. -/
def ContextObject.raw (cache : Context) : ContextObject :=
  { cache := cache, owner := 0, sdlContext := none, isInitialized := false }

/-- What a constructor or destructor of `Context` leaves behind; `failure` is the message
of a failed assertion or of a rejected enum conversion, if there was one. -/
structure ContextRun where
  object : ContextObject
  tl : ThreadLocal
  errMsg : String
  windowCalls : List WindowCall
  glCalls : List GLCall
  driver : Driver
  failure : Option String

/-- The constructor `Context(SDL_Window*, std::string&, VsyncModes)` for the object at
`thisAddr`.  `major` and `minor` are `GLVersion_Major()` and `GLVersion_Minor()`; the
initialiser `vsync(vsync)` copies the member from itself, so the argument `_vsync` is
not used. -/
def ContextObject.construct (thisAddr : Nat) (storage : ContextObject) (_owner : Nat)
    (errMsg : String) (wd : WindowDriver) (major minor : Int) (currentProgram : GLint)
    (d : Driver) (tl : ThreadLocal) : ContextRun :=
  let this : ContextObject := { storage with owner := _owner }
  let idle : ContextRun :=
    { object := this, tl := tl, errMsg := errMsg, windowCalls := [], glCalls := [],
      driver := d, failure := none }
  if tl.thread.contextThreadData.Instance ≠ none then
    if tl.thread.contextThreadData.Instance = some thisAddr then
      { idle with errMsg := "This context has already been constructed!" }
    else
      { idle with
        errMsg := "A context already exists on this thread that hasn't been cleaned up." }
  else
    let major_ := TrySDL wd.setMajor errMsg "Error setting OpenGL context major"
    if ¬ major_.1 then
      { idle with errMsg := major_.2, windowCalls := [.SDL_GL_SetAttribute_major major] }
    else
      let minor_ := TrySDL wd.setMinor major_.2 "Error setting OpenGL context minor"
      if ¬ minor_.1 then
        { idle with
          errMsg := minor_.2
          windowCalls := [.SDL_GL_SetAttribute_major major, .SDL_GL_SetAttribute_minor minor] }
      else
        let calls : List WindowCall :=
          [.SDL_GL_SetAttribute_major major, .SDL_GL_SetAttribute_minor minor,
           .SDL_GL_CreateContext _owner]
        match wd.createContext with
        | .error text =>
          { idle with
            object := { this with sdlContext := none }
            errMsg := "Error initializing OpenGL context" ++ ": " ++ text
            windowCalls := calls }
        | .ok created =>
          let this : ContextObject :=
            { this with sdlContext := some created, isInitialized := true }
          let tl : ThreadLocal :=
            { tl with thread := { tl.thread with
              contextThreadData := { tl.thread.contextThreadData with
                Instance := some thisAddr } } }
          let started : ContextRun :=
            { object := this, tl := tl, errMsg := minor_.2,
              windowCalls := calls ++ [.glewInit], glCalls := [], driver := d, failure := none }
          match wd.glew with
          | some text => { started with errMsg := "Error setting up GLEW: " ++ text }
          | none =>
            match this.cache.RefreshState d with
            | none =>
              { started with
                glCalls := refreshPrelude
                driver := d.execAll refreshPrelude
                failure := some "_from_integral: no such enum value" }
            | some (cache, driver) =>
              let refreshed := runCallbacks currentProgram
                tl.thread.contextThreadData.RefreshCallbacks tl
              { started with
                object := { this with cache := cache }
                tl := refreshed.2
                glCalls := refreshPrelude
                driver := driver
                failure := match refreshed.1 with | .ok _ => none | .error e => some e }

/-- The destructor `~Context()` of the object at `thisAddr`. -/
def ContextObject.destroy (thisAddr : Nat) (this : ContextObject) (currentProgram : GLint)
    (d : Driver) (tl : ThreadLocal) : ContextRun :=
  let idle : ContextRun :=
    { object := this, tl := tl, errMsg := "", windowCalls := [], glCalls := [],
      driver := d, failure := none }
  let released : ContextRun :=
    if this.isInitialized then
      if tl.thread.contextThreadData.Instance = some thisAddr then
        { idle with
          windowCalls := [.SDL_GL_DeleteContext this.sdlContext]
          tl := { tl with thread := { tl.thread with
            contextThreadData := { tl.thread.contextThreadData with Instance := none } } } }
      else
        { idle with
          windowCalls := [.SDL_GL_DeleteContext this.sdlContext]
          failure := some "More than one initialized Context in this thread" }
    else idle
  match released.failure with
  | some _ => released
  | none =>
    let destroyed := runCallbacks currentProgram
      released.tl.thread.contextThreadData.DestroyCallbacks released.tl
    { released with
      tl := destroyed.2
      failure := match destroyed.1 with | .ok _ => none | .error e => some e }

/-! ## Compiled shaders (`CompiledShader.cpp`) -/

/-- The native calls of `CompiledShader.cpp` that change the state of the driver. -/
inductive ShaderCall where
  | glCreateShader (type : GLenum)
  | glShaderSource (shader : GLuint) (source : String)
  | glCompileShader (shader : GLuint)
  | glDeleteShader (shader : GLuint)
  | glCreateProgram
  | glAttachShader (program shader : GLuint)
  | glLinkProgram (program : GLuint)
  | glDeleteProgram (program : GLuint)
  | glDetachShader (program shader : GLuint)
  deriving DecidableEq

def GL_FRAGMENT_SHADER : GLenum := 0x8B30
def GL_VERTEX_SHADER : GLenum := 0x8B31
def GL_GEOMETRY_SHADER : GLenum := 0x8DD9

/-- What the driver reports after `glCompileShader` or `glLinkProgram`: the status, and
the text that `std::string(msgBuffer.data())` makes of the info log. -/
structure BuildOutcome where
  status : Bool
  infoLog : String
  deriving DecidableEq

/-- What the driver answers to the calls of `CompiledShader::Compile`: the names of the
objects it creates and the outcome of each compile step and of the link step. -/
structure ShaderDriver where
  vertShaderObj : GLuint
  geomShaderObj : GLuint
  fragShaderObj : GLuint
  programObj : GLuint
  vert : BuildOutcome
  geom : BuildOutcome
  frag : BuildOutcome
  link : BuildOutcome
  deriving DecidableEq

/-- The null program handle `Ptr::ShaderProgram::Null`. -/
def ShaderProgram_Null : GLuint := 0

/-- The helper `TryCompile`: the error message, or the empty string if the driver
reports the shader compiled. -/
def TryCompile (outcome : BuildOutcome) : String :=
  if outcome.status = false then outcome.infoLog else ""

/-- What `CompiledShader::Compile` leaves behind: the returned handle, the caller's
`outErrMsg`, and the native calls. -/
structure Compiled where
  handle : GLuint
  outErrMsg : String
  calls : List ShaderCall
  deriving DecidableEq

/-- The overload `CompiledShader::Compile(vertShader, fragShader, outErrMsg)`. -/
def Compile (d : ShaderDriver) (vertShader fragShader : String) (outErrMsg : String) :
    Compiled :=
  let vertShaderObj := d.vertShaderObj
  let fragShaderObj := d.fragShaderObj
  let calls : List ShaderCall :=
    [.glCreateShader GL_VERTEX_SHADER, .glCreateShader GL_FRAGMENT_SHADER,
     .glShaderSource vertShaderObj vertShader, .glShaderSource fragShaderObj fragShader,
     .glCompileShader vertShaderObj]
  let errorMsg := TryCompile d.vert
  if errorMsg.length > 0 then
    { handle := ShaderProgram_Null
      outErrMsg := "Error compiling vertex shader: " ++ errorMsg
      calls := calls ++ [.glDeleteShader vertShaderObj, .glDeleteShader fragShaderObj] }
  else
    let calls := calls ++ [.glCompileShader fragShaderObj]
    let errorMsg := TryCompile d.frag
    if errorMsg.length > 0 then
      { handle := ShaderProgram_Null
        outErrMsg := "Error compiling fragment shader: " ++ errorMsg
        calls := calls ++ [.glDeleteShader vertShaderObj, .glDeleteShader fragShaderObj] }
    else
      let programObj := d.programObj
      let calls := calls ++
        [.glCreateProgram, .glAttachShader programObj vertShaderObj,
         .glAttachShader programObj fragShaderObj, .glLinkProgram programObj,
         .glDeleteShader vertShaderObj, .glDeleteShader fragShaderObj]
      if d.link.status = false then
        -- errorMsg = "Error linking shaders: " + ...: the local variable is assigned
        let _errorMsg := "Error linking shaders: " ++ d.link.infoLog
        { handle := ShaderProgram_Null
          outErrMsg := outErrMsg
          calls := calls ++ [.glDeleteProgram programObj] }
      else
        { handle := programObj
          outErrMsg := outErrMsg
          calls := calls ++
            [.glDetachShader programObj vertShaderObj, .glDetachShader programObj fragShaderObj] }

/-- The overload `CompiledShader::Compile(vertShader, geomShader, fragShader,
outErrMsg)`. -/
def Compile3 (d : ShaderDriver) (vertShader geomShader fragShader : String)
    (outErrMsg : String) : Compiled :=
  let vertShaderObj := d.vertShaderObj
  let geomShaderObj := d.geomShaderObj
  let fragShaderObj := d.fragShaderObj
  let deleteAll : List ShaderCall :=
    [.glDeleteShader vertShaderObj, .glDeleteShader geomShaderObj,
     .glDeleteShader fragShaderObj]
  let calls : List ShaderCall :=
    [.glCreateShader GL_VERTEX_SHADER, .glCreateShader GL_GEOMETRY_SHADER,
     .glCreateShader GL_FRAGMENT_SHADER,
     .glShaderSource vertShaderObj vertShader, .glShaderSource geomShaderObj geomShader,
     .glShaderSource fragShaderObj fragShader, .glCompileShader vertShaderObj]
  let errorMsg := TryCompile d.vert
  if errorMsg.length > 0 then
    { handle := ShaderProgram_Null
      outErrMsg := "Error compiling vertex shader: " ++ errorMsg
      calls := calls ++ deleteAll }
  else
    let calls := calls ++ [.glCompileShader geomShaderObj]
    let errorMsg := TryCompile d.geom
    if errorMsg.length > 0 then
      { handle := ShaderProgram_Null
        outErrMsg := "Error compiling geometry shader: " ++ errorMsg
        calls := calls ++ deleteAll }
    else
      let calls := calls ++ [.glCompileShader fragShaderObj]
      let errorMsg := TryCompile d.frag
      if errorMsg.length > 0 then
        { handle := ShaderProgram_Null
          outErrMsg := "Error compiling fragment shader: " ++ errorMsg
          calls := calls ++ deleteAll }
      else
        let programObj := d.programObj
        let calls := calls ++
          [.glCreateProgram, .glAttachShader programObj vertShaderObj,
           .glAttachShader programObj geomShaderObj, .glAttachShader programObj fragShaderObj,
           .glLinkProgram programObj] ++ deleteAll
        if d.link.status = false then
          -- errorMsg = "Error linking shaders: " + ...: the local variable is assigned
          let _errorMsg := "Error linking shaders: " ++ d.link.infoLog
          { handle := ShaderProgram_Null
            outErrMsg := outErrMsg
            calls := calls ++ [.glDeleteProgram programObj] }
        else
          { handle := programObj
            outErrMsg := outErrMsg
            calls := calls ++
              [.glDetachShader programObj vertShaderObj,
               .glDetachShader programObj geomShaderObj,
               .glDetachShader programObj fragShaderObj] }

/-- Modelled from the spec: the null uniform location `Ptr::ShaderUniform::Null` of an
absent header, the value -1 that `glGetUniformLocation` returns for an unknown name. -/
def ShaderUniform_Null : GLint := -1

/-- The constructor `CompiledShader(Ptr::ShaderProgram, const std::vector<std::string>&)`
for the object at `thisAddr`: the object with its map `uniformPtrs`, or the message of
its failed assertion, and the thread-local data at that point.  `currentProgram` and
`uniformLocation` are the values that `glGetIntegerv(GL_CURRENT_PROGRAM)` and
`glGetUniformLocation` return. -/
def CompiledShader.construct (thisAddr : Nat) (compiledProgramHandle : GLuint)
    (uniformNames : List String) (currentProgram : GLint) (uniformLocation : String → GLint)
    (tl : ThreadLocal) : Except String (CompiledShader × List (String × GLint)) × ThreadLocal :=
  let tl : ThreadLocal :=
    if ¬ tl.shaderData.initializedYet then
      let tl : ThreadLocal := { tl with shaderData := { tl.shaderData with initializedYet := true } }
      -- refreshContext();
      let tl := (Callback.ShaderRefresh.run currentProgram tl).2
      { tl with thread := { tl.thread with
        contextThreadData := { tl.thread.contextThreadData with
          RefreshCallbacks := tl.thread.contextThreadData.RefreshCallbacks ++ [.ShaderRefresh]
          DestroyCallbacks :=
            tl.thread.contextThreadData.DestroyCallbacks ++ [.ShaderDestroyed] } } }
    else tl
  if (HandleMap.find tl.shaderData.shadersByHandle compiledProgramHandle).isSome then
    (.error "A CompiledShader already exists with this program", tl)
  else
    let tl : ThreadLocal := { tl with shaderData := { tl.shaderData with
      shadersByHandle :=
        HandleMap.assign tl.shaderData.shadersByHandle compiledProgramHandle thisAddr } }
    let uniformPtrs := uniformNames.foldl (fun ptrs uniformName =>
      let loc := uniformLocation uniformName
      if loc ≠ ShaderUniform_Null then
        (ptrs.filter fun e => e.1 ≠ uniformName) ++ [(uniformName, loc)]
      else ptrs) []
    (.ok ({ programHandle := compiledProgramHandle }, uniformPtrs), tl)

/-- The destructor `~CompiledShader()`: the thread-local data afterwards and the native
calls. -/
def CompiledShader.destroy (this : CompiledShader) (tl : ThreadLocal) :
    ThreadLocal × List ShaderCall :=
  if this.programHandle ≠ ShaderProgram_Null then
    ({ tl with shaderData := { tl.shaderData with
        shadersByHandle := HandleMap.erase tl.shaderData.shadersByHandle this.programHandle } },
      [.glDeleteProgram this.programHandle])
  else (tl, [])

/-- The destructor `~Target()`.  Deleting the owned textures and resetting the
renderbuffer run the destructors of classes that are not part of the sources; their
native calls are not part of the emitted calls. -/
def Target.destroy : TargetM Unit := do
  let this ← TargetM.getThis
  TargetM.setThis { this with depthBuffer := none }
  if this.glPtr ≠ 0 then do
    let thread ← TargetM.getThread
    TargetM.setThread { thread with
      threadData := { thread.threadData with
        targetsByOglPtr := HandleMap.erase thread.threadData.targetsByOglPtr this.glPtr } }
    TargetM.emit (GLCall.glDeleteFramebuffers this.glPtr)

/-! ## Objects alive on a thread -/

/-- The five constructors of `Target` that create a framebuffer, with their arguments. -/
inductive TargetConstructor where
  | sized (size : UVec2) (nLayers : Nat)
  | managed (colorPtr depthPtr rb : GLuint) (size : UVec2) (colorFormat : Format)
      (depthFormat : DepthStencilFormats) (depthIsRenderBuffer : Bool)
  | colorDepth (color depthStencil : TargetOutput)
  | colorBuffer (rb : GLuint) (color : TargetOutput) (depthFormat : DepthStencilFormats)
  | outputs (rb : GLuint) (colorOutputs : List TargetOutput) (depthOutput : Option TargetOutput)

/-- The constructor call for the object at `thisAddr`, for which the driver creates the
framebuffer `fb`. -/
def TargetConstructor.program (native : Target → GLenum) (fb : GLuint) (thisAddr : Nat) :
    TargetConstructor → TargetM TargetStates
  | .sized size nLayers => Target.construct native fb thisAddr size nLayers
  | .managed colorPtr depthPtr rb size colorFormat depthFormat depthIsRenderBuffer =>
    Target.constructManaged native fb thisAddr colorPtr depthPtr rb size colorFormat depthFormat
      depthIsRenderBuffer
  | .colorDepth color depthStencil =>
    Target.constructColorDepth native fb thisAddr color depthStencil
  | .colorBuffer rb color depthFormat =>
    Target.constructColorBuffer native fb thisAddr rb color depthFormat
  | .outputs rb colorOutputs depthOutput =>
    Target.constructOutputs native fb thisAddr rb colorOutputs depthOutput

/-- The thread-local data together with the targets and shaders that have been
constructed on the thread and not destroyed, each with its address. -/
structure Lifetime where
  tl : ThreadLocal
  targets : List (Nat × Target)
  shaders : List (Nat × CompiledShader)

/-- The states that constructing and destroying targets and shaders reaches from a thread
on which neither subsystem has been used.  The driver names a new framebuffer with a
non-null name that no live target has. -/
inductive Lifetime.Reachable : Lifetime → Prop where
  | start (contextThreadData : ContextThreadData) :
    Reachable
      { tl := { thread := { contextThreadData := contextThreadData,
                            threadData := { initializedYet := false, targetsByOglPtr := [] } },
                shaderData := { currentShader := none, initializedYet := false,
                                shadersByHandle := [] } },
        targets := [], shaders := [] }
  | constructTarget (s : Lifetime) (c : TargetConstructor) (native : Target → GLenum)
      (fb : GLuint) (thisAddr : Nat) (emitted : List GLCall) (status : TargetStates)
      (w1 : World) :
    Reachable s → fb ≠ 0 →
    HandleMap.find s.tl.thread.threadData.targetsByOglPtr fb = none →
    (c.program native fb thisAddr).run
        { this := Target.raw, thread := s.tl.thread, emitted := emitted } = (.ok status, w1) →
    Reachable
      { s with tl := { s.tl with thread := w1.thread },
               targets := (thisAddr, w1.this) :: s.targets }
  | destroyTarget (s : Lifetime) (thisAddr : Nat) (t : Target) (emitted : List GLCall)
      (w1 : World) :
    Reachable s → (thisAddr, t) ∈ s.targets →
    Target.destroy.run { this := t, thread := s.tl.thread, emitted := emitted } = (.ok (), w1) →
    Reachable
      { s with tl := { s.tl with thread := w1.thread },
               targets := s.targets.erase (thisAddr, t) }
  | constructShader (s : Lifetime) (thisAddr : Nat) (compiledProgramHandle : GLuint)
      (uniformNames : List String) (currentProgram : GLint) (uniformLocation : String → GLint)
      (shader : CompiledShader) (uniformPtrs : List (String × GLint)) (tl1 : ThreadLocal) :
    Reachable s →
    CompiledShader.construct thisAddr compiledProgramHandle uniformNames currentProgram
        uniformLocation s.tl = (.ok (shader, uniformPtrs), tl1) →
    Reachable { s with tl := tl1, shaders := (thisAddr, shader) :: s.shaders }
  | destroyShader (s : Lifetime) (thisAddr : Nat) (shader : CompiledShader) :
    Reachable s → (thisAddr, shader) ∈ s.shaders →
    Reachable
      { s with tl := (shader.destroy s.tl).1, shaders := s.shaders.erase (thisAddr, shader) }

/-- The bookkeeping that the registries keep of the live objects: every live target has
a non-null handle with an entry in the target registry, every live shader has an entry
in the shader registry, the handles are pairwise different, and a subsystem that has
been initialised has registered its destroy callback. -/
structure Lifetime.Sound (s : Lifetime) : Prop where
  targetEntry : ∀ p ∈ s.targets,
    p.2.glPtr ≠ 0 ∧ (HandleMap.find s.tl.thread.threadData.targetsByOglPtr p.2.glPtr).isSome
  targetHandles : (s.targets.map fun p => p.2.glPtr).Nodup
  targetCallback : (s.tl.thread.threadData.initializedYet = true ∨ s.targets ≠ []) →
    Callback.TargetDestroyed ∈ s.tl.thread.contextThreadData.DestroyCallbacks
  shaderEntry : ∀ p ∈ s.shaders,
    (HandleMap.find s.tl.shaderData.shadersByHandle p.2.programHandle).isSome
  shaderHandles : (s.shaders.map fun p => p.2.programHandle).Nodup
  shaderCallback : (s.tl.shaderData.initializedYet = true ∨ s.shaders ≠ []) →
    Callback.ShaderDestroyed ∈ s.tl.thread.contextThreadData.DestroyCallbacks

/-! ## Strings (`Strings.h`) -/

namespace Strings

/-- The byte `valueBytes[k]` of the object representation of a value of an unsigned
integer type of `nBytes` bytes, on a little-endian or a big-endian platform. -/
def valueBytes (littleEndian : Bool) (nBytes value k : Nat) : Nat :=
  if littleEndian then (value / 2 ^ (8 * k)) % 256
  else (value / 2 ^ (8 * (nBytes - 1 - k))) % 256

/-- The inner loop of `ToBinaryString`, over `bitI` from 7 down to 0: the bits of one
byte are appended to the result, most significant first. -/
def appendBits (byte : Nat) (result : List Char) : Except String (List Char) :=
  [7, 6, 5, 4, 3, 2, 1, 0].foldlM (fun result bitI => do
    let bit := (byte >>> bitI) &&& 1
    if ¬ (bit = 0 ∨ bit = 1) then throw "Bit is not a bit"
    pure (result ++ [if bit = 0 then '0' else '1'])) result

/-- The outer loop of `ToBinaryString`, over `byteI` from 0 to `nBytes - 1`. -/
def appendBytes (littleEndian : Bool) (nBytes value : Nat) (result : List Char) :
    Except String (List Char) :=
  (List.range nBytes).foldlM (fun result byteI =>
    appendBits
      (valueBytes littleEndian nBytes value (if littleEndian then nBytes - 1 - byteI else byteI))
      result) result

/-- The loop `while (charI < result.size() - 1 && result[charI] == '0') result.erase(charI, 1)`
of `ToBinaryString`; the result has at least eight characters when the loop starts. -/
def eraseLeadingZeroes (charI : Nat) (result : List Char) : List Char :=
  if charI < result.length - 1 ∧ result[charI]? = some '0' then
    eraseLeadingZeroes charI (result.eraseIdx charI)
  else result
termination_by result.length
decreasing_by
  rename_i h
  rw [List.length_eraseIdx]
  split_ifs <;> omega

/-- The function template `ToBinaryString<UInt_t>` for an unsigned integer type of
`nBytes` bytes (`sizeof(UInt_t)`), whose values are the numbers below `2 ^ (8 * nBytes)`;
`littleEndian` is `IsPlatformLittleEndian()`.  A string is the list of its characters. -/
def ToBinaryString (littleEndian : Bool) (nBytes value : Nat) (removeLeadingZeroes : Bool)
    (pre : List Char) : Except String (List Char) := do
  let result ← appendBytes littleEndian nBytes value pre
  if removeLeadingZeroes then pure (eraseLeadingZeroes pre.length result)
  else pure result

/-- The number that a string of binary digits denotes, most significant digit first. -/
def binaryValue (digits : List Char) : Nat :=
  digits.foldl (fun acc c => 2 * acc + (if c = '1' then 1 else 0)) 0

/-- The eight binary digits of a byte, most significant first. -/
def byteDigits (byte : Nat) : List Char :=
  [7, 6, 5, 4, 3, 2, 1, 0].map fun bitI => if (byte / 2 ^ bitI) % 2 = 0 then '0' else '1'

/-- The digits of a value of `nBytes` bytes, most significant byte first. -/
def valueDigits (nBytes value : Nat) : List Char :=
  (List.range nBytes).flatMap fun byteI =>
    byteDigits ((value / 2 ^ (8 * (nBytes - 1 - byteI))) % 256)

/-- A string of digits without its leading zeroes, the last digit kept. -/
def stripZeroes : List Char → List Char
  | [] => []
  | [c] => [c]
  | c :: d :: rest => if c = '0' then stripZeroes (d :: rest) else c :: d :: rest

end Strings

/-! ## Example shader builds and lifetimes -/

/-- A driver on which both stages compile and the link fails with the log "mismatch". -/
def exampleLinkFailure : ShaderDriver :=
  { vertShaderObj := 1, geomShaderObj := 2, fragShaderObj := 3, programObj := 4,
    vert := { status := true, infoLog := "" }, geom := { status := true, infoLog := "" },
    frag := { status := true, infoLog := "" },
    link := { status := false, infoLog := "mismatch" } }

/-- The thread-local data after the example target has been constructed, with no shader
created on the thread. -/
def exampleThreadLocal : ThreadLocal :=
  { thread := exampleConstructed.thread,
    shaderData := { currentShader := none, initializedYet := false, shadersByHandle := [] } }

/-- The world after the example target at address 100 has been moved into a new target
at address 200, for which the driver creates the framebuffer 4. -/
def exampleMoved : Except String Target × World :=
  (Target.constructMove exampleComplete 4 200 1 exampleConstructed.this).run exampleSecond

/-- The world after the moved-from target and then the new target have been destroyed. -/
def exampleBothDestroyed : World :=
  match exampleMoved with
  | (.ok moved, w) =>
    let w1 := (Target.destroy.run { w with this := moved }).2
    (Target.destroy.run { w1 with this := w.this }).2
  | (.error _, w) => w

/-- The state of the thread with the example target alive. -/
def exampleLifetime : Lifetime :=
  { tl := exampleThreadLocal, targets := [(100, exampleConstructed.this)], shaders := [] }

/-- The world of a target whose thread-local data are `thread` and whose handle is `fb`. -/
def World.Registered (thread : Thread) (fb : GLuint) : World → Prop :=
  fun w => w.thread = thread ∧ w.this.glPtr = fb

/-! # Theorems -/

/-! ## Lemmas on the enum conversions and the driver report -/

/-- No member of `ValueTests` has the integral value `GL_INVALID_ENUM`. -/
theorem ValueTests.toGLenum_ne_invalid (t : ValueTests) : t.toGLenum ≠ GL_INVALID_ENUM := by
  cases t <;> decide

theorem GLfloat.float_eq_iff (x y : GLfloat) : x.eq y = true ↔ x = y ∧ x.isNaN = false := by
  simp [GLfloat.eq, and_comm]

theorem FVec1.vec1_eq_iff (a b : FVec1) : a.eq b = true ↔ a = b ∧ a.hasNaN = false := by
  rcases a with ⟨ax⟩
  rcases b with ⟨bx⟩
  simp [FVec1.eq, FVec1.hasNaN, GLfloat.float_eq_iff]

theorem FVec3.vec3_eq_iff (a b : FVec3) : a.eq b = true ↔ a = b ∧ a.hasNaN = false := by
  rcases a with ⟨ar, ag, ab⟩
  rcases b with ⟨br, bg, bb⟩
  simp only [FVec3.eq, FVec3.hasNaN, Bool.and_eq_true, GLfloat.float_eq_iff, FVec3.mk.injEq,
    Bool.or_eq_false_iff]
  tauto

/-- The `==` of two RGB blend states holds exactly when they are the same and the blend
constant holds no NaN. -/
theorem BlendState.eq_rgb_iff (a b : BlendStateRGB) :
    BlendState.eq FVec3.eq a b = true ↔ a = b ∧ a.Constant.hasNaN = false := by
  rcases a with ⟨as, ad, ao, ac⟩
  rcases b with ⟨bs, bd, bo, bc⟩
  simp only [BlendState.eq, Bool.and_eq_true, decide_eq_true_eq, FVec3.vec3_eq_iff,
    BlendState.mk.injEq]
  tauto

/-- The `==` of two alpha blend states holds exactly when they are the same and the blend
constant is no NaN. -/
theorem BlendState.eq_alpha_iff (a b : BlendStateAlpha) :
    BlendState.eq FVec1.eq a b = true ↔ a = b ∧ a.Constant.hasNaN = false := by
  rcases a with ⟨as, ad, ao, ac⟩
  rcases b with ⟨bs, bd, bo, bc⟩
  simp only [BlendState.eq, Bool.and_eq_true, decide_eq_true_eq, FVec1.vec1_eq_iff,
    BlendState.mk.injEq]
  tauto

/-! ## The cache after each setter of `SetState` -/

namespace Context

theorem SetFaceCulling_fst (c : Context) (mode : FaceCullModes) :
    (c.SetFaceCulling mode).1 = { c with state := { c.state with CullMode := mode } } := by
  rcases c with ⟨⟨cm, dt, dw, cw, cb, ab, stf, stb, srf, srb, smf, smb⟩, vp, sc, rt, vs⟩
  unfold SetFaceCulling
  by_cases h1 : mode = FaceCullModes.Off <;> by_cases h2 : cm = mode <;> simp_all

theorem SetDepthTest_fst (c : Context) (t : ValueTests) :
    (c.SetDepthTest t).1 = { c with state := { c.state with DepthTest := t } } := by
  rcases c with ⟨⟨cm, dt, dw, cw, cb, ab, stf, stb, srf, srb, smf, smb⟩, vp, sc, rt, vs⟩
  unfold SetDepthTest
  by_cases h2 : dt = t <;> simp_all

theorem SetDepthWrites_fst (c : Context) (b : Bool) :
    (c.SetDepthWrites b).1 = { c with state := { c.state with EnableDepthWrite := b } } := by
  rcases c with ⟨⟨cm, dt, dw, cw, cb, ab, stf, stb, srf, srb, smf, smb⟩, vp, sc, rt, vs⟩
  unfold SetDepthWrites
  by_cases h2 : b = dw <;> simp_all

theorem SetColorWriteMask_fst (c : Context) (m : BVec4) :
    (c.SetColorWriteMask m).1 = { c with state := { c.state with ColorWriteMask := m } } := by
  rcases c with ⟨⟨cm, dt, dw, cw, cb, ab, stf, stb, srf, srb, smf, smb⟩, vp, sc, rt, vs⟩
  unfold SetColorWriteMask
  by_cases h2 : m = cw <;> simp_all

theorem SetColorBlending_fst (c : Context) (b : BlendStateRGB) :
    (c.SetColorBlending b).1 = { c with state := { c.state with ColorBlending := b } } := by
  rcases c with ⟨⟨cm, dt, dw, cw, cb, ab, stf, stb, srf, srb, smf, smb⟩, vp, sc, rt, vs⟩
  unfold SetColorBlending
  split_ifs with h
  · have h2 := ((BlendState.eq_rgb_iff _ _).1 h).1
    simp only [] at h2
    rw [h2]
  · rfl

theorem SetAlphaBlending_fst (c : Context) (b : BlendStateAlpha) :
    (c.SetAlphaBlending b).1 = { c with state := { c.state with AlphaBlending := b } } := by
  rcases c with ⟨⟨cm, dt, dw, cw, cb, ab, stf, stb, srf, srb, smf, smb⟩, vp, sc, rt, vs⟩
  unfold SetAlphaBlending
  split_ifs with h
  · have h2 := ((BlendState.eq_alpha_iff _ _).1 h).1
    simp only [] at h2
    rw [h2]
  · rfl

theorem SetStencilTestFrontFaces_fst (c : Context) (t : StencilTest) :
    (c.SetStencilTestFrontFaces t).1 = { c with state := { c.state with StencilTestFront := t } } := by
  rcases c with ⟨⟨cm, dt, dw, cw, cb, ab, stf, stb, srf, srb, smf, smb⟩, vp, sc, rt, vs⟩
  unfold SetStencilTestFrontFaces
  by_cases h2 : t = stf <;> simp_all

theorem SetStencilTestBackFaces_fst (c : Context) (t : StencilTest) :
    (c.SetStencilTestBackFaces t).1 = { c with state := { c.state with StencilTestBack := t } } := by
  rcases c with ⟨⟨cm, dt, dw, cw, cb, ab, stf, stb, srf, srb, smf, smb⟩, vp, sc, rt, vs⟩
  unfold SetStencilTestBackFaces
  by_cases h2 : t = stb <;> simp_all

theorem SetStencilResultFrontFaces_fst (c : Context) (t : StencilResult) :
    (c.SetStencilResultFrontFaces t).1 =
      { c with state := { c.state with StencilResultFront := t } } := by
  rcases c with ⟨⟨cm, dt, dw, cw, cb, ab, stf, stb, srf, srb, smf, smb⟩, vp, sc, rt, vs⟩
  unfold SetStencilResultFrontFaces
  by_cases h2 : t = srf <;> simp_all

theorem SetStencilResultBackFaces_fst (c : Context) (t : StencilResult) :
    (c.SetStencilResultBackFaces t).1 =
      { c with state := { c.state with StencilResultBack := t } } := by
  rcases c with ⟨⟨cm, dt, dw, cw, cb, ab, stf, stb, srf, srb, smf, smb⟩, vp, sc, rt, vs⟩
  unfold SetStencilResultBackFaces
  by_cases h2 : t = srb <;> simp_all

theorem SetStencilMaskFrontFaces_fst (c : Context) (t : GLuint) :
    (c.SetStencilMaskFrontFaces t).1 =
      { c with state := { c.state with StencilMaskFront := t } } := by
  rcases c with ⟨⟨cm, dt, dw, cw, cb, ab, stf, stb, srf, srb, smf, smb⟩, vp, sc, rt, vs⟩
  unfold SetStencilMaskFrontFaces
  by_cases h2 : t = smf <;> simp_all

theorem SetStencilMaskBackFaces_fst (c : Context) (t : GLuint) :
    (c.SetStencilMaskBackFaces t).1 =
      { c with state := { c.state with StencilMaskBack := t } } := by
  rcases c with ⟨⟨cm, dt, dw, cw, cb, ab, stf, stb, srf, srb, smf, smb⟩, vp, sc, rt, vs⟩
  unfold SetStencilMaskBackFaces
  by_cases h2 : t = smb <;> simp_all

/-- The cache after `SetState(s)` is the old cache with the render state `s`. -/
theorem SetState_fst (c : Context) (s : RenderState) :
    (c.SetState s).1 = { c with state := s } := by
  simp only [SetState, Emitted.andThen, SetFaceCulling_fst, SetDepthTest_fst, SetDepthWrites_fst,
    SetColorWriteMask_fst, SetColorBlending_fst, SetAlphaBlending_fst,
    SetStencilTestFrontFaces_fst, SetStencilTestBackFaces_fst, SetStencilResultFrontFaces_fst,
    SetStencilResultBackFaces_fst, SetStencilMaskFrontFaces_fst, SetStencilMaskBackFaces_fst]

end Context

/-! ## Lemmas on the family of setters -/

/-- A setter whose requested value the cache already holds, and is no NaN, returns the
cache and no call. -/
theorem SetterCall.run_eq_of_heldBy (c : Context) (call : SetterCall) (h : call.HeldBy c)
    (hn : call.hasNaN = false) : call.run c = (c, []) := by
  cases call
  case SetBlending b =>
    obtain ⟨h1, h2⟩ := h
    have hn3 : FVec3.hasNaN { r := b.Constant.r, g := b.Constant.g, b := b.Constant.b } = false := by
      simp only [SetterCall.hasNaN, FVec4.hasNaN, Bool.or_eq_false_iff] at hn
      simp [FVec3.hasNaN, hn.1.1.1, hn.1.1.2, hn.1.2]
    have hn1 : FVec1.hasNaN { x := b.Constant.a } = false := by
      simp only [SetterCall.hasNaN, FVec4.hasNaN, Bool.or_eq_false_iff] at hn
      simp [FVec1.hasNaN, hn.2]
    have e1 := (BlendState.eq_rgb_iff
      { Src := b.Src, Dest := b.Dest, Op := b.Op,
        Constant := { r := b.Constant.r, g := b.Constant.g, b := b.Constant.b } }
      c.state.ColorBlending).2 ⟨h1.symm, hn3⟩
    have e2 := (BlendState.eq_alpha_iff
      { Src := b.Src, Dest := b.Dest, Op := b.Op, Constant := { x := b.Constant.a } }
      c.state.AlphaBlending).2 ⟨h2.symm, hn1⟩
    simp only [SetterCall.run, Context.SetBlending, e1, e2, Bool.and_self, if_true]
  case SetColorBlending b =>
    have e1 := (BlendState.eq_rgb_iff b c.state.ColorBlending).2 ⟨h.symm, hn⟩
    simp only [SetterCall.run, Context.SetColorBlending, e1, if_true]
  case SetAlphaBlending b =>
    have e1 := (BlendState.eq_alpha_iff b c.state.AlphaBlending).2 ⟨h.symm, hn⟩
    simp only [SetterCall.run, Context.SetAlphaBlending, e1, if_true]
  all_goals
    simp only [SetterCall.HeldBy] at h
    simp [SetterCall.run, Context.SetFaceCulling, Context.SetDepthTest, Context.SetDepthWrites,
      Context.SetColorWriteMask, Context.SetStencilTest, Context.SetStencilTestFrontFaces,
      Context.SetStencilTestBackFaces, Context.SetStencilResult,
      Context.SetStencilResultFrontFaces, Context.SetStencilResultBackFaces,
      Context.SetStencilMask, Context.SetStencilMaskFrontFaces, Context.SetStencilMaskBackFaces,
      Context.SetViewport, Context.SetActiveTarget, ValueTests.toGLenum_ne_invalid, h]
  split_ifs <;> simp_all

/-- After a setter, the cache holds the requested value. -/
theorem SetterCall.heldBy_run (c : Context) (call : SetterCall) :
    call.HeldBy (call.run c).1 := by
  rcases c with ⟨⟨cm, dt, dw, cw, cb, ab, stf, stb, srf, srb, smf, smb⟩, vp, sc, rt, vs⟩
  cases call
  case SetBlending b =>
    simp only [SetterCall.HeldBy, SetterCall.run, Context.SetBlending]
    split_ifs with h
    · rw [Bool.and_eq_true] at h
      exact ⟨((BlendState.eq_rgb_iff _ _).1 h.1).1.symm, ((BlendState.eq_alpha_iff _ _).1 h.2).1.symm⟩
    · exact ⟨rfl, rfl⟩
  case SetColorBlending b =>
    simp only [SetterCall.HeldBy, SetterCall.run, Context.SetColorBlending]
    split_ifs with h
    · exact ((BlendState.eq_rgb_iff _ _).1 h).1.symm
    · rfl
  case SetAlphaBlending b =>
    simp only [SetterCall.HeldBy, SetterCall.run, Context.SetAlphaBlending]
    split_ifs with h
    · exact ((BlendState.eq_alpha_iff _ _).1 h).1.symm
    · rfl
  all_goals
    simp only [SetterCall.HeldBy, SetterCall.run, Context.SetFaceCulling, Context.SetDepthTest,
      Context.SetDepthWrites,
      Context.SetColorWriteMask, Context.SetStencilTest, Context.SetStencilTestFrontFaces,
      Context.SetStencilTestBackFaces, Context.SetStencilResult,
      Context.SetStencilResultFrontFaces, Context.SetStencilResultBackFaces,
      Context.SetStencilMask, Context.SetStencilMaskFrontFaces, Context.SetStencilMaskBackFaces,
      Context.SetViewport, Context.SetActiveTarget]
    split_ifs <;> simp_all

/-- On a cache whose render state is already `s`, with no NaN in a blend constant,
`SetState(s)` emits nothing. -/
theorem Context.SetState_eq_of_state_eq (c : Context) (s : RenderState) (h : c.state = s)
    (hn : s.hasNaN = false) : c.SetState s = (c, []) := by
  subst h
  simp only [RenderState.hasNaN, Bool.or_eq_false_iff] at hn
  have e1 := SetterCall.run_eq_of_heldBy c (.SetFaceCulling c.state.CullMode) rfl rfl
  have e2 := SetterCall.run_eq_of_heldBy c (.SetDepthTest c.state.DepthTest) rfl rfl
  have e3 := SetterCall.run_eq_of_heldBy c (.SetDepthWrites c.state.EnableDepthWrite) rfl rfl
  have e4 := SetterCall.run_eq_of_heldBy c (.SetColorWriteMask c.state.ColorWriteMask) rfl rfl
  have e5 := SetterCall.run_eq_of_heldBy c (.SetColorBlending c.state.ColorBlending) rfl hn.1
  have e6 := SetterCall.run_eq_of_heldBy c (.SetAlphaBlending c.state.AlphaBlending) rfl hn.2
  have e7 := SetterCall.run_eq_of_heldBy c (.SetStencilTestFrontFaces c.state.StencilTestFront)
    rfl rfl
  have e8 := SetterCall.run_eq_of_heldBy c (.SetStencilTestBackFaces c.state.StencilTestBack)
    rfl rfl
  have e9 := SetterCall.run_eq_of_heldBy c
    (.SetStencilResultFrontFaces c.state.StencilResultFront) rfl rfl
  have e10 := SetterCall.run_eq_of_heldBy c
    (.SetStencilResultBackFaces c.state.StencilResultBack) rfl rfl
  have e11 := SetterCall.run_eq_of_heldBy c (.SetStencilMaskFrontFaces c.state.StencilMaskFront)
    rfl rfl
  have e12 := SetterCall.run_eq_of_heldBy c (.SetStencilMaskBackFaces c.state.StencilMaskBack)
    rfl rfl
  simp only [SetterCall.run] at e1 e2 e3 e4 e5 e6 e7 e8 e9 e10 e11 e12
  simp only [Context.SetState, Emitted.andThen, e1, e2, e3, e4, e5, e6, e7, e8, e9, e10, e11, e12,
    List.append_nil]

/-! ## What `RefreshState` reads -/

/-- Reading an unsigned 32-bit value through a `GLint` and casting it back is the identity. -/
theorem toGLuint_asGLint (n : Nat) (h : n < 2 ^ 32) : toGLuint (asGLint n) = n := by
  unfold toGLuint asGLint
  split_ifs with h1
  · have : ((n : Int) % 2 ^ 32) = n := by omega
    rw [this]; exact Int.toNat_ofNat n
  · have : (((n : Int) - 2 ^ 32) % 2 ^ 32) = n := by omega
    rw [this]; exact Int.toNat_ofNat n

/-- The query `glIsEnabled(GL_DEPTH_WRITEMASK)` returns false in every driver state. -/
theorem Driver.isEnabled_depth_writemask (d : Driver) : d.isEnabled GL_DEPTH_WRITEMASK = false := by
  have h : isCapability GL_DEPTH_WRITEMASK = false := by decide
  simp [Driver.isEnabled, h]

/-- Whenever `RefreshState` returns, the cached depth-write flag is false, whatever the
depth mask of the driver is; the rest of the cached render state, the scissor and the vsync
mode are the ones the driver holds, and the cached viewport is the one from before the
call. -/
theorem Context.RefreshState_reads_state (c : Context) (d : Driver) (r : Context × Driver)
    (h : c.RefreshState d = some r)
    (h1 : d.stencilFront.valueMask < 2 ^ 32) (h2 : d.stencilFront.writeMask < 2 ^ 32)
    (h3 : d.stencilBack.valueMask < 2 ^ 32) (h4 : d.stencilBack.writeMask < 2 ^ 32) :
    r.1.state.EnableDepthWrite = false ∧
      r.2.reportedState = some { r.1.state with EnableDepthWrite := r.2.depthWriteMask } ∧
      r.1.scissor = r.2.reportedScissor ∧
      r.1.vsync = r.2.swapInterval ∧ r.1.viewport = c.viewport := by
  unfold Context.RefreshState at h
  simp only [Option.bind_eq_bind, Option.pure_def, Option.bind_eq_some] at h
  obtain ⟨t1, ht1, t2, ht2, t3, ht3, h⟩ := h
  cases h
  have e1 : (d.execAll refreshPrelude).stencilFront = d.stencilFront := rfl
  have e2 : (d.execAll refreshPrelude).stencilBack = d.stencilBack := rfl
  refine ⟨Driver.isEnabled_depth_writemask (d.execAll refreshPrelude), ?_, rfl, rfl, rfl⟩
  rw [e1] at ht2
  rw [e2] at ht3
  simp only [Driver.reportedState, ht1, ht2, ht3, e1, e2, toGLuint_asGLint _ h1,
    toGLuint_asGLint _ h2, toGLuint_asGLint _ h3, toGLuint_asGLint _ h4]

/-! ## The claims -/

/-- Claim C1 fails for a render state with a NaN in a blend constant: the example state
with NaN as the red blend constant is applied to the example context; the second
`SetState` with the same state finds the requested RGB blend state unequal to the cached
one, which is that same state, and emits the three blend calls again. -/
theorem SetState_twice_reemits_on_nan :
    (exampleContext.SetState exampleNaNState).1.state = exampleNaNState ∧
    ((exampleContext.SetState exampleNaNState).1.SetState exampleNaNState).2 =
      [GLCall.glBlendFuncSeparate 1 0 1 0, GLCall.glBlendEquationSeparate 0x8006 0x8006,
       GLCall.glBlendColor .nan 0 0 0] := by
  decide

/-- Claim C1, for render states without NaN: for every context state and every render
state `s` whose blend constants hold no NaN, after `SetState(s)` a second `SetState(s)`
emits no native call at all and leaves the cache unchanged. -/
theorem SetState_twice_emits_nothing (c : Context) (s : RenderState) (hn : s.hasNaN = false) :
    (c.SetState s).1.SetState s = ((c.SetState s).1, []) :=
  Context.SetState_eq_of_state_eq _ s (by rw [Context.SetState_fst]) hn

/-- Claim C1 at a concrete input: the example state, applied twice from a context that
caches another alpha blend constant. -/
theorem SetState_twice_emits_nothing_witness :
    exampleState.hasNaN = false ∧
    (exampleNaNAlphaContext.SetState exampleState).1.SetState exampleState =
      ((exampleNaNAlphaContext.SetState exampleState).1, []) :=
  ⟨by decide, SetState_twice_emits_nothing exampleNaNAlphaContext exampleState (by decide)⟩

/-- Claim C2: for every context state and every render state `s`, after `SetState(s)` the
cached render state equals `s` (hence in each of its twelve fields), and the cached
viewport, scissor and active target are the ones from before the call. -/
theorem SetState_cache_equals_requested (c : Context) (s : RenderState) :
    (c.SetState s).1.state = s ∧ (c.SetState s).1.viewport = c.viewport ∧
      (c.SetState s).1.scissor = c.scissor ∧ (c.SetState s).1.activeRT = c.activeRT := by
  rw [Context.SetState_fst]
  exact ⟨rfl, rfl, rfl, rfl⟩

/-- Claim C3 fails for a requested value with a NaN: the context caches the RGB blend
state with NaN as the red blend constant, `SetColorBlending` is called with that same
blend state, and the three blend calls are emitted. -/
theorem SetColorBlending_reemits_on_nan :
    (SetterCall.SetColorBlending exampleNaNState.ColorBlending).HeldBy
        { exampleContext with state := exampleNaNState } ∧
    ((SetterCall.SetColorBlending exampleNaNState.ColorBlending).run
        { exampleContext with state := exampleNaNState }).2 =
      [GLCall.glBlendFuncSeparate 1 0 1 0, GLCall.glBlendEquationSeparate 0x8006 0x8006,
       GLCall.glBlendColor .nan 0 0 0] :=
  ⟨rfl, by decide⟩

/-- Claim C3, for requested values without NaN: each of the eighteen diffing setters emits
no native call and leaves the cache unchanged whenever the cache already holds the
requested value in every field the setter would write, and the requested value holds no
NaN (in a blend constant). -/
theorem setter_short_circuits (c : Context) (call : SetterCall) (h : call.HeldBy c)
    (hn : call.hasNaN = false) : call.run c = (c, []) :=
  SetterCall.run_eq_of_heldBy c call h hn

/-- Claim C3 at a concrete input: `SetBlending` with the blend state that the example
context already caches in both its RGB and its alpha half. -/
theorem setter_short_circuits_witness :
    (SetterCall.SetBlending (exampleBlend FVec4 { r := 0, g := 0, b := 0, a := 0 })).HeldBy
        exampleContext ∧
      (SetterCall.SetBlending (exampleBlend FVec4 { r := 0, g := 0, b := 0, a := 0 })).hasNaN =
        false ∧
      (SetterCall.SetBlending (exampleBlend FVec4 { r := 0, g := 0, b := 0, a := 0 })).run
        exampleContext = (exampleContext, []) :=
  ⟨⟨rfl, rfl⟩, rfl, setter_short_circuits exampleContext _ ⟨rfl, rfl⟩ rfl⟩

/-- Claim C5, evaluated where it fails: `RefreshState` on a context whose cached viewport
is (0, 0, 0, 0), over a driver whose viewport is (0, 0, 800, 600), returns with the cached
viewport still (0, 0, 0, 0): the viewport is read from the driver and not stored. -/
theorem RefreshState_leaves_viewport_stale :
    (exampleContext.RefreshState (exampleDriver { x := 0, y := 0, z := 800, w := 600 })).map
        (fun r => (r.1.viewport, r.2.viewport)) =
      some ({ x := 0, y := 0, z := 0, w := 0 }, { x := 0, y := 0, z := 800, w := 600 }) := by
  decide

/-- Claim C6: the scissor state machine.  `SetScissor` emits the native scissor-test
enable exactly when the cached scissor was absent (once then, never otherwise), and
afterwards `GetScissor` returns true with the requested rectangle; `DisableScissor` emits
the native disable exactly when the cached scissor was present, and afterwards
`GetScissor` returns false and leaves the out-parameters alone; `DisableScissor` on a
disabled scissor emits nothing and changes nothing. -/
theorem scissor_state_machine (c : Context) (x y w h : GLint)
    (out : GLint × GLint × GLint × GLint) :
    (((c.SetScissor x y w h).2.count (GLCall.glEnable GL_SCISSOR_TEST) =
        if c.scissor = none then 1 else 0) ∧
      (c.SetScissor x y w h).1.GetScissor out = (true, (x, y, w, h))) ∧
    ((c.DisableScissor.2.count (GLCall.glDisable GL_SCISSOR_TEST) =
        if c.scissor = none then 0 else 1) ∧
      c.DisableScissor.1.GetScissor out = (false, out)) ∧
    (c.scissor = none → c.DisableScissor = (c, [])) := by
  rcases c with ⟨st, vp, sc, rt, vs⟩
  cases sc with
  | none =>
    refine ⟨⟨?_, ?_⟩, ⟨?_, ?_⟩, ?_⟩
    · simp only [Context.SetScissor, Emitted.andThen]
      split_ifs <;> simp_all
    · simp only [Context.SetScissor, Emitted.andThen]
      split_ifs <;> simp_all [Context.GetScissor]
    · simp [Context.DisableScissor]
    · simp [Context.DisableScissor, Context.GetScissor]
    · intro _; simp [Context.DisableScissor]
  | some r =>
    refine ⟨⟨?_, ?_⟩, ⟨?_, ?_⟩, ?_⟩
    · simp only [Context.SetScissor, Emitted.andThen]
      split_ifs <;> simp_all
    · simp only [Context.SetScissor, Emitted.andThen]
      split_ifs <;> simp_all [Context.GetScissor]
    · simp [Context.DisableScissor]
    · simp [Context.DisableScissor, Context.GetScissor]
    · intro h; simp at h

/-- Claim C6 at a concrete input: `DisableScissor` on the example context, whose scissor
is disabled. -/
theorem scissor_state_machine_witness :
    exampleContext.scissor = none ∧ exampleContext.DisableScissor = (exampleContext, []) :=
  ⟨rfl, (scissor_state_machine exampleContext 0 0 0 0 (0, 0, 0, 0)).2.2 rfl⟩

/-- Claim C7 fails for a NaN as alpha blend constant: the RGB and the alpha blend state
of the context have the same source factor, destination factor and operation, and
`GetBlending` fails its assertion, because the comparison of the alpha blend state with
its copy compares the NaN constant with itself. -/
theorem GetBlending_fails_on_nan_constant :
    exampleNaNAlphaContext.state.ColorBlending.Src =
      exampleNaNAlphaContext.state.AlphaBlending.Src ∧
    exampleNaNAlphaContext.state.ColorBlending.Dest =
      exampleNaNAlphaContext.state.AlphaBlending.Dest ∧
    exampleNaNAlphaContext.state.ColorBlending.Op =
      exampleNaNAlphaContext.state.AlphaBlending.Op ∧
    exampleNaNAlphaContext.GetBlending =
      .error "Alpha blend state and color blend state do not match up" :=
  ⟨rfl, rfl, rfl, rfl⟩

/-- Claim C7, with the NaN case: each combined getter fails its assertion exactly when
the two halves it combines differ, and otherwise returns the shared value.
`GetStencilTest`, `GetStencilResult` and `GetStencilMask` succeed iff the front-face value
equals the back-face value; `GetBlending` succeeds iff the RGB and alpha blend states have
the same source factor, destination factor and operation and the alpha blend constant is
not NaN, and then returns these with the constant made of the RGB constant and the alpha
constant. -/
theorem combined_getters_assert (c : Context) :
    (((∃ v, c.GetStencilTest = .ok v) ↔ c.state.StencilTestFront = c.state.StencilTestBack) ∧
      ((∃ msg, c.GetStencilTest = .error msg) ↔
        c.state.StencilTestFront ≠ c.state.StencilTestBack) ∧
      ∀ v, c.GetStencilTest = .ok v →
        v = c.state.StencilTestFront ∧ v = c.state.StencilTestBack) ∧
    (((∃ v, c.GetStencilResult = .ok v) ↔
        c.state.StencilResultFront = c.state.StencilResultBack) ∧
      ((∃ msg, c.GetStencilResult = .error msg) ↔
        c.state.StencilResultFront ≠ c.state.StencilResultBack) ∧
      ∀ v, c.GetStencilResult = .ok v →
        v = c.state.StencilResultFront ∧ v = c.state.StencilResultBack) ∧
    (((∃ v, c.GetStencilMask = .ok v) ↔ c.state.StencilMaskFront = c.state.StencilMaskBack) ∧
      ((∃ msg, c.GetStencilMask = .error msg) ↔
        c.state.StencilMaskFront ≠ c.state.StencilMaskBack) ∧
      ∀ v, c.GetStencilMask = .ok v →
        v = c.state.StencilMaskFront ∧ v = c.state.StencilMaskBack) ∧
    (((∃ v, c.GetBlending = .ok v) ↔
        c.state.ColorBlending.Src = c.state.AlphaBlending.Src ∧
        c.state.ColorBlending.Dest = c.state.AlphaBlending.Dest ∧
        c.state.ColorBlending.Op = c.state.AlphaBlending.Op ∧
        c.state.AlphaBlending.Constant.x.isNaN = false) ∧
      ((∃ msg, c.GetBlending = .error msg) ↔
        ¬ (c.state.ColorBlending.Src = c.state.AlphaBlending.Src ∧
          c.state.ColorBlending.Dest = c.state.AlphaBlending.Dest ∧
          c.state.ColorBlending.Op = c.state.AlphaBlending.Op ∧
          c.state.AlphaBlending.Constant.x.isNaN = false)) ∧
      ∀ v, c.GetBlending = .ok v →
        v = { Src := c.state.ColorBlending.Src, Dest := c.state.ColorBlending.Dest,
              Op := c.state.ColorBlending.Op,
              Constant := { r := c.state.ColorBlending.Constant.r,
                            g := c.state.ColorBlending.Constant.g,
                            b := c.state.ColorBlending.Constant.b,
                            a := c.state.AlphaBlending.Constant.x } }) := by
  rcases c with ⟨⟨cm, dt, dw, cw, ⟨cs, cd, co, cc⟩, ⟨as, ad, ao, ac⟩, stf, stb, srf, srb, smf, smb⟩,
    vp, sc, rt, vs⟩
  have key : BlendState.eq FVec1.eq (⟨as, ad, ao, ac⟩ : BlendStateAlpha) ⟨cs, cd, co, ac⟩ = true ↔
      (cs = as ∧ cd = ad ∧ co = ao ∧ ac.x.isNaN = false) := by
    rw [BlendState.eq_alpha_iff]
    simp only [BlendState.mk.injEq, and_true, FVec1.hasNaN]
    constructor
    · rintro ⟨⟨rfl, rfl, rfl⟩, h⟩; exact ⟨rfl, rfl, rfl, h⟩
    · rintro ⟨rfl, rfl, rfl, h⟩; exact ⟨⟨rfl, rfl, rfl⟩, h⟩
  refine ⟨⟨?_, ?_, ?_⟩, ⟨?_, ?_, ?_⟩, ⟨?_, ?_, ?_⟩, ⟨?_, ?_, ?_⟩⟩
  · unfold Context.GetStencilTest; split_ifs <;> simp_all
  · unfold Context.GetStencilTest; split_ifs <;> simp_all
  · unfold Context.GetStencilTest; split_ifs <;> simp_all
  · unfold Context.GetStencilResult; split_ifs <;> simp_all
  · unfold Context.GetStencilResult; split_ifs <;> simp_all
  · unfold Context.GetStencilResult; split_ifs <;> simp_all
  · unfold Context.GetStencilMask; split_ifs <;> simp_all
  · unfold Context.GetStencilMask; split_ifs <;> simp_all
  · unfold Context.GetStencilMask; split_ifs <;> simp_all
  · unfold Context.GetBlending
    simp only []
    split_ifs with h
    · exact ⟨fun _ => key.1 h, fun _ => ⟨_, rfl⟩⟩
    · constructor
      · rintro ⟨v, hv⟩; cases hv
      · intro h0; exact absurd (key.2 h0) h
  · unfold Context.GetBlending
    simp only []
    split_ifs with h
    · constructor
      · rintro ⟨msg, hm⟩; cases hm
      · intro h0; exact absurd (key.1 h) h0
    · exact ⟨fun _ h0 => h (key.2 h0), fun _ => ⟨_, rfl⟩⟩
  · unfold Context.GetBlending
    simp only []
    split_ifs with h
    · intro v hv; cases hv; rfl
    · intro v hv; cases hv

/-- Claim C8 fails for a blend state with NaN as the alpha component of its constant:
after `SetBlending(b)` on the example context, `GetBlending()` fails its assertion. -/
theorem SetBlending_then_GetBlending_fails_on_nan :
    ((exampleContext.SetBlending
      (exampleBlend FVec4 { r := 0, g := 0, b := 0, a := .nan })).1).GetBlending =
      .error "Alpha blend state and color blend state do not match up" :=
  rfl

/-- Claim C8, with the NaN case: round trip of the combined setters from every prior
context state.  After `SetBlending(b)`, `GetBlending()` succeeds and returns `b` if the
alpha component of the constant of `b` is not NaN, and fails its assertion if it is; after
`SetStencilTest`, `SetStencilResult` and `SetStencilMask` their getters succeed and return
the value set. -/
theorem combined_setters_roundtrip (c : Context) (b : BlendStateRGBA) (t : StencilTest)
    (r : StencilResult) (m : GLuint) :
    (b.Constant.a.isNaN = false → (c.SetBlending b).1.GetBlending = .ok b) ∧
    (b.Constant.a.isNaN = true → (c.SetBlending b).1.GetBlending =
      .error "Alpha blend state and color blend state do not match up") ∧
    (c.SetStencilTest t).1.GetStencilTest = .ok t ∧
    (c.SetStencilResult r).1.GetStencilResult = .ok r ∧
    (c.SetStencilMask m).1.GetStencilMask = .ok m := by
  have hset : (c.SetBlending b).1.state.ColorBlending =
        { Src := b.Src, Dest := b.Dest, Op := b.Op,
          Constant := { r := b.Constant.r, g := b.Constant.g, b := b.Constant.b } } ∧
      (c.SetBlending b).1.state.AlphaBlending =
        { Src := b.Src, Dest := b.Dest, Op := b.Op, Constant := { x := b.Constant.a } } :=
    SetterCall.heldBy_run c (.SetBlending b)
  rcases c with ⟨⟨cm, dt, dw, cw, cb, ab, stf, stb, srf, srb, smf, smb⟩, vp, sc, rt, vs⟩
  rcases b with ⟨bs, bd, bo, ⟨br, bg, bb, ba⟩⟩
  obtain ⟨hc, hal⟩ := hset
  refine ⟨?_, ?_, ?_, ?_, ?_⟩
  · intro hn
    have e : BlendState.eq FVec1.eq
        ({ Src := bs, Dest := bd, Op := bo, Constant := { x := ba } } : BlendStateAlpha)
        { Src := bs, Dest := bd, Op := bo, Constant := { x := ba } } = true :=
      (BlendState.eq_alpha_iff _ _).2 ⟨rfl, hn⟩
    simp only [Context.GetBlending, hc, hal, e, if_true, FVec4.ofRGBAlpha]
  · intro hn
    have e : ¬ BlendState.eq FVec1.eq
        ({ Src := bs, Dest := bd, Op := bo, Constant := { x := ba } } : BlendStateAlpha)
        { Src := bs, Dest := bd, Op := bo, Constant := { x := ba } } = true := by
      intro h0
      have := ((BlendState.eq_alpha_iff _ _).1 h0).2
      simp only [FVec1.hasNaN] at this
      rw [hn] at this
      cases this
    simp only [Context.GetBlending, hc, hal, if_neg e]
  · simp only [Context.SetStencilTest]
    split_ifs with h
    · obtain ⟨h1, h2⟩ := h
      subst h1 h2
      simp [Context.GetStencilTest]
    · simp [Context.GetStencilTest]
  · simp only [Context.SetStencilResult]
    split_ifs with h
    · obtain ⟨h1, h2⟩ := h
      subst h1 h2
      simp [Context.GetStencilResult]
    · simp [Context.GetStencilResult]
  · simp only [Context.SetStencilMask]
    split_ifs with h
    · obtain ⟨h1, h2⟩ := h
      subst h1 h2
      simp [Context.GetStencilMask]
    · simp [Context.GetStencilMask]

/-- Claim C9: for every mesh without index data the indexed `Context::Draw` fails its
assertion before any native call is emitted (no shader activation, no mesh activation, no
primitive-restart toggle, no draw call); for every mesh with index data the assertion
passes and the draw returns. -/
theorem Draw_indexed_requires_index_data (mesh : DrawMeshMode_Basic)
    (indices : DrawMeshMode_Indexed) (shader : CompiledShader)
    (currentShader : Option CompiledShader) :
    (mesh.Data.HasIndexData = false →
      (Context.Draw mesh indices shader currentShader).emitted = [] ∧
      (Context.Draw mesh indices shader currentShader).result =
        .error "Using indexed drawing on a mesh with no index data") ∧
    (mesh.Data.HasIndexData = true →
      (Context.Draw mesh indices shader currentShader).result =
        .ok (shader.Activate currentShader).1) := by
  constructor
  · intro h
    simp [Context.Draw, h]
  · intro h
    simp only [Context.Draw, h, MeshData.GetIndexDataType]
    simp

/-- Claim C9 at a concrete input: an indexed draw of the mesh without index data. -/
theorem Draw_indexed_requires_index_data_witness :
    examplePlainMesh.HasIndexData = false ∧
    (Context.Draw { Data := examplePlainMesh, Primitive := 4, Elements := IntervalU.MakeSize 3 }
        { ResetValue := none, ValueOffset := 0 } { programHandle := 7 } none).emitted = [] ∧
    (Context.Draw { Data := examplePlainMesh, Primitive := 4, Elements := IntervalU.MakeSize 3 }
        { ResetValue := none, ValueOffset := 0 } { programHandle := 7 } none).result =
      .error "Using indexed drawing on a mesh with no index data" :=
  ⟨rfl, (Draw_indexed_requires_index_data
    { Data := examplePlainMesh, Primitive := 4, Elements := IntervalU.MakeSize 3 }
    { ResetValue := none, ValueOffset := 0 } { programHandle := 7 } none).1 rfl⟩

/-- Claim C10 fails when the quotient does not fit the 32-bit counter: for a mesh whose
index buffer holds `2 ^ 32` 8-bit indices, the per-index byte size is that of the index
type and divides the byte size of the buffer, and the constructor with the count omitted
returns an interval of size 0, while the quotient `B / S` is `2 ^ 32`. -/
theorem DrawMeshMode_Basic_count_wraps :
    exampleHugeMesh.indexData =
      some { Buf := { glPtr := 2, byteSize := 2 ^ 32 }, DataStructSize := 1,
             InitialByteOffset := 0 } ∧
    (1 : Nat) = GetByteSize exampleHugeMesh.indexDataType ∧ 1 ∣ 2 ^ 32 ∧
    DrawMeshMode_Basic.construct exampleHugeMesh none =
      .ok { Data := exampleHugeMesh, Primitive := 4, Elements := { MinCorner := 0, Size := 0 } } ∧
    2 ^ 32 / 1 ≠ 0 :=
  ⟨rfl, rfl, by decide, rfl, by decide⟩

/-- Claim C10, for a quotient that fits the 32-bit counter: the element range of
`DrawMeshMode_Basic`.  With an explicit count `n` the interval starts at 0 and has size
`n`.  With the count omitted and a mesh whose index buffer has byte size `B` and per-index
byte size `S`, where `S` is the byte size of the mesh index type, `S` divides `B` and
`B / S` is below `2 ^ 32`, the interval starts at 0 and has size `B / S`, so that
`size * S = B`.  With the count omitted and a mesh without index data, or `S` not
matching the index type, or `S` not dividing `B`, construction fails its assertion. -/
theorem DrawMeshMode_Basic_element_range (mesh : MeshData) :
    (∀ n : Nat, ∃ m, DrawMeshMode_Basic.construct mesh (some n) = .ok m ∧
        m.Elements.MinCorner = 0 ∧ m.Elements.Size = n) ∧
    (∀ src : MeshDataSource, mesh.indexData = some src →
        src.DataStructSize = GetByteSize mesh.indexDataType →
        src.DataStructSize ∣ src.Buf.byteSize →
        src.Buf.byteSize / src.DataStructSize < 2 ^ 32 →
        ∃ m, DrawMeshMode_Basic.construct mesh none = .ok m ∧
          m.Elements.MinCorner = 0 ∧
          m.Elements.Size = src.Buf.byteSize / src.DataStructSize ∧
          m.Elements.Size * src.DataStructSize = src.Buf.byteSize) ∧
    (mesh.indexData = none → ∃ msg, DrawMeshMode_Basic.construct mesh none = .error msg) ∧
    (∀ src : MeshDataSource, mesh.indexData = some src →
        src.DataStructSize ≠ GetByteSize mesh.indexDataType ∨
          ¬ src.DataStructSize ∣ src.Buf.byteSize →
        ∃ msg, DrawMeshMode_Basic.construct mesh none = .error msg) := by
  refine ⟨fun n => ⟨_, rfl, rfl, rfl⟩, ?_, ?_, ?_⟩
  · intro src hsrc hS hdvd hlt
    have hmod : src.Buf.byteSize % src.DataStructSize = 0 := Nat.mod_eq_zero_of_dvd hdvd
    refine ⟨{ Data := mesh, Primitive := mesh.PrimitiveType,
              Elements := IntervalU.MakeSize (src.Buf.byteSize / src.DataStructSize) }, ?_, rfl, rfl,
            Nat.div_mul_cancel hdvd⟩
    simp only [DrawMeshMode_Basic.construct, MeshData.HasIndexData, MeshData.GetIndexData,
      MeshData.GetIndexDataType, hsrc, Option.isSome_some, if_true]
    rw [if_neg (not_not.2 hS), if_neg (not_not.2 hmod), Nat.mod_eq_of_lt hlt]
  · intro h
    exact ⟨_, by simp [DrawMeshMode_Basic.construct, MeshData.HasIndexData, h]; rfl⟩
  · intro src hsrc h
    simp only [DrawMeshMode_Basic.construct, MeshData.HasIndexData, MeshData.GetIndexData,
      MeshData.GetIndexDataType, hsrc, Option.isSome_some, if_true]
    rcases h with h | h
    · exact ⟨_, by rw [if_pos h]⟩
    · by_cases h1 : src.DataStructSize ≠ GetByteSize mesh.indexDataType
      · exact ⟨_, by rw [if_pos h1]⟩
      · have : src.Buf.byteSize % src.DataStructSize ≠ 0 := fun h0 =>
          h (Nat.dvd_of_mod_eq_zero h0)
        exact ⟨_, by rw [if_neg h1, if_pos this]⟩

/-- Claim C10 at a concrete input: the two-triangle mesh of the unit tests, six 16-bit
indices in twelve bytes. -/
theorem DrawMeshMode_Basic_element_range_witness :
    ∃ m, DrawMeshMode_Basic.construct exampleIndexedMesh none = .ok m ∧
      m.Elements.MinCorner = 0 ∧ m.Elements.Size = 12 / 2 ∧ m.Elements.Size * 2 = 12 :=
  (DrawMeshMode_Basic_element_range exampleIndexedMesh).2.1
    { Buf := { glPtr := 2, byteSize := 12 }, DataStructSize := 2, InitialByteOffset := 0 }
    rfl rfl (by decide) (by decide)

/-! ## Render targets (`Target.cpp`) -/

open TargetM

theorem TargetM.run_bind {α β : Type} (m : TargetM α) (f : α → TargetM β) (w : World) :
    (m >>= f).run w =
      match m.run w with
      | (.ok a, w1) => (f a).run w1
      | (.error e, w1) => (.error e, w1) := rfl

theorem TargetM.run_pure {α : Type} (a : α) (w : World) :
    (pure a : TargetM α).run w = (.ok a, w) := rfl

theorem TargetM.run_getThis (w : World) : getThis.run w = (.ok w.this, w) := rfl
theorem TargetM.run_setThis (t : Target) (w : World) :
    (setThis t).run w = (.ok (), { w with this := t }) := rfl
theorem TargetM.run_getThread (w : World) : getThread.run w = (.ok w.thread, w) := rfl
theorem TargetM.run_setThread (t : Thread) (w : World) :
    (setThread t).run w = (.ok (), { w with thread := t }) := rfl
theorem TargetM.run_emit (c : GLCall) (w : World) :
    (emit c).run w = (.ok (), { w with emitted := w.emitted ++ [c] }) := rfl
theorem TargetM.run_BP_ASSERT (cond : Bool) (msg : String) (w : World) :
    (BP_ASSERT cond msg).run w = (if cond then .ok () else .error msg, w) := rfl
theorem TargetM.run_liftExcept {α : Type} (e : Except String α) (w : World) :
    (liftExcept e).run w = (e, w) := rfl
theorem TargetM.run_fail {α : Type} (msg : String) (w : World) :
    (TargetM.fail msg : TargetM α).run w = (.error msg, w) := rfl

/-- C19 part 1 -/
theorem AttachBuffer_stencil (w : World) (rb : GLuint) (format : DepthStencilFormats)
    (s : TargetOutput) (h : w.this.tex_stencil = some s) :
    (Target.AttachBuffer rb format).run w =
      (.error "Can't use a stencil texture and a depth buffer separately; they must be the same texture", w) := by
  simp [Target.AttachBuffer, TargetM.run_bind, TargetM.run_getThis, TargetM.run_BP_ASSERT, h]

theorem TargetOutput.GetTex_of_not_cube (o : TargetOutput) (h : o.IsTexCube = false) :
    o.GetTex = .ok o.constructedFrom := by
  rcases o with ⟨data, mip⟩
  cases data <;> first | rfl | (simp [TargetOutput.IsTexCube] at h)

theorem TargetOutput.GetTex_cube (o : TargetOutput) (h : o.IsTexCube = true) :
    o.GetTex = .error "Unknown type for TargetOutput" := by
  rcases o with ⟨data, mip⟩
  cases data <;> first | rfl | (simp [TargetOutput.IsTexCube] at h)

theorem TargetOutput.GetSize_total (o : TargetOutput) : ∃ s, o.GetSize = .ok s := by
  rcases o with ⟨data, mip⟩
  cases data <;> exact ⟨_, rfl⟩

theorem TargetOutput.GetLayerCount_total (o : TargetOutput) : ∃ n, o.GetLayerCount = .ok n := by
  rcases o with ⟨data, mip⟩
  cases data <;> exact ⟨_, rfl⟩

theorem TargetOutput.IsLayered_total (o : TargetOutput) :
    o.IsLayered = .ok (o.IsTex3D || o.IsTexCube) := by
  rcases o with ⟨data, mip⟩
  cases data <;> rfl

theorem TargetOutput.IsFlat_total (o : TargetOutput) :
    o.IsFlat = .ok (o.IsTex1D || o.IsTex2D) := by
  rcases o with ⟨data, mip⟩
  cases data <;> rfl

theorem Target.outputCompressed_eq (o : Option TargetOutput)
    (h : ∀ x, o = some x → x.IsTexCube = false) :
    Target.outputCompressed o =
      .ok (o.toList.any fun x => x.constructedFrom.format.IsCompressed) := by
  cases o with
  | none => rfl
  | some x =>
    simp only [Target.outputCompressed, TargetOutput.GetTex_of_not_cube x (h x rfl)]
    simp [bind, Except.bind, pure, Except.pure]

theorem Target.anyCompressed_eq (l : List TargetOutput)
    (h : ∀ x ∈ l, x.IsTexCube = false) :
    Target.anyCompressed l = .ok (l.any fun x => x.constructedFrom.format.IsCompressed) := by
  induction l with
  | nil => rfl
  | cons x rest ih =>
    have hx := h x (List.mem_cons_self _ _)
    have hr := ih (fun y hy => h y (List.mem_cons_of_mem _ hy))
    simp only [Target.anyCompressed, TargetOutput.GetTex_of_not_cube x hx, hr]
    by_cases hc : x.constructedFrom.format.IsCompressed = true <;>
      simp [bind, Except.bind, pure, Except.pure, hc]

theorem Target.GetStatus_eq_reference_of_no_cube (t : Target) (status : GLenum)
    (h : ∀ o ∈ t.recordedOutputs, o.IsTexCube = false) :
    t.GetStatus status = t.GetStatus_reference status := by
  have hd : ∀ x, t.tex_depth = some x → x.IsTexCube = false := fun x hx =>
    h x (by simp [Target.recordedOutputs, hx])
  have hs : ∀ x, t.tex_stencil = some x → x.IsTexCube = false := fun x hx =>
    h x (by simp [Target.recordedOutputs, hx])
  have hc : ∀ x ∈ t.tex_colors, x.IsTexCube = false := fun x hx =>
    h x (by simp [Target.recordedOutputs, hx])
  simp only [Target.GetStatus, Target.GetStatus_reference, Target.outputCompressed_eq _ hd,
    Target.outputCompressed_eq _ hs, Target.anyCompressed_eq _ hc, Target.recordedOutputs,
    List.any_append]
  generalize (t.tex_depth.toList.any fun x => x.constructedFrom.format.IsCompressed) = a
  generalize (t.tex_stencil.toList.any fun x => x.constructedFrom.format.IsCompressed) = b
  generalize (t.tex_colors.any fun x => x.constructedFrom.format.IsCompressed) = c
  cases a <;> cases b <;> cases c <;>
    simp [bind, Except.bind, pure, Except.pure, throw, throwThe, MonadExceptOf.throw]

theorem foldlM_getter {T : Type} (VG : TargetOutput → Except String T) (g : TargetOutput → T)
    (M : T → T → T) (hg : ∀ o, VG o = .ok (g o)) (l : List TargetOutput) (init : T) :
    l.foldlM (fun output o => do
      let v ← VG o
      pure (M output v)) init = .ok (l.foldl (fun output o => M output (g o)) init) := by
  induction l generalizing init with
  | nil => rfl
  | cons x rest ih =>
    simp only [List.foldlM_cons, List.foldl_cons, hg x]
    exact ih _

theorem ComputeMin_eq {T : Type} (VG : TargetOutput → Except String T) (g : TargetOutput → T)
    (M : T → T → T) (hg : ∀ o, VG o = .ok (g o)) (l : List TargetOutput)
    (opt : Option TargetOutput) (maxVal defaultVal : T) :
    ComputeMin VG M l opt maxVal defaultVal =
      .ok (if l = [] ∧ opt = none then defaultVal
           else (opt.toList ++ l).foldl (fun output o => M output (g o)) maxVal) := by
  unfold ComputeMin
  by_cases h : l.length = 0 ∧ opt.isNone = true
  · rw [if_pos h]
    obtain ⟨h1, h2⟩ := h
    have h1' : l = [] := List.length_eq_zero.mp h1
    have h2' : opt = none := by cases opt <;> simp_all
    simp [h1', h2']
  · rw [if_neg h]
    have h' : ¬ (l = [] ∧ opt = none) := by
      rintro ⟨rfl, rfl⟩; exact h ⟨rfl, rfl⟩
    rw [if_neg h']
    cases opt with
    | none =>
      simp only [Option.toList, List.nil_append]
      exact foldlM_getter VG g M hg l maxVal
    | some o =>
      simp only [hg o, Option.toList, List.singleton_append, List.foldl_cons]
      exact foldlM_getter VG g M hg l (M maxVal (g o))

theorem foldl_min_le (g : TargetOutput → Nat) (l : List TargetOutput) (init : Nat) :
    l.foldl (fun output o => Nat.min output (g o)) init ≤ init ∧
      ∀ o ∈ l, l.foldl (fun output o => Nat.min output (g o)) init ≤ g o := by
  induction l generalizing init with
  | nil => simp
  | cons x rest ih =>
    simp only [List.foldl_cons, List.mem_cons, forall_eq_or_imp]
    obtain ⟨h1, h2⟩ := ih (Nat.min init (g x))
    exact ⟨le_trans h1 (Nat.min_le_left _ _), le_trans h1 (Nat.min_le_right _ _), h2⟩

theorem foldl_min_mem (g : TargetOutput → Nat) (l : List TargetOutput) (init : Nat) :
    l.foldl (fun output o => Nat.min output (g o)) init = init ∨
      ∃ o ∈ l, l.foldl (fun output o => Nat.min output (g o)) init = g o := by
  induction l generalizing init with
  | nil => simp
  | cons x rest ih =>
    simp only [List.foldl_cons, List.mem_cons, exists_eq_or_imp]
    rcases ih (Nat.min init (g x)) with h | ⟨o, ho, h⟩
    · rcases Nat.le_total init (g x) with hle | hle
      · left; rw [h]; exact Nat.min_eq_left hle
      · right; left; rw [h]; exact Nat.min_eq_right hle
    · right; right; exact ⟨o, ho, h⟩

theorem foldl_min_attained (g : TargetOutput → Nat) (l : List TargetOutput) (init : Nat)
    (hne : l ≠ []) (hb : ∀ o ∈ l, g o ≤ init) :
    ∃ o ∈ l, l.foldl (fun output o => Nat.min output (g o)) init = g o := by
  rcases foldl_min_mem g l init with h | h
  · cases l with
    | nil => exact absurd rfl hne
    | cons x rest =>
      refine ⟨x, List.mem_cons_self _ _, ?_⟩
      have h1 := (foldl_min_le g (x :: rest) init).2 x (List.mem_cons_self _ _)
      have h2 := hb x (List.mem_cons_self _ _)
      rw [h] at h1 ⊢
      exact le_antisymm h1 h2
  · exact h

theorem foldl_uvec2_min_x (g : TargetOutput → UVec2) (l : List TargetOutput) (init : UVec2) :
    (l.foldl (fun output o => UVec2.min output (g o)) init).x =
      l.foldl (fun output o => Nat.min output (g o).x) init.x := by
  induction l generalizing init with
  | nil => rfl
  | cons x rest ih => simp only [List.foldl_cons]; rw [ih]; rfl

theorem foldl_uvec2_min_y (g : TargetOutput → UVec2) (l : List TargetOutput) (init : UVec2) :
    (l.foldl (fun output o => UVec2.min output (g o)) init).y =
      l.foldl (fun output o => Nat.min output (g o).y) init.y := by
  induction l generalizing init with
  | nil => rfl
  | cons x rest ih => simp only [List.foldl_cons]; rw [ih]; rfl


theorem TargetOutput.GetSize_eq (o : TargetOutput) : o.GetSize = .ok o.size2D := by
  rcases o with ⟨data, mip⟩
  cases data <;> rfl

theorem TargetOutput.GetLayerCount_eq (o : TargetOutput) : o.GetLayerCount = .ok o.layerCount := by
  rcases o with ⟨data, mip⟩
  cases data <;> rfl

theorem ComputeMin_size_eq (l : List TargetOutput) (opt : Option TargetOutput)
    (defaultVal : UVec2) :
    ComputeMin GetTargOutSize UVec2.min l opt { x := u32Max, y := u32Max } defaultVal =
      .ok (if l = [] ∧ opt = none then defaultVal
           else (opt.toList ++ l).foldl (fun output o => UVec2.min output o.size2D)
             { x := u32Max, y := u32Max }) :=
  ComputeMin_eq GetTargOutSize TargetOutput.size2D UVec2.min TargetOutput.GetSize_eq l opt _ _

theorem ComputeMin_layers_eq (l : List TargetOutput) (opt : Option TargetOutput) :
    ComputeMin GetTargOutLayerCount MinU32 l opt u32Max 1 =
      .ok (if l = [] ∧ opt = none then 1
           else (opt.toList ++ l).foldl (fun output o => Nat.min output o.layerCount) u32Max) :=
  ComputeMin_eq GetTargOutLayerCount TargetOutput.layerCount MinU32
    TargetOutput.GetLayerCount_eq l opt _ _

/-- The two results of `ComputeMin` in the array constructor are the component-wise
minimum of `GetSize` and the minimum of `GetLayerCount` over the outputs given. -/
theorem ComputeMin_minimum (colorOutputs : List TargetOutput)
    (depthOutput : Option TargetOutput)
    (hsize : ∀ o ∈ depthOutput.toList ++ colorOutputs, ∀ s, o.GetSize = .ok s →
      s.x ≤ u32Max ∧ s.y ≤ u32Max)
    (hlayers : ∀ o ∈ depthOutput.toList ++ colorOutputs, ∀ n, o.GetLayerCount = .ok n →
      n ≤ u32Max) :
    ∃ size layers,
      ComputeMin GetTargOutSize UVec2.min colorOutputs depthOutput
          { x := u32Max, y := u32Max } { x := 1, y := 1 } = .ok size ∧
      ComputeMin GetTargOutLayerCount MinU32 colorOutputs depthOutput u32Max 1 = .ok layers ∧
      (colorOutputs = [] ∧ depthOutput = none → size = { x := 1, y := 1 } ∧ layers = 1) ∧
      (¬ (colorOutputs = [] ∧ depthOutput = none) →
        (∀ o ∈ depthOutput.toList ++ colorOutputs, ∀ s, o.GetSize = .ok s →
          size.x ≤ s.x ∧ size.y ≤ s.y) ∧
        (∀ o ∈ depthOutput.toList ++ colorOutputs, ∀ n, o.GetLayerCount = .ok n →
          layers ≤ n) ∧
        (∃ o ∈ depthOutput.toList ++ colorOutputs, ∃ s, o.GetSize = .ok s ∧ size.x = s.x) ∧
        (∃ o ∈ depthOutput.toList ++ colorOutputs, ∃ s, o.GetSize = .ok s ∧ size.y = s.y) ∧
        (∃ o ∈ depthOutput.toList ++ colorOutputs, o.GetLayerCount = .ok layers)) := by
  refine ⟨_, _, ComputeMin_size_eq colorOutputs depthOutput _,
    ComputeMin_layers_eq colorOutputs depthOutput, ?_, ?_⟩
  · intro h
    rw [if_pos h, if_pos h]
    exact ⟨rfl, rfl⟩
  · intro h
    rw [if_neg h, if_neg h]
    have hne : depthOutput.toList ++ colorOutputs ≠ [] := by
      intro h0
      apply h
      cases depthOutput with
      | none => exact ⟨by simpa using h0, rfl⟩
      | some o => simp at h0
    have hbx : ∀ o ∈ depthOutput.toList ++ colorOutputs, o.size2D.x ≤ u32Max := fun o ho =>
      (hsize o ho _ (TargetOutput.GetSize_eq o)).1
    have hby : ∀ o ∈ depthOutput.toList ++ colorOutputs, o.size2D.y ≤ u32Max := fun o ho =>
      (hsize o ho _ (TargetOutput.GetSize_eq o)).2
    have hbl : ∀ o ∈ depthOutput.toList ++ colorOutputs, o.layerCount ≤ u32Max := fun o ho =>
      hlayers o ho _ (TargetOutput.GetLayerCount_eq o)
    rw [foldl_uvec2_min_x, foldl_uvec2_min_y]
    refine ⟨?_, ?_, ?_, ?_, ?_⟩
    · intro o ho s hs
      rw [TargetOutput.GetSize_eq] at hs
      cases hs
      exact ⟨(foldl_min_le (fun o => o.size2D.x) _ _).2 o ho,
        (foldl_min_le (fun o => o.size2D.y) _ _).2 o ho⟩
    · intro o ho n hn
      rw [TargetOutput.GetLayerCount_eq] at hn
      cases hn
      exact (foldl_min_le TargetOutput.layerCount _ _).2 o ho
    · obtain ⟨o, ho, h1⟩ := foldl_min_attained (fun o => o.size2D.x) _ u32Max hne hbx
      exact ⟨o, ho, _, TargetOutput.GetSize_eq o, h1⟩
    · obtain ⟨o, ho, h1⟩ := foldl_min_attained (fun o => o.size2D.y) _ u32Max hne hby
      exact ⟨o, ho, _, TargetOutput.GetSize_eq o, h1⟩
    · obtain ⟨o, ho, h1⟩ := foldl_min_attained TargetOutput.layerCount _ u32Max hne hbl
      exact ⟨o, ho, by rw [TargetOutput.GetLayerCount_eq, h1]⟩

theorem TargetM.liftExcept_ok_bind {α β : Type} (a : α) (f : α → TargetM β) :
    (liftExcept (.ok a) >>= f) = f a := rfl

theorem constructOutputs_delegates (native : Target → GLenum) (fb : GLuint) (thisAddr : Nat)
    (rb : GLuint) (colorOutputs : List TargetOutput) (depthOutput : Option TargetOutput)
    (size : UVec2) (layers : Nat)
    (h1 : ComputeMin GetTargOutSize UVec2.min colorOutputs depthOutput
          { x := u32Max, y := u32Max } { x := 1, y := 1 } = .ok size)
    (h2 : ComputeMin GetTargOutLayerCount MinU32 colorOutputs depthOutput u32Max 1 = .ok layers) :
    Target.constructOutputs native fb thisAddr rb colorOutputs depthOutput =
      (Target.construct native fb thisAddr size layers >>= fun _ =>
        Target.constructOutputsBody native rb colorOutputs depthOutput) := by
  unfold Target.constructOutputs
  rw [h1, h2]
  rfl

/-- Claim C13: for every list of colour outputs and optional depth output given to the
array constructor, the size and the layer count that it hands to the delegated
constructor are the two results of `ComputeMin`; with no output at all they are (1, 1)
and 1, and otherwise each component is at most that component of `GetSize` (and the
layer count at most `GetLayerCount`) of every output given, and equal to it for at least
one of them.  The sizes and layer counts are 32-bit values. -/
theorem constructOutputs_hands_minimum (native : Target → GLenum) (fb : GLuint)
    (thisAddr : Nat) (rb : GLuint) (colorOutputs : List TargetOutput)
    (depthOutput : Option TargetOutput)
    (hsize : ∀ o ∈ depthOutput.toList ++ colorOutputs, ∀ s, o.GetSize = .ok s →
      s.x ≤ u32Max ∧ s.y ≤ u32Max)
    (hlayers : ∀ o ∈ depthOutput.toList ++ colorOutputs, ∀ n, o.GetLayerCount = .ok n →
      n ≤ u32Max) :
    ∃ size layers,
      ComputeMin GetTargOutSize UVec2.min colorOutputs depthOutput
          { x := u32Max, y := u32Max } { x := 1, y := 1 } = .ok size ∧
      ComputeMin GetTargOutLayerCount MinU32 colorOutputs depthOutput u32Max 1 = .ok layers ∧
      Target.constructOutputs native fb thisAddr rb colorOutputs depthOutput =
        (Target.construct native fb thisAddr size layers >>= fun _ =>
          Target.constructOutputsBody native rb colorOutputs depthOutput) ∧
      (colorOutputs = [] ∧ depthOutput = none → size = { x := 1, y := 1 } ∧ layers = 1) ∧
      (¬ (colorOutputs = [] ∧ depthOutput = none) →
        (∀ o ∈ depthOutput.toList ++ colorOutputs, ∀ s, o.GetSize = .ok s →
          size.x ≤ s.x ∧ size.y ≤ s.y) ∧
        (∀ o ∈ depthOutput.toList ++ colorOutputs, ∀ n, o.GetLayerCount = .ok n →
          layers ≤ n) ∧
        (∃ o ∈ depthOutput.toList ++ colorOutputs, ∃ s, o.GetSize = .ok s ∧ size.x = s.x) ∧
        (∃ o ∈ depthOutput.toList ++ colorOutputs, ∃ s, o.GetSize = .ok s ∧ size.y = s.y) ∧
        (∃ o ∈ depthOutput.toList ++ colorOutputs, o.GetLayerCount = .ok layers)) := by
  obtain ⟨size, layers, h1, h2, h3, h4⟩ :=
    ComputeMin_minimum colorOutputs depthOutput hsize hlayers
  exact ⟨size, layers, h1, h2,
    constructOutputs_delegates native fb thisAddr rb colorOutputs depthOutput size layers h1 h2,
    h3, h4⟩

/-- An instance: a 4x4 colour output and a 4x4 depth output give the size (4, 4) and one
layer. -/
theorem constructOutputs_hands_minimum_witness :
    ∃ size layers,
      ComputeMin GetTargOutSize UVec2.min [exampleColorOutput] (some exampleDepthOutput)
          { x := u32Max, y := u32Max } { x := 1, y := 1 } = .ok size ∧
      ComputeMin GetTargOutLayerCount MinU32 [exampleColorOutput] (some exampleDepthOutput)
          u32Max 1 = .ok layers ∧
      size = { x := 4, y := 4 } ∧ layers = 1 := by
  obtain ⟨size, layers, h1, h2, -⟩ :=
    constructOutputs_hands_minimum exampleComplete 3 100 9 [exampleColorOutput]
      (some exampleDepthOutput)
      (by
        intro o ho s hs
        rw [TargetOutput.GetSize_eq] at hs
        injection hs with hs
        subst hs
        simp only [Option.toList, List.singleton_append, List.mem_cons, List.mem_singleton,
          List.not_mem_nil, or_false] at ho
        rcases ho with rfl | rfl <;> decide)
      (by
        intro o ho n hn
        rw [TargetOutput.GetLayerCount_eq] at hn
        injection hn with hn
        subst hn
        simp only [Option.toList, List.singleton_append, List.mem_cons, List.mem_singleton,
          List.not_mem_nil, or_false] at ho
        rcases ho with rfl | rfl <;> decide)
  refine ⟨size, layers, h1, h2, ?_, ?_⟩
  · have : (Except.ok size : Except String UVec2) = .ok { x := 4, y := 4 } := h1.symm.trans rfl
    injection this
  · have : (Except.ok layers : Except String Nat) = .ok 1 := h2.symm.trans rfl
    injection this

/-- Claim C15: for every list `a` of optional slot indices, `SetDrawBuffers` returns,
remembers `a` as the active-attachment list and hands the driver a list of the same
length whose entry `i` is `COLOR_ATTACHMENT0 + k` (a 32-bit sum, the plain sum when it
fits) if `a[i]` holds `k` and `NONE` if `a[i]` is absent, with the length as count; the
colour outputs, the depth and stencil outputs and the size are as before. -/
theorem SetDrawBuffers_records (w : World) (attachments : List (Option Nat)) :
    ∃ bufs : List GLenum,
      (Target.SetDrawBuffers attachments).run w =
        (.ok (), { w with
          this := { w.this with
            activeColorAttachments := attachments
            internalActiveColorAttachments := bufs }
          emitted := w.emitted ++
            [GLCall.glNamedFramebufferDrawBuffers w.this.glPtr
              (asGLint (attachments.length % 2 ^ 32)) bufs] }) ∧
      bufs.length = attachments.length ∧
      (∀ (i slot : Nat), attachments[i]? = some (some slot) →
        bufs[i]? = some ((GL_COLOR_ATTACHMENT0 + slot) % 2 ^ 32) ∧
        (GL_COLOR_ATTACHMENT0 + slot < 2 ^ 32 → bufs[i]? = some (GL_COLOR_ATTACHMENT0 + slot))) ∧
      (∀ i : Nat, attachments[i]? = some none → bufs[i]? = some GL_NONE) ∧
      (attachments.length < 2 ^ 31 →
        asGLint (attachments.length % 2 ^ 32) = (attachments.length : Int)) ∧
      ((Target.SetDrawBuffers attachments).run w).2.this.activeColorAttachments = attachments ∧
      ((Target.SetDrawBuffers attachments).run w).2.this.tex_colors = w.this.tex_colors ∧
      ((Target.SetDrawBuffers attachments).run w).2.this.tex_depth = w.this.tex_depth ∧
      ((Target.SetDrawBuffers attachments).run w).2.this.tex_stencil = w.this.tex_stencil ∧
      ((Target.SetDrawBuffers attachments).run w).2.this.size = w.this.size := by
  refine ⟨attachments.map Target.drawBufferName, rfl, List.length_map _ _, ?_, ?_, ?_,
    rfl, rfl, rfl, rfl, rfl⟩
  · intro i slot h
    have : (attachments.map Target.drawBufferName)[i]? =
        some ((GL_COLOR_ATTACHMENT0 + slot) % 2 ^ 32) := by
      rw [List.getElem?_map, h]; rfl
    exact ⟨this, fun hlt => by rw [this, Nat.mod_eq_of_lt hlt]⟩
  · intro i h
    rw [List.getElem?_map, h]; rfl
  · intro h
    have h1 : attachments.length % 2 ^ 32 = attachments.length :=
      Nat.mod_eq_of_lt (lt_trans h (by norm_num))
    rw [h1, asGLint, if_pos h]

/-- Claim C17: for every context state and depth value `d`, `Target::ClearDepth(d)`
emits the native depth clear with the value `d` after the calls of `SetDepthWrites(true)`,
which leave the cached depth-write flag true, and before the calls that restore the
flag; on return the whole cached context state, the depth-write flag included, is what
it was before the call; when depth writes were enabled the clear is the only call
emitted, and when they were disabled it stands between the enabling and the disabling
call. -/
theorem ClearDepth_restores_depth_write (t : Target) (context : Context) (depth : GLfloat) :
    ∃ before after : List GLCall,
      (t.ClearDepth context depth).2 =
        before ++ [GLCall.glClearNamedFramebufferfv t.glPtr GL_DEPTH 0 [depth]] ++ after ∧
      before = (context.SetDepthWrites true).2 ∧
      (context.SetDepthWrites true).1.state.EnableDepthWrite = true ∧
      after = ((context.SetDepthWrites true).1.SetDepthWrites context.state.EnableDepthWrite).2 ∧
      (t.ClearDepth context depth).1 = context ∧
      (context.state.EnableDepthWrite = true →
        (t.ClearDepth context depth).2 =
          [GLCall.glClearNamedFramebufferfv t.glPtr GL_DEPTH 0 [depth]]) ∧
      (context.state.EnableDepthWrite = false →
        (t.ClearDepth context depth).2 =
          [GLCall.glEnable GL_DEPTH_WRITEMASK,
           GLCall.glClearNamedFramebufferfv t.glPtr GL_DEPTH 0 [depth],
           GLCall.glDisable GL_DEPTH_WRITEMASK]) := by
  rcases context with ⟨⟨cm, dt, dw, cw, cb, ab, stf, stb, srf, srb, smf, smb⟩, vp, sc, rt, vs⟩
  refine ⟨_, _, ?_, rfl, ?_, rfl, ?_, ?_, ?_⟩
  · simp [Target.ClearDepth, Emitted.andThen, Context.GetDepthWrites]
  · cases dw <;> simp [Context.SetDepthWrites]
  · cases dw <;> simp [Target.ClearDepth, Emitted.andThen, Context.GetDepthWrites,
      Context.SetDepthWrites]
  · intro h
    simp only [] at h
    subst h
    simp [Target.ClearDepth, Emitted.andThen, Context.GetDepthWrites, Context.SetDepthWrites]
  · intro h
    simp only [] at h
    subst h
    simp [Target.ClearDepth, Emitted.andThen, Context.GetDepthWrites, Context.SetDepthWrites]

theorem AttachBuffer_run (w : World) (rb : GLuint) (format : DepthStencilFormats)
    (h : w.this.tex_stencil = none) :
    (Target.AttachBuffer rb format).run w =
      let buffer : TargetBuffer :=
        match w.this.depthBuffer with
        | some b =>
          if b.size = w.this.size then b
          else { glPtr := rb, format := Format.DepthStencil format, size := w.this.size }
        | none => { glPtr := rb, format := Format.DepthStencil format, size := w.this.size }
      let w1 : World := { w with this := { w.this with depthBuffer := some buffer } }
      if IsDepthOnly format then
        (.ok (), { w1 with emitted := w.emitted ++
          [GLCall.glNamedFramebufferRenderbuffer w.this.glPtr GL_DEPTH_ATTACHMENT GL_RENDERBUFFER
            buffer.glPtr] })
      else if IsDepthAndStencil format then
        (.ok (), { w1 with emitted := w.emitted ++
          [GLCall.glNamedFramebufferRenderbuffer w.this.glPtr GL_DEPTH_STENCIL_ATTACHMENT
            GL_RENDERBUFFER buffer.glPtr] })
      else (.error "Attaching Renderbuffer for FBO, but format isn't supported", w1) := by
  rcases w with ⟨this, thread, emitted⟩
  rcases this with ⟨glPtr, size, cols, dep, sten, db, b1, b2, mt, aca, iaca⟩
  simp only [] at h
  subst h
  cases db with
  | none =>
    cases format <;>
      simp [Target.AttachBuffer, TargetM.run_bind, TargetM.run_getThis, TargetM.run_BP_ASSERT,
        TargetM.run_setThis, TargetM.run_pure, TargetM.run_emit, TargetM.run_fail,
        IsDepthOnly, IsDepthAndStencil]
  | some b =>
    by_cases hb : b.size = size
    · cases format <;>
        simp [Target.AttachBuffer, TargetM.run_bind, TargetM.run_getThis, TargetM.run_BP_ASSERT,
          TargetM.run_setThis, TargetM.run_pure, TargetM.run_emit, TargetM.run_fail,
          IsDepthOnly, IsDepthAndStencil, hb]
    · cases format <;>
        simp [Target.AttachBuffer, TargetM.run_bind, TargetM.run_getThis, TargetM.run_BP_ASSERT,
          TargetM.run_setThis, TargetM.run_pure, TargetM.run_emit, TargetM.run_fail,
          IsDepthOnly, IsDepthAndStencil, hb]

theorem AttachTexture_run (w : World) (attachment : GLenum) (o : TargetOutput) :
    (Target.AttachTexture attachment o).run w =
      if o.IsTexCube then (.error "Unknown type for TargetOutput", w)
      else (.ok (), { w with emitted := w.emitted ++
        [Target.attachCall w.this.glPtr attachment o] }) := by
  rcases o with ⟨data, mip⟩
  cases data <;> rfl

theorem construct_run (native : Target → GLenum) (fb : GLuint) (thisAddr : Nat) (size : UVec2)
    (nLayers : Nat) (w : World) :
    (Target.construct native fb thisAddr size nLayers).run w =
      if size.x = 0 then
        (.error "Target's width can't be 0",
          { this := Target.initial fb size, thread := w.thread.registered fb thisAddr,
            emitted := w.emitted ++ [GLCall.glCreateFramebuffers fb] })
      else if size.y = 0 then
        (.error "Target's height can't be 0",
          { this := Target.initial fb size, thread := w.thread.registered fb thisAddr,
            emitted := w.emitted ++ [GLCall.glCreateFramebuffers fb] })
      else
        ((Target.initial fb size).GetStatus (native (Target.initial fb size)),
          { this := Target.initial fb size, thread := w.thread.registered fb thisAddr,
            emitted := w.emitted ++ Target.initialCalls fb size nLayers }) := by
  rcases w with ⟨this, thread, emitted⟩
  by_cases hx : size.x = 0
  · simp [Target.construct, TargetM.run_bind, TargetM.run_getThis, TargetM.run_BP_ASSERT,
      TargetM.run_setThis, TargetM.run_pure, TargetM.run_emit, TargetM.run_getThread,
      TargetM.run_setThread, hx, Target.initial, Thread.registered]
  · by_cases hy : size.y = 0
    · simp [Target.construct, TargetM.run_bind, TargetM.run_getThis, TargetM.run_BP_ASSERT,
        TargetM.run_setThis, TargetM.run_pure, TargetM.run_emit, TargetM.run_getThread,
        TargetM.run_setThread, hx, hy, Nat.pos_of_ne_zero hx, Target.initial, Thread.registered]
    · by_cases hl : 1 < nLayers <;>
      simp [Target.construct, TargetM.run_bind, TargetM.run_getThis, TargetM.run_BP_ASSERT,
        TargetM.run_setThis, TargetM.run_pure, TargetM.run_emit, TargetM.run_getThread,
        TargetM.run_setThread, hx, hy, hl, Nat.pos_of_ne_zero hx, Nat.pos_of_ne_zero hy,
        Target.initial, Thread.registered, Target.GetStatusM, TargetM.run_liftExcept,
        Target.initialCalls]

theorem pushColor_run (w : World) (o : TargetOutput) :
    (Target.pushColor o).run w =
      (.ok (), { w with this := { w.this with tex_colors := w.this.tex_colors ++ [o] } }) := rfl

theorem recordDepthStencil_run (w : World) (format : DepthStencilFormats) (o : TargetOutput) :
    (Target.recordDepthStencil format o).run w =
      (.ok (), { w with this := { w.this with
          tex_depth := some o
          tex_stencil :=
            if IsStencilOnly format ∨ IsDepthAndStencil format then some o
            else w.this.tex_stencil } }) := by
  cases format <;> rfl

theorem GetStatusM_run (native : Target → GLenum) (w : World) :
    (Target.GetStatusM native).run w = (w.this.GetStatus (native w.this), w) := rfl

theorem SetDrawBuffers_run (w : World) (attachments : List (Option Nat)) :
    (Target.SetDrawBuffers attachments).run w =
      (.ok (), { w with
        this := { w.this with
          activeColorAttachments := attachments
          internalActiveColorAttachments := attachments.map Target.drawBufferName }
        emitted := w.emitted ++
          [GLCall.glNamedFramebufferDrawBuffers w.this.glPtr
            (asGLint (attachments.length % 2 ^ 32)) (attachments.map Target.drawBufferName)] }) :=
  rfl

namespace TargetM

theorem Triple.bind {α β : Type} {P : World → Prop} {m : TargetM α} {f : α → TargetM β}
    {Q : β → World → Prop} (Q1 : α → World → Prop) (h1 : Triple P m Q1)
    (h2 : ∀ a, Triple (Q1 a) (f a) Q) : Triple P (m >>= f) Q := by
  intro w hw b w2 hrun
  rw [TargetM.run_bind] at hrun
  cases hm : m.run w with
  | mk r w1 =>
    rw [hm] at hrun
    cases r with
    | error e => simp at hrun
    | ok a => exact h2 a w1 (h1 w hw a w1 hm) b w2 hrun

theorem Triple.weaken {α : Type} {P : World → Prop} (P1 : World → Prop) {m : TargetM α}
    {Q : α → World → Prop} (h : Triple P1 m Q) (hp : ∀ w, P w → P1 w) : Triple P m Q :=
  fun w hw a w1 hrun => h w (hp w hw) a w1 hrun

/-- A step that leaves the target object as it is keeps every predicate on it. -/
theorem Triple.bind_of_this_eq {α β : Type} {p : Target → Prop} {m : TargetM α}
    {f : α → TargetM β} {Q : β → World → Prop}
    (hm : ∀ w a w1, m.run w = (.ok a, w1) → w1.this = w.this)
    (h2 : ∀ a, Triple (World.onThis p) (f a) Q) : Triple (World.onThis p) (m >>= f) Q :=
  Triple.bind (fun _ => World.onThis p)
    (fun w hw a w1 hrun => by
      show p w1.this
      rw [hm w a w1 hrun]; exact hw) h2

end TargetM

theorem AttachTexture_this (attachment : GLenum) (o : TargetOutput) (w : World) (a : Unit)
    (w1 : World) (h : (Target.AttachTexture attachment o).run w = (.ok a, w1)) :
    w1.this = w.this := by
  rw [AttachTexture_run] at h
  split_ifs at h
  · cases h
  · cases h; rfl

theorem GetStatusM_this (native : Target → GLenum) (w : World) (a : TargetStates) (w1 : World)
    (h : (Target.GetStatusM native).run w = (.ok a, w1)) : w1.this = w.this := by
  rw [GetStatusM_run] at h
  have h2 : w = w1 := congrArg Prod.snd h
  subst h2; rfl

theorem construct_this (native : Target → GLenum) (fb : GLuint) (thisAddr : Nat) (size : UVec2)
    (nLayers : Nat) (w : World) (a : TargetStates) (w1 : World)
    (h : (Target.construct native fb thisAddr size nLayers).run w = (.ok a, w1)) :
    w1.this = Target.initial fb size := by
  rw [construct_run] at h
  split_ifs at h
  · cases h
  · cases h
  · have h2 := congrArg Prod.snd h
    simp only at h2
    rw [← h2]



namespace TargetM

theorem Triple.liftExcept_bind {α β : Type} {P : World → Prop} {e : Except String α}
    {f : α → TargetM β} {Q : β → World → Prop}
    (h : ∀ a, e = .ok a → Triple P (f a) Q) : Triple P (liftExcept e >>= f) Q := by
  intro w hw b w2 hrun
  rw [TargetM.run_bind, TargetM.run_liftExcept] at hrun
  cases e with
  | error msg => simp at hrun
  | ok a => exact h a rfl w hw b w2 hrun

theorem Triple.assert_bind {β : Type} {P : World → Prop} {c : Bool} {msg : String}
    {f : Unit → TargetM β} {Q : β → World → Prop}
    (h : c = true → Triple P (f ()) Q) : Triple P (BP_ASSERT c msg >>= f) Q := by
  intro w hw b w2 hrun
  rw [TargetM.run_bind, TargetM.run_BP_ASSERT] at hrun
  cases c with
  | false => simp at hrun
  | true => exact h rfl w hw b w2 hrun

theorem Triple.getThis_bind {β : Type} {p : Target → Prop} {f : Target → TargetM β}
    {Q : β → World → Prop}
    (h : ∀ t, p t → Triple (World.onThis (fun t1 => t1 = t)) (f t) Q) :
    Triple (World.onThis p) (getThis >>= f) Q := by
  intro w hw b w2 hrun
  rw [TargetM.run_bind, TargetM.run_getThis] at hrun
  exact h w.this hw w rfl b w2 hrun

theorem Triple.setThis_bind {β : Type} {P : World → Prop} (t : Target)
    {f : Unit → TargetM β} {Q : β → World → Prop}
    (h : Triple (World.onThis (fun t1 => t1 = t)) (f ()) Q) :
    Triple P (setThis t >>= f) Q := by
  intro w _ b w2 hrun
  rw [TargetM.run_bind, TargetM.run_setThis] at hrun
  exact h { w with this := t } (show _ = _ from rfl) b w2 hrun

/-- A step that leaves the target object as it is, at the end of a function. -/
theorem Triple.of_this_eq {α : Type} {p : Target → Prop} {m : TargetM α}
    (hm : ∀ w a w1, m.run w = (.ok a, w1) → w1.this = w.this) :
    Triple (World.onThis p) m (fun _ => World.onThis p) := by
  intro w hw a w1 hrun
  show p w1.this
  rw [hm w a w1 hrun]; exact hw

theorem Triple.post {α : Type} {P : World → Prop} {m : TargetM α} {Q Q1 : α → World → Prop}
    (h : Triple P m Q1) (hq : ∀ a w, Q1 a w → Q a w) : Triple P m Q :=
  fun w hw a w1 hrun => hq a w1 (h w hw a w1 hrun)

end TargetM

theorem pushColor_this (o : TargetOutput) (w : World) (a : Unit) (w1 : World)
    (h : (Target.pushColor o).run w = (.ok a, w1)) :
    w1.this = { w.this with tex_colors := w.this.tex_colors ++ [o] } := by
  rw [pushColor_run] at h
  have h2 := congrArg Prod.snd h
  simp only at h2
  rw [← h2]

theorem recordDepthStencil_this (format : DepthStencilFormats) (o : TargetOutput) (w : World)
    (a : Unit) (w1 : World)
    (h : (Target.recordDepthStencil format o).run w = (.ok a, w1)) :
    w1.this = { w.this with
      tex_depth := some o
      tex_stencil :=
        if IsStencilOnly format ∨ IsDepthAndStencil format then some o
        else w.this.tex_stencil } := by
  rw [recordDepthStencil_run] at h
  have h2 := congrArg Prod.snd h
  simp only at h2
  rw [← h2]

theorem SetDrawBuffers_this (attachments : List (Option Nat)) (w : World) (a : Unit)
    (w1 : World) (h : (Target.SetDrawBuffers attachments).run w = (.ok a, w1)) :
    w1.this = { w.this with
      activeColorAttachments := attachments
      internalActiveColorAttachments := attachments.map Target.drawBufferName } := by
  rw [SetDrawBuffers_run] at h
  have h2 := congrArg Prod.snd h
  simp only at h2
  rw [← h2]

theorem attachColors_this (outs : List TargetOutput) :
    ∀ (i : Nat) (w : World) (a : Unit) (w1 : World),
      (Target.attachColors outs i).run w = (.ok a, w1) →
      w1.this = { w.this with tex_colors := w.this.tex_colors ++ outs } := by
  induction outs with
  | nil =>
    intro i w a w1 h
    have h2 : w = w1 := congrArg Prod.snd h
    subst h2
    simp
  | cons o rest ih =>
    intro i w a w1 h
    unfold Target.attachColors at h
    rw [TargetM.run_bind] at h
    cases h1 : (Target.AttachTexture ((GL_COLOR_ATTACHMENT0 + i) % 2 ^ 32) o).run w with
    | mk r wa =>
      rw [h1] at h
      cases r with
      | error e => simp at h
      | ok u =>
        simp only at h
        rw [TargetM.run_bind] at h
        cases h2 : (Target.pushColor o).run wa with
        | mk r2 wb =>
          rw [h2] at h
          cases r2 with
          | error e => simp at h
          | ok u2 =>
            simp only at h
            rw [ih (i + 1) wb a w1 h, pushColor_this o wa u2 wb h2,
              AttachTexture_this _ o w u wa h1]
            simp

theorem AttachBuffer_this (rb : GLuint) (format : DepthStencilFormats) (w : World) (a : Unit)
    (w1 : World) (h : (Target.AttachBuffer rb format).run w = (.ok a, w1)) :
    w.this.tex_stencil = none ∧ w1.this.tex_stencil = none ∧
      w1.this.tex_depth = w.this.tex_depth := by
  cases hs : w.this.tex_stencil with
  | some s =>
    rw [AttachBuffer_stencil w rb format s hs] at h
    cases h
  | none =>
    rw [AttachBuffer_run w rb format hs] at h
    simp only at h
    split_ifs at h
    · have h2 := congrArg Prod.snd h
      simp only at h2
      rw [← h2]
      exact ⟨rfl, hs, rfl⟩
    · have h2 := congrArg Prod.snd h
      simp only at h2
      rw [← h2]
      exact ⟨rfl, hs, rfl⟩
    · cases h

namespace TargetM

theorem Triple.construct_bind {β : Type} {P : World → Prop} (native : Target → GLenum)
    (fb : GLuint) (thisAddr : Nat) (size : UVec2) (nLayers : Nat)
    {f : TargetStates → TargetM β} {Q : β → World → Prop}
    (h : ∀ st, Triple (World.onThis (fun t => t.tex_stencil = none ∧ t.depthBuffer = none))
      (f st) Q) :
    Triple P (Target.construct native fb thisAddr size nLayers >>= f) Q :=
  Triple.bind (fun _ => World.onThis (fun t => t.tex_stencil = none ∧ t.depthBuffer = none))
    (fun w _ a w1 hrun => by
      show w1.this.tex_stencil = none ∧ w1.this.depthBuffer = none
      rw [construct_this native fb thisAddr size nLayers w a w1 hrun]
      exact ⟨rfl, rfl⟩) h

/-- A step that keeps the stencil output and the renderbuffer of the target. -/
theorem Triple.bind_keeps {α β : Type} {m : TargetM α} {f : α → TargetM β}
    {Q : β → World → Prop}
    (hm : ∀ w a w1, m.run w = (.ok a, w1) →
      w1.this.tex_stencil = w.this.tex_stencil ∧ w1.this.depthBuffer = w.this.depthBuffer)
    (h2 : ∀ a, Triple (World.onThis (fun t => t.tex_stencil = none ∧ t.depthBuffer = none))
      (f a) Q) :
    Triple (World.onThis (fun t => t.tex_stencil = none ∧ t.depthBuffer = none)) (m >>= f) Q :=
  Triple.bind (fun _ => World.onThis (fun t => t.tex_stencil = none ∧ t.depthBuffer = none))
    (fun w hw a w1 hrun => by
      show w1.this.tex_stencil = none ∧ w1.this.depthBuffer = none
      rw [(hm w a w1 hrun).1, (hm w a w1 hrun).2]; exact hw) h2

end TargetM

theorem AttachTexture_keeps (attachment : GLenum) (o : TargetOutput) (w : World) (a : Unit)
    (w1 : World) (h : (Target.AttachTexture attachment o).run w = (.ok a, w1)) :
    w1.this.tex_stencil = w.this.tex_stencil ∧ w1.this.depthBuffer = w.this.depthBuffer := by
  rw [AttachTexture_this attachment o w a w1 h]; exact ⟨rfl, rfl⟩

theorem pushColor_keeps (o : TargetOutput) (w : World) (a : Unit) (w1 : World)
    (h : (Target.pushColor o).run w = (.ok a, w1)) :
    w1.this.tex_stencil = w.this.tex_stencil ∧ w1.this.depthBuffer = w.this.depthBuffer := by
  rw [pushColor_this o w a w1 h]; exact ⟨rfl, rfl⟩

theorem SetDrawBuffers_keeps (attachments : List (Option Nat)) (w : World) (a : Unit)
    (w1 : World) (h : (Target.SetDrawBuffers attachments).run w = (.ok a, w1)) :
    w1.this.tex_stencil = w.this.tex_stencil ∧ w1.this.depthBuffer = w.this.depthBuffer := by
  rw [SetDrawBuffers_this attachments w a w1 h]; exact ⟨rfl, rfl⟩

theorem attachColors_keeps (outs : List TargetOutput) (i : Nat) (w : World) (a : Unit)
    (w1 : World) (h : (Target.attachColors outs i).run w = (.ok a, w1)) :
    w1.this.tex_stencil = w.this.tex_stencil ∧ w1.this.depthBuffer = w.this.depthBuffer := by
  rw [attachColors_this outs i w a w1 h]; exact ⟨rfl, rfl⟩

/-- The end of a constructor that records a depth/stencil texture output. -/
theorem recordDepthStencil_then_status (native : Target → GLenum)
    (format : DepthStencilFormats) (o : TargetOutput) :
    Triple (World.onThis (fun t => t.tex_stencil = none ∧ t.depthBuffer = none))
      (Target.recordDepthStencil format o >>= fun _ => Target.GetStatusM native)
      (fun _ w => w.this.StencilIsDepth) := by
  refine Triple.bind (fun _ => World.onThis Target.StencilIsDepth) ?_
    (fun _ => Triple.of_this_eq (GetStatusM_this native))
  intro w hw a w1 hrun s hs
  have ht : w.this.tex_stencil = none ∧ w.this.depthBuffer = none := hw
  rw [recordDepthStencil_this format o w a w1 hrun] at hs ⊢
  simp only at hs ⊢
  split_ifs at hs
  · cases hs
    exact ⟨rfl, ht.2⟩
  · rw [ht.1] at hs
    cases hs

/-- The end of a constructor that attaches a depth renderbuffer. -/
theorem AttachBuffer_then_status (native : Target → GLenum) (rb : GLuint)
    (format : DepthStencilFormats) (P : World → Prop) :
    Triple P (Target.AttachBuffer rb format >>= fun _ => Target.GetStatusM native)
      (fun _ w => w.this.StencilIsDepth) := by
  refine Triple.bind (fun _ => World.onThis (fun t => t.tex_stencil = none)) ?_
    (fun _ => Triple.post (Triple.of_this_eq (GetStatusM_this native)) ?_)
  · intro w _ a w1 hrun
    exact (AttachBuffer_this rb format w a w1 hrun).2.1
  · intro _ w hw s hs
    have : w.this.tex_stencil = none := hw
    rw [this] at hs
    cases hs

theorem construct_stencilIsDepth (native : Target → GLenum) (fb : GLuint) (thisAddr : Nat)
    (size : UVec2) (nLayers : Nat) (w : World) (st : TargetStates) (w1 : World)
    (h : (Target.construct native fb thisAddr size nLayers).run w = (.ok st, w1)) :
    w1.this.StencilIsDepth := by
  rw [construct_this native fb thisAddr size nLayers w st w1 h]
  intro s hs
  cases hs

theorem constructColorDepth_stencilIsDepth (native : Target → GLenum) (fb : GLuint)
    (thisAddr : Nat) (color depthStencil : TargetOutput) :
    Triple (fun _ => True) (Target.constructColorDepth native fb thisAddr color depthStencil)
      (fun _ w => w.this.StencilIsDepth) := by
  unfold Target.constructColorDepth Target.constructColorDepthBody
  refine Triple.liftExcept_bind fun _ _ => ?_
  refine Triple.liftExcept_bind fun _ _ => ?_
  refine Triple.liftExcept_bind fun _ _ => ?_
  refine Triple.liftExcept_bind fun _ _ => ?_
  refine Triple.construct_bind _ _ _ _ _ fun _ => ?_
  refine Triple.liftExcept_bind fun _ _ => ?_
  refine Triple.liftExcept_bind fun _ _ => ?_
  refine Triple.assert_bind fun _ => ?_
  refine Triple.liftExcept_bind fun _ _ => ?_
  refine Triple.assert_bind fun _ => ?_
  refine Triple.bind_keeps (AttachTexture_keeps _ _) fun _ => ?_
  refine Triple.bind_keeps (pushColor_keeps _) fun _ => ?_
  refine Triple.liftExcept_bind fun _ _ => ?_
  refine Triple.liftExcept_bind fun _ _ => ?_
  refine Triple.liftExcept_bind fun _ _ => ?_
  refine Triple.bind_keeps (AttachTexture_keeps _ _) fun _ => ?_
  exact recordDepthStencil_then_status native _ _

theorem constructColorBuffer_stencilIsDepth (native : Target → GLenum) (fb : GLuint)
    (thisAddr : Nat) (rb : GLuint) (color : TargetOutput) (depthFormat : DepthStencilFormats) :
    Triple (fun _ => True) (Target.constructColorBuffer native fb thisAddr rb color depthFormat)
      (fun _ w => w.this.StencilIsDepth) := by
  unfold Target.constructColorBuffer
  refine Triple.liftExcept_bind fun _ _ => ?_
  refine Triple.liftExcept_bind fun _ _ => ?_
  refine Triple.construct_bind _ _ _ _ _ fun _ => ?_
  refine Triple.bind_keeps (AttachTexture_keeps _ _) fun _ => ?_
  refine Triple.bind_keeps (pushColor_keeps _) fun _ => ?_
  exact AttachBuffer_then_status native _ _ _

theorem constructOutputs_stencilIsDepth (native : Target → GLenum) (fb : GLuint)
    (thisAddr : Nat) (rb : GLuint) (colorOutputs : List TargetOutput)
    (depthOutput : Option TargetOutput) :
    Triple (fun _ => True)
      (Target.constructOutputs native fb thisAddr rb colorOutputs depthOutput)
      (fun _ w => w.this.StencilIsDepth) := by
  unfold Target.constructOutputs Target.constructOutputsBody
  refine Triple.liftExcept_bind fun _ _ => ?_
  refine Triple.liftExcept_bind fun _ _ => ?_
  refine Triple.construct_bind _ _ _ _ _ fun _ => ?_
  refine Triple.bind_keeps (attachColors_keeps _ _) fun _ => ?_
  refine Triple.bind_keeps (SetDrawBuffers_keeps _) fun _ => ?_
  cases depthOutput with
  | none => exact AttachBuffer_then_status native _ _ _
  | some depth =>
    refine Triple.liftExcept_bind fun _ _ => ?_
    refine Triple.assert_bind fun _ => ?_
    refine Triple.liftExcept_bind fun _ _ => ?_
    refine Triple.liftExcept_bind fun _ _ => ?_
    refine Triple.bind_keeps (AttachTexture_keeps _ _) fun _ => ?_
    exact recordDepthStencil_then_status native _ _

theorem constructManaged_stencilIsDepth (native : Target → GLenum) (fb : GLuint)
    (thisAddr : Nat) (colorPtr depthPtr rb : GLuint) (size : UVec2) (colorFormat : Format)
    (depthFormat : DepthStencilFormats) (depthIsRenderBuffer : Bool) :
    Triple (fun _ => True)
      (Target.constructManaged native fb thisAddr colorPtr depthPtr rb size colorFormat
        depthFormat depthIsRenderBuffer)
      (fun _ w => w.this.StencilIsDepth) := by
  unfold Target.constructManaged
  refine Triple.construct_bind _ _ _ _ _ fun _ => ?_
  refine Triple.getThis_bind fun t ht => ?_
  refine Triple.setThis_bind _ ?_
  refine Triple.weaken (World.onThis (fun t => t.tex_stencil = none ∧ t.depthBuffer = none))
    ?_ (fun w hw => by
      have : w.this = _ := hw
      show w.this.tex_stencil = none ∧ w.this.depthBuffer = none
      rw [this]; exact ht)
  refine Triple.bind_keeps (pushColor_keeps _) fun _ => ?_
  refine Triple.bind_keeps (AttachTexture_keeps _ _) fun _ => ?_
  cases depthIsRenderBuffer with
  | true => exact AttachBuffer_then_status native _ _ _
  | false =>
    refine Triple.getThis_bind fun t ht => ?_
    refine Triple.setThis_bind _ ?_
    refine Triple.weaken
      (World.onThis (fun t => t.tex_stencil = none ∧ t.depthBuffer = none))
      ?_ (fun w hw => by
        have : w.this = _ := hw
        show w.this.tex_stencil = none ∧ w.this.depthBuffer = none
        rw [this]; exact ht)
    refine Triple.liftExcept_bind fun _ _ => ?_
    refine Triple.liftExcept_bind fun _ _ => ?_
    refine Triple.bind_keeps (AttachTexture_keeps _ _) fun _ => ?_
    exact recordDepthStencil_then_status native _ _

theorem constructMove_run (native : Target → GLenum) (fb : GLuint) (thisAddr : Nat)
    (defaultLayers : GLint) (source : Target) (w : World) (st : TargetStates)
    (hx : source.size.x ≠ 0) (hy : source.size.y ≠ 0)
    (hst : (Target.initial fb source.size).GetStatus (native (Target.initial fb source.size)) =
      .ok st)
    (hreg : (HandleMap.find (w.thread.registered fb thisAddr).threadData.targetsByOglPtr
      source.glPtr).isSome = true) :
    (Target.constructMove native fb thisAddr defaultLayers source).run w =
      (.ok { source with
          glPtr := 0
          tex_colors := []
          depthBuffer := source.depthBuffer.map Target.movedFromBuffer
          managedTextures := [] },
        { this := { Target.initial fb source.size with
            glPtr := source.glPtr
            tex_colors := source.tex_colors
            tex_depth := source.tex_depth
            tex_stencil := source.tex_stencil
            depthBuffer := source.depthBuffer
            isDepthRBBound := source.isDepthRBBound
            isStencilRBBound := source.isStencilRBBound
            managedTextures := source.managedTextures }
          thread := { w.thread.registered fb thisAddr with
            threadData := { (w.thread.registered fb thisAddr).threadData with
              targetsByOglPtr :=
                (w.thread.registered fb thisAddr).threadData.targetsByOglPtr.map fun e =>
                  if e.1 = source.glPtr then (e.1, thisAddr) else e } }
          emitted := w.emitted ++
            Target.initialCalls fb source.size (toGLuint defaultLayers) }) := by
  simp only [Target.constructMove, TargetM.run_bind, construct_run, if_neg hx, if_neg hy, hst,
    TargetM.run_getThis, TargetM.run_setThis, TargetM.run_getThread, TargetM.run_BP_ASSERT,
    hreg, if_true, TargetM.run_setThread, TargetM.run_pure]

theorem GetStatus_reference_handled (t : Target) (status : GLenum) (h : HandledStatus status) :
    ∃ st, t.GetStatus_reference status = .ok st := by
  unfold Target.GetStatus_reference
  rcases h with h | h | h
  · split_ifs <;> exact ⟨_, rfl⟩
  · split_ifs <;> exact ⟨_, rfl⟩
  · split_ifs <;> exact ⟨_, rfl⟩

theorem GetStatus_handled (t : Target) (status : GLenum) (h : HandledStatus status)
    (hc : ∀ o ∈ t.recordedOutputs, o.IsTexCube = false) :
    ∃ st, t.GetStatus status = .ok st := by
  rw [Target.GetStatus_eq_reference_of_no_cube t status hc]
  exact GetStatus_reference_handled t status h

theorem GetAttachmentType_total (format : DepthStencilFormats) :
    ∃ a, Target.GetAttachmentType format = .ok a := by
  cases format <;> exact ⟨_, rfl⟩

theorem AsDepthStencil_of_IsDepthStencil (f : Format) (h : f.IsDepthStencil = true) :
    ∃ format, f = Format.DepthStencil format ∧ f.AsDepthStencil = .ok format := by
  cases f with
  | DepthStencil format => exact ⟨format, rfl, rfl⟩
  | Simple _ => cases h
  | Special _ => cases h
  | Compressed _ => cases h

theorem constructColorDepth_run (native : Target → GLenum) (fb : GLuint) (thisAddr : Nat)
    (color depthStencil : TargetOutput) (w : World) (format : DepthStencilFormats)
    (attachment : GLenum) (st0 st : TargetStates)
    (hsize : depthStencil.size2D = color.size2D)
    (hx : color.size2D.x ≠ 0) (hy : color.size2D.y ≠ 0)
    (hc : color.IsTexCube = false) (hd : depthStencil.IsTexCube = false)
    (hfmt : depthStencil.constructedFrom.format = Format.DepthStencil format)
    (hatt : Target.GetAttachmentType format = .ok attachment)
    (hst0 : (Target.initial fb color.size2D).GetStatus
      (native (Target.initial fb color.size2D)) = .ok st0)
    (hst : Target.GetStatus
      { Target.initial fb color.size2D with
        tex_colors := [color]
        tex_depth := some depthStencil
        tex_stencil :=
          if IsStencilOnly format ∨ IsDepthAndStencil format then some depthStencil else none }
      (native { Target.initial fb color.size2D with
        tex_colors := [color]
        tex_depth := some depthStencil
        tex_stencil :=
          if IsStencilOnly format ∨ IsDepthAndStencil format then some depthStencil
          else none }) = .ok st) :
    (Target.constructColorDepth native fb thisAddr color depthStencil).run w =
      (.ok st,
        { this := { Target.initial fb color.size2D with
            tex_colors := [color]
            tex_depth := some depthStencil
            tex_stencil :=
              if IsStencilOnly format ∨ IsDepthAndStencil format then some depthStencil
              else none }
          thread := w.thread.registered fb thisAddr
          emitted := w.emitted ++
            Target.initialCalls fb color.size2D
              (Nat.min color.layerCount depthStencil.layerCount) ++
            [Target.attachCall fb GL_COLOR_ATTACHMENT0 color,
             Target.attachCall fb attachment depthStencil] }) := by
  have hmin : UVec2.min color.size2D color.size2D = color.size2D := by
    simp [UVec2.min]
  simp only [Target.constructColorDepth, Target.constructColorDepthBody, TargetM.run_bind,
    TargetM.run_liftExcept, TargetOutput.GetSize_eq, TargetOutput.GetLayerCount_eq,
    construct_run, hmin, if_neg hx, if_neg hy, hst0, hsize, decide_True,
    TargetM.run_BP_ASSERT, if_true, TargetOutput.GetTex_of_not_cube _ hd, hfmt,
    Format.IsDepthStencil, AttachTexture_run, hc, hd, Bool.false_eq_true, if_false,
    pushColor_run, Format.AsDepthStencil, hatt, recordDepthStencil_run, GetStatusM_run]
  simp only [Target.initial, Target.raw, List.nil_append, List.append_assoc,
    List.singleton_append] at hst ⊢
  rw [hst]

theorem HandleMap.find_map_repoint (m : List (GLuint × Nat)) (key : GLuint) (value : Nat)
    (h : (HandleMap.find m key).isSome = true) :
    HandleMap.find (m.map fun e => if e.1 = key then (e.1, value) else e) key = some value := by
  induction m with
  | nil => simp [HandleMap.find] at h
  | cons e rest ih =>
    by_cases he : e.1 = key
    · simp [HandleMap.find, List.find?, he]
    · have hr : (HandleMap.find rest key).isSome = true := by
        simpa [HandleMap.find, List.find?, he] using h
      have := ih hr
      simpa [HandleMap.find, List.find?, he] using this

theorem HandleMap.find_isSome_iff (m : List (GLuint × Nat)) (key : GLuint) :
    (HandleMap.find m key).isSome = true ↔ ∃ e ∈ m, e.1 = key := by
  simp [HandleMap.find, List.find?_isSome]

theorem HandleMap.find_assign_isSome (m : List (GLuint × Nat)) (key other : GLuint)
    (value : Nat) (h : (HandleMap.find m other).isSome = true) :
    (HandleMap.find (HandleMap.assign m key value) other).isSome = true := by
  rw [HandleMap.find_isSome_iff] at h ⊢
  obtain ⟨e, he, hk⟩ := h
  unfold HandleMap.assign
  split_ifs
  · by_cases hek : e.1 = key
    · exact ⟨(key, value), List.mem_map.mpr ⟨e, he, by simp [hek]⟩, hek ▸ hk⟩
    · exact ⟨e, List.mem_map.mpr ⟨e, he, by simp [hek]⟩, hk⟩
  · exact ⟨e, List.mem_append_left _ he, hk⟩

theorem CheckInit_targets (thread : Thread) :
    (CheckInit thread).threadData.targetsByOglPtr = thread.threadData.targetsByOglPtr := by
  unfold CheckInit
  split_ifs <;> rfl



theorem getThread_this (w : World) (a : Thread) (w1 : World)
    (h : getThread.run w = (.ok a, w1)) : w1.this = w.this := by
  rw [TargetM.run_getThread] at h
  have h2 : w = w1 := congrArg Prod.snd h
  subst h2; rfl

theorem setThread_this (thread : Thread) (w : World) (a : Unit) (w1 : World)
    (h : (setThread thread).run w = (.ok a, w1)) : w1.this = w.this := by
  rw [TargetM.run_setThread] at h
  have h2 := congrArg Prod.snd h
  simp only at h2
  rw [← h2]

theorem TargetM.Triple.pure_this {α : Type} {p : Target → Prop} (a : α) :
    Triple (World.onThis p) (pure a) (fun b w => p w.this ∧ b = a) := by
  intro w hw b w1 hrun
  rw [TargetM.run_pure] at hrun
  have h1 : Except.ok a = Except.ok b := congrArg Prod.fst hrun
  have h2 : w = w1 := congrArg Prod.snd hrun
  subst h2
  cases h1
  exact ⟨hw, rfl⟩

theorem constructMove_result (native : Target → GLenum) (fb : GLuint) (thisAddr : Nat)
    (defaultLayers : GLint) (source : Target) :
    Triple (fun _ => True) (Target.constructMove native fb thisAddr defaultLayers source)
      (fun moved w =>
        (w.this.tex_depth = source.tex_depth ∧ w.this.tex_stencil = source.tex_stencil ∧
          w.this.depthBuffer = source.depthBuffer) ∧
        moved = { source with
          glPtr := 0
          tex_colors := []
          depthBuffer := source.depthBuffer.map Target.movedFromBuffer
          managedTextures := [] }) := by
  unfold Target.constructMove
  refine Triple.construct_bind _ _ _ _ _ fun _ => ?_
  refine Triple.getThis_bind fun t _ => ?_
  refine Triple.setThis_bind _ ?_
  refine Triple.weaken
    (World.onThis (fun t => t.tex_depth = source.tex_depth ∧
      t.tex_stencil = source.tex_stencil ∧ t.depthBuffer = source.depthBuffer))
    ?_ (fun w hw => by
      have : w.this = _ := hw
      show w.this.tex_depth = _ ∧ w.this.tex_stencil = _ ∧ w.this.depthBuffer = _
      rw [this]; exact ⟨rfl, rfl, rfl⟩)
  refine Triple.bind_of_this_eq getThread_this fun _ => ?_
  refine Triple.assert_bind fun _ => ?_
  refine Triple.bind_of_this_eq (setThread_this _) fun _ => ?_
  exact Triple.pure_this _

theorem GetStatus_initial (fb : GLuint) (size : UVec2) (status : GLenum)
    (h : HandledStatus status) : ∃ st, (Target.initial fb size).GetStatus status = .ok st :=
  GetStatus_handled _ _ h (fun o ho => by simp [Target.recordedOutputs, Target.initial, Target.raw] at ho)

/-- Claim C20: after move-constructing a target from a registered source with native
handle `h`, the new object has the handle `h`, the source has the null handle,
`Target::Find(h)` gives the new object, and the colour, depth and stencil outputs, the
renderbuffer and the owned textures of the new object are those of the source, whose set
of owned textures is left empty.  The delegated constructor needs a non-zero size and a
completeness code that `GetStatus` handles. -/
theorem constructMove_transfers (native : Target → GLenum) (fb : GLuint) (thisAddr : Nat)
    (defaultLayers : GLint) (source : Target) (w : World)
    (hx : source.size.x ≠ 0) (hy : source.size.y ≠ 0)
    (hnative : HandledStatus (native (Target.initial fb source.size)))
    (hreg : (Target.Find w.thread source.glPtr).1.isSome = true) :
    ∃ moved w1,
      (Target.constructMove native fb thisAddr defaultLayers source).run w = (.ok moved, w1) ∧
      w1.this.glPtr = source.glPtr ∧ moved.glPtr = 0 ∧
      (Target.Find w1.thread source.glPtr).1 = some thisAddr ∧
      w1.this.tex_colors = source.tex_colors ∧ w1.this.tex_depth = source.tex_depth ∧
      w1.this.tex_stencil = source.tex_stencil ∧ w1.this.depthBuffer = source.depthBuffer ∧
      w1.this.managedTextures = source.managedTextures ∧ moved.managedTextures = [] := by
  obtain ⟨st, hst⟩ := GetStatus_initial fb source.size _ hnative
  have hreg1 : (HandleMap.find (w.thread.registered fb thisAddr).threadData.targetsByOglPtr
      source.glPtr).isSome = true :=
    HandleMap.find_assign_isSome _ _ _ _ hreg
  refine ⟨_, _, constructMove_run native fb thisAddr defaultLayers source w st hx hy hst hreg1,
    rfl, rfl, ?_, rfl, rfl, rfl, rfl, rfl, rfl⟩
  simp only [Target.Find, CheckInit_targets]
  exact HandleMap.find_map_repoint _ _ _ hreg1

theorem constructMove_transfers_witness :
    ∃ moved w1,
      (Target.constructMove exampleComplete 4 200 1 exampleConstructed.this).run exampleSecond =
        (.ok moved, w1) ∧
      w1.this.glPtr = exampleConstructed.this.glPtr ∧ moved.glPtr = 0 ∧
      (Target.Find w1.thread exampleConstructed.this.glPtr).1 = some 200 ∧
      w1.this.tex_colors = exampleConstructed.this.tex_colors ∧
      w1.this.tex_depth = exampleConstructed.this.tex_depth ∧
      w1.this.tex_stencil = exampleConstructed.this.tex_stencil ∧
      w1.this.depthBuffer = exampleConstructed.this.depthBuffer ∧
      w1.this.managedTextures = exampleConstructed.this.managedTextures ∧
      moved.managedTextures = [] :=
  constructMove_transfers exampleComplete 4 200 1 exampleConstructed.this exampleSecond
    (by decide) (by decide) (Or.inl rfl) rfl

/-- Claim C19: `Target::AttachBuffer` fails its assertion and leaves the target, the
thread-local data and the emitted calls as they were whenever a stencil texture output is
recorded; and in the state that each of the five constructors produces a recorded stencil
output is the recorded depth output and no renderbuffer is owned, which the move
constructor carries over from its source to the new object and to the moved-from source. -/
theorem stencil_texture_excludes_renderbuffer :
    (∀ (w : World) (rb : GLuint) (format : DepthStencilFormats) (s : TargetOutput),
      w.this.tex_stencil = some s →
      (Target.AttachBuffer rb format).run w =
        (.error "Can't use a stencil texture and a depth buffer separately; they must be the same texture", w)) ∧
    (∀ native fb thisAddr size nLayers w st w1,
      (Target.construct native fb thisAddr size nLayers).run w = (.ok st, w1) →
      w1.this.StencilIsDepth) ∧
    (∀ native fb thisAddr colorPtr depthPtr rb size colorFormat depthFormat depthIsRenderBuffer
      w st w1,
      (Target.constructManaged native fb thisAddr colorPtr depthPtr rb size colorFormat
        depthFormat depthIsRenderBuffer).run w = (.ok st, w1) →
      w1.this.StencilIsDepth) ∧
    (∀ native fb thisAddr color depthStencil w st w1,
      (Target.constructColorDepth native fb thisAddr color depthStencil).run w = (.ok st, w1) →
      w1.this.StencilIsDepth) ∧
    (∀ native fb thisAddr rb color depthFormat w st w1,
      (Target.constructColorBuffer native fb thisAddr rb color depthFormat).run w = (.ok st, w1) →
      w1.this.StencilIsDepth) ∧
    (∀ native fb thisAddr rb colorOutputs depthOutput w st w1,
      (Target.constructOutputs native fb thisAddr rb colorOutputs depthOutput).run w =
        (.ok st, w1) →
      w1.this.StencilIsDepth) ∧
    (∀ native fb thisAddr defaultLayers (source : Target) w moved w1,
      source.StencilIsDepth →
      (Target.constructMove native fb thisAddr defaultLayers source).run w = (.ok moved, w1) →
      w1.this.StencilIsDepth ∧ moved.StencilIsDepth) := by
  refine ⟨fun w rb format s h => AttachBuffer_stencil w rb format s h,
    fun native fb thisAddr size nLayers w st w1 h =>
      construct_stencilIsDepth native fb thisAddr size nLayers w st w1 h,
    fun native fb thisAddr colorPtr depthPtr rb size colorFormat depthFormat dirb w st w1 h =>
      constructManaged_stencilIsDepth native fb thisAddr colorPtr depthPtr rb size colorFormat
        depthFormat dirb w trivial st w1 h,
    fun native fb thisAddr color depthStencil w st w1 h =>
      constructColorDepth_stencilIsDepth native fb thisAddr color depthStencil w trivial st w1 h,
    fun native fb thisAddr rb color depthFormat w st w1 h =>
      constructColorBuffer_stencilIsDepth native fb thisAddr rb color depthFormat w trivial st
        w1 h,
    fun native fb thisAddr rb colorOutputs depthOutput w st w1 h =>
      constructOutputs_stencilIsDepth native fb thisAddr rb colorOutputs depthOutput w trivial
        st w1 h,
    ?_⟩
  intro native fb thisAddr defaultLayers source w moved w1 hsrc h
  obtain ⟨⟨hd, hs, hb⟩, hm⟩ :=
    constructMove_result native fb thisAddr defaultLayers source w trivial moved w1 h
  constructor
  · intro s hs1
    rw [hs] at hs1
    rw [hd, hb]
    exact hsrc s hs1
  · subst hm
    intro s hs1
    have := hsrc s hs1
    exact ⟨this.1, by simp [this.2]⟩

/-- An instance of the invariant: the constructor from a colour output and a hybrid
depth/stencil output records that output as depth and as stencil output, with no
renderbuffer. -/
theorem stencil_texture_excludes_renderbuffer_witness :
    ((Target.constructColorDepth exampleComplete 3 100 exampleColorOutput
      exampleDepthOutput).run (World.fresh exampleThread)).2.this.tex_stencil =
        some exampleDepthOutput ∧
    ((Target.constructColorDepth exampleComplete 3 100 exampleColorOutput
      exampleDepthOutput).run (World.fresh exampleThread)).2.this.StencilIsDepth :=
  ⟨rfl, stencil_texture_excludes_renderbuffer.2.2.2.1 exampleComplete 3 100 exampleColorOutput
    exampleDepthOutput (World.fresh exampleThread) TargetStates.Ready _ rfl⟩

/-- Claim C18: on a target with no stencil texture, `Target::AttachBuffer(format)` owns
afterwards a newly created renderbuffer of the given format and the size of the target if
there was no renderbuffer or its size differed from the size of the target, and the
renderbuffer it had otherwise; this renderbuffer has the size of the target, and it is
attached at the depth point for a depth-only format and at the depth-stencil point for a
hybrid format, by the only native call emitted. -/
theorem AttachBuffer_replaces_on_size_change (w : World) (rb : GLuint)
    (format : DepthStencilFormats) (h : w.this.tex_stencil = none) :
    ∃ buffer : TargetBuffer,
      ((Target.AttachBuffer rb format).run w).2.this = { w.this with depthBuffer := some buffer } ∧
      ((w.this.depthBuffer = none ∨ ∃ b, w.this.depthBuffer = some b ∧ b.size ≠ w.this.size) →
        buffer = { glPtr := rb, format := Format.DepthStencil format, size := w.this.size }) ∧
      (∀ b, w.this.depthBuffer = some b → b.size = w.this.size → buffer = b) ∧
      buffer.size = w.this.size ∧
      (IsDepthOnly format = true →
        (Target.AttachBuffer rb format).run w =
          (.ok (), { w with
            this := { w.this with depthBuffer := some buffer }
            emitted := w.emitted ++
              [GLCall.glNamedFramebufferRenderbuffer w.this.glPtr GL_DEPTH_ATTACHMENT
                GL_RENDERBUFFER buffer.glPtr] })) ∧
      (IsDepthAndStencil format = true →
        (Target.AttachBuffer rb format).run w =
          (.ok (), { w with
            this := { w.this with depthBuffer := some buffer }
            emitted := w.emitted ++
              [GLCall.glNamedFramebufferRenderbuffer w.this.glPtr GL_DEPTH_STENCIL_ATTACHMENT
                GL_RENDERBUFFER buffer.glPtr] })) := by
  have hrun := AttachBuffer_run w rb format h
  simp only at hrun
  refine ⟨match w.this.depthBuffer with
      | some b =>
        if b.size = w.this.size then b
        else { glPtr := rb, format := Format.DepthStencil format, size := w.this.size }
      | none => { glPtr := rb, format := Format.DepthStencil format, size := w.this.size },
    ?_, ?_, ?_, ?_, ?_, ?_⟩
  · rw [hrun]
    split_ifs <;> rfl
  · rintro (h0 | ⟨b, hb, hne⟩)
    · simp only [h0]
    · simp only [hb, if_neg hne]
  · intro b hb hs
    simp only [hb, if_pos hs]
  · cases hb : w.this.depthBuffer with
    | none => rfl
    | some b =>
      simp only
      split_ifs with hs
      · exact hs
      · rfl
  · intro hf
    exact hrun.trans (if_pos hf)
  · intro hf
    have hd : ¬ IsDepthOnly format = true := by
      cases format <;> first | decide | cases hf
    exact hrun.trans ((if_neg hd).trans (if_pos hf))

/-- An instance: a freshly initialised 4x4 target with no renderbuffer gets the new
renderbuffer 9, attached at the depth point. -/
theorem AttachBuffer_replaces_on_size_change_witness :
    ∃ buffer : TargetBuffer,
      ((Target.AttachBuffer 9 .Depth_24U).run
        { exampleSecond with this := Target.initial 4 { x := 4, y := 4 } }).2.this =
        { Target.initial 4 { x := 4, y := 4 } with depthBuffer := some buffer } ∧
      buffer = { glPtr := 9, format := Format.DepthStencil .Depth_24U, size := { x := 4, y := 4 } } := by
  obtain ⟨buffer, h1, h2, -⟩ := AttachBuffer_replaces_on_size_change
    { exampleSecond with this := Target.initial 4 { x := 4, y := 4 } } 9 .Depth_24U rfl
  exact ⟨buffer, h1, h2 (Or.inl rfl)⟩

/-- A run of the constructor from a colour and a depth/stencil output that returns has
passed the comparison of the two sizes. -/
theorem constructColorDepth_sizes (native : Target → GLenum) (fb : GLuint)
    (thisAddr : Nat) (color depthStencil : TargetOutput) :
    Triple (fun _ => True) (Target.constructColorDepth native fb thisAddr color depthStencil)
      (fun _ _ => depthStencil.GetSize = color.GetSize) := by
  unfold Target.constructColorDepth Target.constructColorDepthBody
  refine Triple.liftExcept_bind fun _ _ => ?_
  refine Triple.liftExcept_bind fun _ _ => ?_
  refine Triple.liftExcept_bind fun _ _ => ?_
  refine Triple.liftExcept_bind fun _ _ => ?_
  refine Triple.construct_bind _ _ _ _ _ fun _ => ?_
  refine Triple.liftExcept_bind fun ds hds => ?_
  refine Triple.liftExcept_bind fun cs hcs => ?_
  refine Triple.assert_bind fun hc => ?_
  have : ds = cs := of_decide_eq_true hc
  intro _ _ _ _ _
  rw [hds, hcs, this]

theorem TargetM.run_error_of_not_ok {α : Type} (m : TargetM α) (w : World)
    (h : ∀ a w1, m.run w ≠ (.ok a, w1)) : ∃ msg w1, m.run w = (.error msg, w1) := by
  cases hr : m.run w with
  | mk r w1 =>
    cases r with
    | error msg => exact ⟨msg, w1, rfl⟩
    | ok a => exact absurd hr (h a w1)

/-- Claim C12, amended: the constructor `Target(status, color, depthStencil)` fails an
assertion whenever the sizes of the two outputs differ; and when the sizes are equal and
non-zero in both components, the depth/stencil texture has a depth/stencil format, neither
output is a whole cubemap and the driver reports completeness codes that `GetStatus`
handles, it returns, with the size of the target equal to the common size, the two
outputs recorded, and the minimum of the two layer counts handed to the delegated
constructor. -/
theorem constructColorDepth_contract (native : Target → GLenum) (fb : GLuint)
    (thisAddr : Nat) (color depthStencil : TargetOutput) (w : World) :
    (color.GetSize ≠ depthStencil.GetSize →
      ∃ msg w1, (Target.constructColorDepth native fb thisAddr color depthStencil).run w =
        (.error msg, w1)) ∧
    (∀ size : UVec2, color.GetSize = .ok size → depthStencil.GetSize = .ok size →
      size.x ≠ 0 → size.y ≠ 0 →
      depthStencil.constructedFrom.format.IsDepthStencil = true →
      color.IsTexCube = false → depthStencil.IsTexCube = false →
      (∀ t, HandledStatus (native t)) →
      ∃ st w1 colorLayers depthLayers attachment,
        (Target.constructColorDepth native fb thisAddr color depthStencil).run w = (.ok st, w1) ∧
        w1.this.size = size ∧ w1.this.tex_colors = [color] ∧
        w1.this.tex_depth = some depthStencil ∧
        color.GetLayerCount = .ok colorLayers ∧ depthStencil.GetLayerCount = .ok depthLayers ∧
        w1.emitted = w.emitted ++
          Target.initialCalls fb size (Nat.min colorLayers depthLayers) ++
          [Target.attachCall fb GL_COLOR_ATTACHMENT0 color,
           Target.attachCall fb attachment depthStencil]) := by
  constructor
  · intro hne
    apply TargetM.run_error_of_not_ok
    intro a w1 hrun
    exact hne (constructColorDepth_sizes native fb thisAddr color depthStencil w trivial a w1
      hrun).symm
  · intro size hcs hds hx hy hfmt hc hd hnative
    rw [TargetOutput.GetSize_eq] at hcs hds
    have hcs1 : color.size2D = size := by injection hcs
    have hds1 : depthStencil.size2D = size := by injection hds
    obtain ⟨format, hf, -⟩ := AsDepthStencil_of_IsDepthStencil _ hfmt
    obtain ⟨attachment, hatt⟩ := GetAttachmentType_total format
    obtain ⟨st0, hst0⟩ := GetStatus_initial fb color.size2D _ (hnative (Target.initial fb color.size2D))
    obtain ⟨st, hst⟩ := GetStatus_handled
      { Target.initial fb color.size2D with
        tex_colors := [color]
        tex_depth := some depthStencil
        tex_stencil :=
          if IsStencilOnly format ∨ IsDepthAndStencil format then some depthStencil else none }
      _ (hnative _) (by
        intro o ho
        simp only [Target.recordedOutputs, Target.initial, Target.raw, List.mem_append,
          Option.mem_toList, Option.mem_def, List.mem_singleton] at ho
        rcases ho with (ho | ho) | ho
        · cases ho; exact hd
        · split_ifs at ho
          cases ho; exact hd
        · rw [ho]; exact hc)
    refine ⟨st, _, color.layerCount, depthStencil.layerCount, attachment,
      constructColorDepth_run native fb thisAddr color depthStencil w format attachment st0 st
        (hds1.trans hcs1.symm) (hcs1 ▸ hx) (hcs1 ▸ hy) hc hd hf hatt hst0 hst,
      hcs1, rfl, rfl, TargetOutput.GetLayerCount_eq _, TargetOutput.GetLayerCount_eq _, ?_⟩
    rw [hcs1]

/-- An instance: a 4x4 colour texture and a 4x4 hybrid depth/stencil texture on a driver
that reports the framebuffer complete. -/
theorem constructColorDepth_contract_witness :
    ∃ st w1 colorLayers depthLayers attachment,
      (Target.constructColorDepth exampleComplete 3 100 exampleColorOutput
        exampleDepthOutput).run (World.fresh exampleThread) = (.ok st, w1) ∧
      w1.this.size = { x := 4, y := 4 } ∧ w1.this.tex_colors = [exampleColorOutput] ∧
      w1.this.tex_depth = some exampleDepthOutput ∧
      exampleColorOutput.GetLayerCount = .ok colorLayers ∧
      exampleDepthOutput.GetLayerCount = .ok depthLayers ∧
      w1.emitted = (World.fresh exampleThread).emitted ++
        Target.initialCalls 3 { x := 4, y := 4 } (Nat.min colorLayers depthLayers) ++
        [Target.attachCall 3 GL_COLOR_ATTACHMENT0 exampleColorOutput,
         Target.attachCall 3 attachment exampleDepthOutput] :=
  (constructColorDepth_contract exampleComplete 3 100 exampleColorOutput exampleDepthOutput
    (World.fresh exampleThread)).2 { x := 4, y := 4 } rfl rfl (by decide) (by decide) rfl rfl rfl
    (fun _ => Or.inl rfl)

/-- Claim C12, as stated, fails: the two outputs have the same size and the depth/stencil
texture has a depth/stencil format, and the constructor fails the assertion of
`GetStatus`, because the driver reports an incomplete attachment for the colour texture,
whose format is not colour-renderable. -/
theorem constructColorDepth_fails_on_unhandled_status :
    exampleDepthAsColor.GetSize = exampleDepthOutput.GetSize ∧
    exampleDepthOutput.constructedFrom.format.IsDepthStencil = true ∧
    ((Target.constructColorDepth exampleRenderable 3 100 exampleDepthAsColor
      exampleDepthOutput).run (World.fresh exampleThread)).1 =
        .error "Unexpected glCheckFramebufferStatus code" :=
  ⟨rfl, rfl, rfl⟩

/-- The float overload of `ClearColor` at an index whose output `GetOutput_Color` finds:
it fails exactly for an integer format, and emits its clear call otherwise. -/
theorem ClearColor_fvec4_run (q : FormatQueries) (rgba : FVec4) (index : Nat) (w : World)
    (o : TargetOutput) (hi : index < w.this.GetNColorOutputs)
    (ho : w.this.GetOutput_Color index = .ok (some o)) (hc : o.IsTexCube = false) :
    (Target.ClearColor_fvec4 q rgba index).run w =
      if q.IsInteger o.constructedFrom.format then
        (.error "Trying to clear an int/uint texture with a float value", w)
      else
        (.ok (), { w with emitted := w.emitted ++
          [GLCall.glClearNamedFramebufferfv w.this.glPtr GL_COLOR (asGLint index)
            [rgba.r, rgba.g, rgba.b, rgba.a]] }) := by
  simp only [Target.ClearColor_fvec4, TargetM.run_bind, TargetM.run_getThis,
    TargetM.run_BP_ASSERT, decide_eq_true hi, if_true, ho, TargetM.run_liftExcept,
    Option.isSome_some, TargetOutput.GetTex_of_not_cube o hc, TargetM.run_emit]
  cases q.IsInteger o.constructedFrom.format <;> rfl

theorem ClearColor_uvec4_run (q : FormatQueries) (rgba : Target.UVec4) (index : Nat) (w : World)
    (o : TargetOutput) (hi : index < w.this.GetNColorOutputs)
    (ho : w.this.GetOutput_Color index = .ok (some o)) (hc : o.IsTexCube = false) :
    (Target.ClearColor_uvec4 q rgba index).run w =
      if q.GetComponentType o.constructedFrom.format = FormatTypes.UInt then
        (.ok (), { w with emitted := w.emitted ++
          [GLCall.glClearNamedFramebufferuiv w.this.glPtr GL_COLOR (asGLint index)
            [rgba.1, rgba.2.1, rgba.2.2.1, rgba.2.2.2]] })
      else (.error "Trying to clear a non-UInt texture with a uint value", w) := by
  simp only [Target.ClearColor_uvec4, TargetM.run_bind, TargetM.run_getThis,
    TargetM.run_BP_ASSERT, decide_eq_true hi, if_true, ho, TargetM.run_liftExcept,
    TargetOutput.GetTex_of_not_cube o hc, TargetM.run_emit]
  by_cases h : q.GetComponentType o.constructedFrom.format = FormatTypes.UInt
  · simp [h]
  · simp [h]

theorem ClearColor_ivec4_run (q : FormatQueries) (rgba : IVec4) (index : Nat) (w : World)
    (o : TargetOutput) (hi : index < w.this.GetNColorOutputs)
    (ho : w.this.GetOutput_Color index = .ok (some o)) (hc : o.IsTexCube = false) :
    (Target.ClearColor_ivec4 q rgba index).run w =
      if q.GetComponentType o.constructedFrom.format = FormatTypes.Int then
        (.ok (), { w with emitted := w.emitted ++
          [GLCall.glClearNamedFramebufferiv w.this.glPtr GL_COLOR (asGLint index)
            [rgba.x, rgba.y, rgba.z, rgba.w]] })
      else (.error "Trying to clear a non-Int texture with an int value", w) := by
  simp only [Target.ClearColor_ivec4, TargetM.run_bind, TargetM.run_getThis,
    TargetM.run_BP_ASSERT, decide_eq_true hi, if_true, ho, TargetM.run_liftExcept,
    TargetOutput.GetTex_of_not_cube o hc, TargetM.run_emit]
  by_cases h : q.GetComponentType o.constructedFrom.format = FormatTypes.Int
  · simp [h]
  · simp [h]

/-- Every overload of `ClearColor` fails its first assertion, with nothing emitted, for
an index not below the number of colour outputs. -/
theorem ClearColor_index_out_of_range (q : FormatQueries) (index : Nat) (w : World)
    (hi : ¬ index < w.this.GetNColorOutputs) :
    (∀ rgba, (Target.ClearColor_fvec4 q rgba index).run w =
      (.error "Not enough color outputs to reach this index", w)) ∧
    (∀ rgba, (Target.ClearColor_uvec4 q rgba index).run w =
      (.error "Not enough color outputs to clear", w)) ∧
    (∀ rgba, (Target.ClearColor_ivec4 q rgba index).run w =
      (.error "Not enough color outputs to clear", w)) := by
  refine ⟨fun rgba => ?_, fun rgba => ?_, fun rgba => ?_⟩
  · simp [Target.ClearColor_fvec4, TargetM.run_bind, TargetM.run_getThis,
      TargetM.run_BP_ASSERT, hi]
  · simp [Target.ClearColor_uvec4, TargetM.run_bind, TargetM.run_getThis,
      TargetM.run_BP_ASSERT, hi]
  · simp [Target.ClearColor_ivec4, TargetM.run_bind, TargetM.run_getThis,
      TargetM.run_BP_ASSERT, hi]

/-- Claim C16 fails after `SetDrawBuffers` with an absent entry: the target has one colour
output, an unsigned-integer texture, so index 0 is below the number of colour outputs; the
unsigned-int overload of `ClearColor` at index 0 does not succeed, whatever the component
type of the format is, because `GetOutput_Color` takes the value of the absent entry of
the active-attachment list; the float and the signed-int overload fail in the same
way. -/
theorem ClearColor_fails_on_inactive_slot (q : FormatQueries) (rgba : Target.UVec4) :
    exampleInactive.this.tex_colors = [exampleUIntOutput] ∧
    exampleInactive.this.activeColorAttachments = [none] ∧
    (Target.ClearColor_uvec4 q rgba 0).run exampleInactive =
      (.error "bad optional access", exampleInactive) ∧
    (∀ rgbaF, (Target.ClearColor_fvec4 q rgbaF 0).run exampleInactive =
      (.error "bad optional access", exampleInactive)) ∧
    (∀ rgbaI, (Target.ClearColor_ivec4 q rgbaI 0).run exampleInactive =
      (.error "bad optional access", exampleInactive)) :=
  ⟨rfl, rfl, rfl, fun _ => rfl, fun _ => rfl⟩

/-! ## The targets that the code produces -/

namespace TargetM

end TargetM

/-- Claim C24 fails for a rectangle of negative width or height.  The scissor of the
example context is disabled, as is the scissor test of the example driver.
`SetScissor(0, 0, -1, -1)` emits the enabling call and `glScissor(0, 0, -1, -1)`, which
the driver rejects: the driver keeps the box (0, 0, 800, 600) while the cache holds
(0, 0, -1, -1).  `SetScissor(-1, -1, -1, -1)` emits the enabling call only. -/
theorem SetScissor_negative_size_not_stored :
    (exampleDriver { x := 0, y := 0, z := 0, w := 0 }).reportedScissor =
      exampleContext.scissor ∧
    (exampleContext.SetScissor 0 0 (-1) (-1)).2 =
      [GLCall.glEnable GL_SCISSOR_TEST, GLCall.glScissor 0 0 (-1) (-1)] ∧
    (exampleContext.SetScissor 0 0 (-1) (-1)).1.scissor =
      some { x := 0, y := 0, z := -1, w := -1 } ∧
    ((exampleDriver { x := 0, y := 0, z := 0, w := 0 }).execAll
      (exampleContext.SetScissor 0 0 (-1) (-1)).2).reportedScissor =
      some { x := 0, y := 0, z := 800, w := 600 } ∧
    (exampleContext.SetScissor (-1) (-1) (-1) (-1)).2 = [GLCall.glEnable GL_SCISSOR_TEST] ∧
    (exampleContext.SetScissor (-1) (-1) (-1) (-1)).1.scissor =
      some { x := -1, y := -1, z := -1, w := -1 } ∧
    ((exampleDriver { x := 0, y := 0, z := 0, w := 0 }).execAll
      (exampleContext.SetScissor (-1) (-1) (-1) (-1)).2).reportedScissor =
      some { x := 0, y := 0, z := 800, w := 600 } := by
  refine ⟨rfl, by decide, rfl, by decide, rfl, rfl, by decide⟩

/-- Claim C24, for rectangles of non-negative size: for every rectangle (x, y, w, h) with
`0 ≤ w` and `0 ≤ h` and every prior scissor state whose cache agrees with the driver,
after `SetScissor(x, y, w, h)` the scissor test of the driver is enabled and its scissor
box is (x, y, w, h), equal to the cached scissor rectangle. -/
theorem SetScissor_keeps_driver_box (c : Context) (d : Driver) (x y w h : GLint)
    (hd : d.reportedScissor = c.scissor) (hw : 0 ≤ w) (hh : 0 ≤ h) :
    (d.execAll (c.SetScissor x y w h).2).isEnabled GL_SCISSOR_TEST = true ∧
    (d.execAll (c.SetScissor x y w h).2).scissorBox = { x := x, y := y, z := w, w := h } ∧
    (d.execAll (c.SetScissor x y w h).2).reportedScissor =
        some { x := x, y := y, z := w, w := h } ∧
    (c.SetScissor x y w h).1.scissor = some { x := x, y := y, z := w, w := h } := by
  have hcap : isCapability GL_SCISSOR_TEST = true := by decide
  have hneg : ¬ (w < 0 ∨ h < 0) := by
    rintro (h0 | h0)
    · exact absurd hw (not_le.2 h0)
    · exact absurd hh (not_le.2 h0)
  rcases c with ⟨st, vp, sc, rt, vs⟩
  cases sc with
  | none =>
    have hne2 : ¬ (({ x := -1, y := -1, z := -1, w := -1 } : IVec4) =
        { x := x, y := y, z := w, w := h }) := by
      intro h0
      have h1 : (-1 : GLint) = w := congrArg IVec4.z h0
      rw [← h1] at hw
      exact absurd hw (by decide)
    simp [Context.SetScissor, Emitted.andThen, hne2, Driver.execAll, Driver.exec,
      Driver.reportedScissor, Driver.isEnabled, hcap, hneg]
  | some r =>
    simp only [Driver.reportedScissor] at hd
    by_cases he : d.isEnabled GL_SCISSOR_TEST = true
    · rw [if_pos he] at hd
      injection hd with hd
      by_cases hr : r = { x := x, y := y, z := w, w := h }
      · subst hr
        simp [Context.SetScissor, Emitted.andThen, Driver.execAll, Driver.reportedScissor, he,
          hd]
      · have he2 : d.enabled GL_SCISSOR_TEST = true := by
          simpa [Driver.isEnabled, hcap] using he
        simp [Context.SetScissor, Emitted.andThen, Driver.execAll, Driver.exec,
          Driver.reportedScissor, Driver.isEnabled, hcap, he2, hr, hneg]
    · rw [if_neg he] at hd
      cases hd

/-- Claim C24 at a concrete input: `SetScissor(0, 0, 640, 480)` on the example context and
the example driver, whose scissor is disabled. -/
theorem SetScissor_keeps_driver_box_witness :
    (exampleDriver { x := 0, y := 0, z := 0, w := 0 }).reportedScissor =
      exampleContext.scissor ∧
    ((exampleDriver { x := 0, y := 0, z := 0, w := 0 }).execAll
      (exampleContext.SetScissor 0 0 640 480).2).isEnabled GL_SCISSOR_TEST = true ∧
    ((exampleDriver { x := 0, y := 0, z := 0, w := 0 }).execAll
      (exampleContext.SetScissor 0 0 640 480).2).scissorBox =
        { x := 0, y := 0, z := 640, w := 480 } ∧
    ((exampleDriver { x := 0, y := 0, z := 0, w := 0 }).execAll
      (exampleContext.SetScissor 0 0 640 480).2).reportedScissor =
        some { x := 0, y := 0, z := 640, w := 480 } ∧
    (exampleContext.SetScissor 0 0 640 480).1.scissor =
      some { x := 0, y := 0, z := 640, w := 480 } :=
  ⟨rfl, SetScissor_keeps_driver_box exampleContext _ 0 0 640 480 rfl (by decide) (by decide)⟩

/-- Claim C25: the accessors of `TargetOutput` classify its six variants without
reaching an assertion.  `IsLayered` is true exactly for the whole 3D texture and the
whole cubemap, `IsFlat` exactly for the 1D and the 2D texture; `GetLayerCount` is 1 for
the variants that are not layered, the depth of a whole 3D texture and 6 for a whole
cubemap; `GetSize` is (width, 1) for a 1D texture and the width and height of the
texture otherwise. -/
theorem TargetOutput_accessors_classify (tex : Texture) (mip slice : Nat) (face : CubeFaces) :
    ((TargetOutput.mk (.Tex1D tex) mip).IsLayered = .ok false ∧
      (TargetOutput.mk (.Tex1D tex) mip).IsFlat = .ok true ∧
      (TargetOutput.mk (.Tex1D tex) mip).GetLayerCount = .ok 1 ∧
      (TargetOutput.mk (.Tex1D tex) mip).GetSize = .ok { x := tex.size.x, y := 1 }) ∧
    ((TargetOutput.mk (.Tex2D tex) mip).IsLayered = .ok false ∧
      (TargetOutput.mk (.Tex2D tex) mip).IsFlat = .ok true ∧
      (TargetOutput.mk (.Tex2D tex) mip).GetLayerCount = .ok 1 ∧
      (TargetOutput.mk (.Tex2D tex) mip).GetSize = .ok { x := tex.size.x, y := tex.size.y }) ∧
    ((TargetOutput.mk (.Tex3D tex) mip).IsLayered = .ok true ∧
      (TargetOutput.mk (.Tex3D tex) mip).IsFlat = .ok false ∧
      (TargetOutput.mk (.Tex3D tex) mip).GetLayerCount = .ok tex.size.z ∧
      (TargetOutput.mk (.Tex3D tex) mip).GetSize = .ok { x := tex.size.x, y := tex.size.y }) ∧
    ((TargetOutput.mk (.TexCube tex) mip).IsLayered = .ok true ∧
      (TargetOutput.mk (.TexCube tex) mip).IsFlat = .ok false ∧
      (TargetOutput.mk (.TexCube tex) mip).GetLayerCount = .ok 6 ∧
      (TargetOutput.mk (.TexCube tex) mip).GetSize = .ok { x := tex.size.x, y := tex.size.y }) ∧
    ((TargetOutput.mk (.Tex3DSlice tex slice) mip).IsLayered = .ok false ∧
      (TargetOutput.mk (.Tex3DSlice tex slice) mip).IsFlat = .ok false ∧
      (TargetOutput.mk (.Tex3DSlice tex slice) mip).GetLayerCount = .ok 1 ∧
      (TargetOutput.mk (.Tex3DSlice tex slice) mip).GetSize =
        .ok { x := tex.size.x, y := tex.size.y }) ∧
    ((TargetOutput.mk (.TexCubeFace tex face) mip).IsLayered = .ok false ∧
      (TargetOutput.mk (.TexCubeFace tex face) mip).IsFlat = .ok false ∧
      (TargetOutput.mk (.TexCubeFace tex face) mip).GetLayerCount = .ok 1 ∧
      (TargetOutput.mk (.TexCubeFace tex face) mip).GetSize =
        .ok { x := tex.size.x, y := tex.size.y }) :=
  ⟨⟨rfl, rfl, rfl, rfl⟩, ⟨rfl, rfl, rfl, rfl⟩, ⟨rfl, rfl, rfl, rfl⟩, ⟨rfl, rfl, rfl, rfl⟩,
    ⟨rfl, rfl, rfl, rfl⟩, ⟨rfl, rfl, rfl, rfl⟩⟩

/-- Claim C26 fails for a whole cubemap: the output is layered, so `AttachTexture` takes
the whole-texture bind, and the call `output.GetTex()` in its argument fails the
assertion of `GetTex`; no native call is emitted. -/
theorem AttachTexture_fails_on_whole_cubemap :
    exampleCubeOutput.IsLayered = .ok true ∧
    (Target.AttachTexture GL_COLOR_ATTACHMENT0 exampleCubeOutput).run exampleConstructed =
      (.error "Unknown type for TargetOutput", exampleConstructed) :=
  ⟨rfl, rfl⟩

/-- Claim C28 fails for an output built from a whole cubemap: `GetTex` has no case for
it and reaches its assertion, although the output was constructed from a texture. -/
theorem GetTex_fails_on_whole_cubemap :
    exampleCubeOutput.data = .TexCube (exampleTexture 7 exampleColorFormat 4 4) ∧
    exampleCubeOutput.GetTex = .error "Unknown type for TargetOutput" :=
  ⟨rfl, rfl⟩

/-- `GetOutput_Color` returns null for an index not below the number of colour outputs. -/
theorem GetOutput_Color_of_not_lt (t : Target) (index : Nat)
    (h : ¬ index < t.GetNColorOutputs) : t.GetOutput_Color index = .ok none := by
  simp [Target.GetOutput_Color, h]

/-- Claim C30 fails after `SetDrawBuffers`: on the constructed target with one colour
output, index 0 is below the number of colour outputs, and `GetOutput_Color(0)` takes
the value of an absent entry after `SetDrawBuffers` with one absent entry, reads past the
end of the active-attachment list after `SetDrawBuffers` with the empty list, and reads
past the end of the colour outputs after `SetDrawBuffers` with the slot index 5. -/
theorem GetOutput_Color_unchecked_after_SetDrawBuffers :
    exampleInactive.this.GetNColorOutputs = 1 ∧
    exampleInactive.this.GetOutput_Color 0 = .error "bad optional access" ∧
    ((Target.SetDrawBuffers []).run exampleConstructed).2.this.GetOutput_Color 0 =
      .error "activeColorAttachments: index out of range" ∧
    ((Target.SetDrawBuffers [some 5]).run exampleConstructed).2.this.GetOutput_Color 0 =
      .error "tex_colors: index out of range" ∧
    exampleConstructed.this.GetOutput_Color 0 = .ok (some exampleUIntOutput) :=
  ⟨rfl, rfl, rfl, rfl, rfl⟩

/-! ## Binary strings (`Strings.h`) -/

namespace Strings

theorem bit_eq (byte bitI : Nat) : (byte >>> bitI) &&& 1 = (byte / 2 ^ bitI) % 2 := by
  rw [Nat.shiftRight_eq_div_pow, Nat.and_one_is_mod]

theorem foldlM_ok {α β : Type} (f : β → α → Except String β) (g : β → α → β)
    (h : ∀ acc x, f acc x = .ok (g acc x)) (l : List α) (init : β) :
    l.foldlM f init = .ok (l.foldl g init) := by
  induction l generalizing init with
  | nil => rfl
  | cons x rest ih =>
    simp only [List.foldlM, List.foldl, h]
    exact ih _

theorem foldl_append_singleton {α : Type} (c : α → Char) (l : List α) (init : List Char) :
    l.foldl (fun result x => result ++ [c x]) init = init ++ l.map c := by
  induction l generalizing init with
  | nil => simp
  | cons x rest ih => simp [ih]

/-- The bits of one byte, most significant first. -/
theorem appendBits_eq (byte : Nat) (result : List Char) :
    appendBits byte result =
      .ok (result ++ [7, 6, 5, 4, 3, 2, 1, 0].map fun bitI =>
        if (byte / 2 ^ bitI) % 2 = 0 then '0' else '1') := by
  unfold appendBits
  rw [foldlM_ok _ (fun result bitI => result ++ [if (byte / 2 ^ bitI) % 2 = 0 then '0' else '1'])]
  · rw [foldl_append_singleton]
  · intro acc bitI
    have h : (byte / 2 ^ bitI) % 2 = 0 ∨ (byte / 2 ^ bitI) % 2 = 1 := by omega
    simp only [bit_eq, h, not_true_eq_false, if_false]
    rfl

/-- The byte that the outer loop reads at `byteI`, whatever the endianness. -/
theorem valueBytes_selected (littleEndian : Bool) (nBytes value byteI : Nat) :
    valueBytes littleEndian nBytes value (if littleEndian then nBytes - 1 - byteI else byteI) =
      (value / 2 ^ (8 * (nBytes - 1 - byteI))) % 256 := by
  cases littleEndian with
  | true => simp [valueBytes]
  | false => simp [valueBytes]

theorem appendBytes_eq (littleEndian : Bool) (nBytes value : Nat) (pre : List Char) :
    appendBytes littleEndian nBytes value pre = .ok (pre ++ valueDigits nBytes value) := by
  unfold appendBytes valueDigits
  rw [foldlM_ok _ (fun result byteI =>
    result ++ byteDigits ((value / 2 ^ (8 * (nBytes - 1 - byteI))) % 256))]
  · congr 1
    generalize List.range nBytes = l
    induction l generalizing pre with
    | nil => simp
    | cons x rest ih => simp [List.flatMap_cons, ih]
  · intro acc byteI
    rw [valueBytes_selected, appendBits_eq]
    rfl

theorem byteDigits_length (byte : Nat) : (byteDigits byte).length = 8 := rfl

theorem byteDigits_binary (byte : Nat) : ∀ c ∈ byteDigits byte, c = '0' ∨ c = '1' := by
  intro c hc
  simp only [byteDigits, List.mem_map] at hc
  obtain ⟨bitI, -, rfl⟩ := hc
  split_ifs
  · exact Or.inl rfl
  · exact Or.inr rfl

theorem digit_value (k : Nat) (h : k < 2) :
    (if (if k = 0 then '0' else '1') = '1' then 1 else 0) = k := by
  interval_cases k <;> simp

theorem foldl_byteDigits (byte acc : Nat) (h : byte < 256) :
    (byteDigits byte).foldl (fun acc c => 2 * acc + (if c = '1' then 1 else 0)) acc =
      256 * acc + byte := by
  simp only [byteDigits, List.map, List.foldl]
  rw [digit_value _ (Nat.mod_lt _ (by norm_num)), digit_value _ (Nat.mod_lt _ (by norm_num)),
    digit_value _ (Nat.mod_lt _ (by norm_num)), digit_value _ (Nat.mod_lt _ (by norm_num)),
    digit_value _ (Nat.mod_lt _ (by norm_num)), digit_value _ (Nat.mod_lt _ (by norm_num)),
    digit_value _ (Nat.mod_lt _ (by norm_num)), digit_value _ (Nat.mod_lt _ (by norm_num))]
  norm_num
  omega

theorem foldl_flatMap_byteDigits (g : Nat → Nat) (hg : ∀ i, g i < 256) (l : List Nat)
    (acc : Nat) :
    (l.flatMap fun i => byteDigits (g i)).foldl
        (fun acc c => 2 * acc + (if c = '1' then 1 else 0)) acc =
      l.foldl (fun acc i => 256 * acc + g i) acc := by
  induction l generalizing acc with
  | nil => rfl
  | cons x rest ih =>
    rw [List.flatMap_cons, List.foldl_append, foldl_byteDigits _ _ (hg x), ih]
    rfl

theorem foldl_bytes (nBytes value : Nat) (k : Nat) (hk : k ≤ nBytes)
    (hv : value < 2 ^ (8 * nBytes)) :
    (List.range k).foldl
        (fun acc i => 256 * acc + (value / 2 ^ (8 * (nBytes - 1 - i))) % 256) 0 =
      value / 2 ^ (8 * (nBytes - k)) := by
  induction k with
  | zero =>
    simp only [List.range_zero, List.foldl_nil, Nat.sub_zero]
    exact (Nat.div_eq_of_lt hv).symm
  | succ k ih =>
    rw [List.range_succ, List.foldl_append, ih (by omega)]
    simp only [List.foldl_cons, List.foldl_nil]
    have h1 : nBytes - k = (nBytes - 1 - k) + 1 := by omega
    have h2 : nBytes - (k + 1) = nBytes - 1 - k := by omega
    rw [h1, h2, Nat.mul_add, pow_add, ← Nat.div_div_eq_div_mul]
    norm_num
    omega

theorem valueDigits_value (nBytes value : Nat) (hv : value < 2 ^ (8 * nBytes)) :
    binaryValue (valueDigits nBytes value) = value := by
  unfold binaryValue valueDigits
  rw [foldl_flatMap_byteDigits (fun i => (value / 2 ^ (8 * (nBytes - 1 - i))) % 256)
    (fun i => Nat.mod_lt _ (by norm_num)), foldl_bytes nBytes value nBytes le_rfl hv]
  simp

theorem flatMap_byteDigits_length (g : Nat → Nat) (l : List Nat) :
    (l.flatMap fun i => byteDigits (g i)).length = 8 * l.length := by
  induction l with
  | nil => rfl
  | cons x rest ih =>
    rw [List.flatMap_cons, List.length_append, ih, byteDigits_length, List.length_cons]
    omega

theorem valueDigits_length (nBytes value : Nat) :
    (valueDigits nBytes value).length = 8 * nBytes := by
  unfold valueDigits
  rw [flatMap_byteDigits_length (fun i => (value / 2 ^ (8 * (nBytes - 1 - i))) % 256),
    List.length_range]

theorem valueDigits_binary (nBytes value : Nat) :
    ∀ c ∈ valueDigits nBytes value, c = '0' ∨ c = '1' := by
  intro c hc
  simp only [valueDigits, List.mem_flatMap] at hc
  obtain ⟨i, -, hi⟩ := hc
  exact byteDigits_binary _ c hi

/-- The loop that erases the leading zeroes works on the digits after the prefix. -/
theorem eraseLeadingZeroes_append (pre : List Char) :
    ∀ digits : List Char,
      eraseLeadingZeroes pre.length (pre ++ digits) = pre ++ stripZeroes digits
  | [] => by
    rw [eraseLeadingZeroes]
    simp [stripZeroes]
  | [c] => by
    rw [eraseLeadingZeroes]
    simp [stripZeroes]
  | c :: d :: rest => by
    rw [eraseLeadingZeroes]
    have hlen : pre.length < (pre ++ c :: d :: rest).length - 1 := by
      simp only [List.length_append, List.length_cons]
      omega
    have hget : (pre ++ c :: d :: rest)[pre.length]? = some c := by
      rw [List.getElem?_append_right (le_refl _)]
      simp
    by_cases hc : c = '0'
    · have herase : (pre ++ c :: d :: rest).eraseIdx pre.length = pre ++ d :: rest := by
        rw [List.eraseIdx_append_of_length_le (le_refl _)]
        simp
      rw [if_pos ⟨hlen, by rw [hget, hc]⟩, herase, eraseLeadingZeroes_append pre (d :: rest)]
      simp [stripZeroes, hc]
    · have : ¬ (pre.length < (pre ++ c :: d :: rest).length - 1 ∧
          (pre ++ c :: d :: rest)[pre.length]? = some '0') := by
        rintro ⟨-, h2⟩
        rw [hget] at h2
        injection h2 with h2
        exact hc h2
      rw [if_neg this]
      simp [stripZeroes, hc]

theorem stripZeroes_ne_nil : ∀ digits : List Char, digits ≠ [] → stripZeroes digits ≠ []
  | [], h => absurd rfl h
  | [c], _ => by simp [stripZeroes]
  | c :: d :: rest, _ => by
    rw [stripZeroes]
    split_ifs
    · exact stripZeroes_ne_nil (d :: rest) (by simp)
    · simp

theorem stripZeroes_subset : ∀ digits : List Char, ∀ c ∈ stripZeroes digits, c ∈ digits
  | [], c, h => by simp [stripZeroes] at h
  | [a], c, h => by simpa [stripZeroes] using h
  | a :: d :: rest, c, h => by
    rw [stripZeroes] at h
    split_ifs at h
    · exact List.mem_cons_of_mem _ (stripZeroes_subset (d :: rest) c h)
    · exact h

theorem stripZeroes_value : ∀ digits : List Char,
    binaryValue (stripZeroes digits) = binaryValue digits
  | [] => rfl
  | [c] => rfl
  | c :: d :: rest => by
    rw [stripZeroes]
    split_ifs with hc
    · rw [stripZeroes_value (d :: rest), hc]
      simp [binaryValue]
    · rfl

theorem stripZeroes_head : ∀ digits : List Char,
    (stripZeroes digits).head? = some '0' → stripZeroes digits = ['0']
  | [], h => by simp [stripZeroes] at h
  | [c], h => by
    simp only [stripZeroes, List.head?_cons, Option.some.injEq] at h
    simp [stripZeroes, h]
  | c :: d :: rest, h => by
    rw [stripZeroes] at h ⊢
    split_ifs at h ⊢ with hc
    · exact stripZeroes_head (d :: rest) h
    · simp only [List.head?_cons, Option.some.injEq] at h
      exact absurd h hc

theorem foldl_binary_pos (digits : List Char) (acc : Nat) (h : 0 < acc) :
    0 < digits.foldl (fun acc c => 2 * acc + (if c = '1' then 1 else 0)) acc := by
  induction digits generalizing acc with
  | nil => exact h
  | cons c rest ih => exact ih _ (by positivity)

theorem binaryValue_pos_of_head_one (rest : List Char) : 0 < binaryValue ('1' :: rest) := by
  unfold binaryValue
  rw [List.foldl_cons]
  exact foldl_binary_pos rest _ (by simp)

/-- Claim C27: for an unsigned integer type of `nBytes` bytes (width `8 * nBytes`), every
value `v` of it and every prefix `p`, `ToBinaryString(v, false, p)` returns `p` followed by
exactly `8 * nBytes` characters, each '0' or '1', that denote `v` with the most
significant bit first; `ToBinaryString(v, true, p)` returns `p`, untouched, followed by a
non-empty string of binary digits that denotes `v` and starts with '0' only if it is the
string "0", which it is when `v = 0`.  The assertion on the bits never fails, on a
little-endian and on a big-endian platform. -/
theorem ToBinaryString_digits (littleEndian : Bool) (nBytes value : Nat) (pre : List Char)
    (hn : 0 < nBytes) (hv : value < 2 ^ (8 * nBytes)) :
    (∃ digits : List Char,
      ToBinaryString littleEndian nBytes value false pre = .ok (pre ++ digits) ∧
      digits.length = 8 * nBytes ∧ (∀ c ∈ digits, c = '0' ∨ c = '1') ∧
      binaryValue digits = value) ∧
    (∃ digits : List Char,
      ToBinaryString littleEndian nBytes value true pre = .ok (pre ++ digits) ∧
      digits ≠ [] ∧ (∀ c ∈ digits, c = '0' ∨ c = '1') ∧ binaryValue digits = value ∧
      (digits.head? = some '0' → digits = ['0']) ∧ (value = 0 → digits = ['0'])) := by
  have hne : valueDigits nBytes value ≠ [] := by
    intro h0
    have := valueDigits_length nBytes value
    rw [h0] at this
    simp only [List.length_nil] at this
    omega
  have hbin : ∀ c ∈ stripZeroes (valueDigits nBytes value), c = '0' ∨ c = '1' := fun c hc =>
    valueDigits_binary nBytes value c (stripZeroes_subset _ c hc)
  have hval : binaryValue (stripZeroes (valueDigits nBytes value)) = value := by
    rw [stripZeroes_value, valueDigits_value nBytes value hv]
  refine ⟨⟨valueDigits nBytes value, ?_, valueDigits_length nBytes value,
      valueDigits_binary nBytes value, valueDigits_value nBytes value hv⟩,
    ⟨stripZeroes (valueDigits nBytes value), ?_, stripZeroes_ne_nil _ hne, hbin, hval,
      stripZeroes_head _, ?_⟩⟩
  · simp only [ToBinaryString, appendBytes_eq]
    rfl
  · simp only [ToBinaryString, appendBytes_eq]
    rw [← eraseLeadingZeroes_append]
    rfl
  · intro h0
    apply stripZeroes_head
    cases hs : stripZeroes (valueDigits nBytes value) with
    | nil => exact absurd hs (stripZeroes_ne_nil _ hne)
    | cons c rest =>
      rcases hbin c (by rw [hs]; exact List.mem_cons_self _ _) with hc | hc
      · rw [hc]; rfl
      · exfalso
        have hpos := binaryValue_pos_of_head_one rest
        rw [← hc, ← hs, hval, h0] at hpos
        exact lt_irrefl _ hpos

/-- An instance: the 8-bit value 5 after the prefix "0", on a little-endian platform. -/
theorem ToBinaryString_digits_witness :
    (∃ digits : List Char,
      ToBinaryString true 1 5 false ['0'] = .ok (['0'] ++ digits) ∧
      digits.length = 8 * 1 ∧ (∀ c ∈ digits, c = '0' ∨ c = '1') ∧
      binaryValue digits = 5) ∧
    (∃ digits : List Char,
      ToBinaryString true 1 5 true ['0'] = .ok (['0'] ++ digits) ∧
      digits ≠ [] ∧ (∀ c ∈ digits, c = '0' ∨ c = '1') ∧ binaryValue digits = 5 ∧
      (digits.head? = some '0' → digits = ['0']) ∧ (5 = 0 → digits = ['0'])) :=
  ToBinaryString_digits true 1 5 ['0'] (by decide) (by decide)

end Strings

/-! ## Shader builds -/

/-- The two-stage overload returns the null handle exactly when `TryCompile` gives a
message for a stage or the link fails, and a message of `TryCompile` is written to
`outErrMsg` after the name of its stage. -/
theorem Compile_result (d : ShaderDriver) (vertShader fragShader outErrMsg : String)
    (hp : d.programObj ≠ ShaderProgram_Null) :
    ((Compile d vertShader fragShader outErrMsg).handle = ShaderProgram_Null ↔
      (0 < (TryCompile d.vert).length ∨ 0 < (TryCompile d.frag).length ∨
        d.link.status = false)) ∧
    (0 < (TryCompile d.vert).length →
      (Compile d vertShader fragShader outErrMsg).outErrMsg =
        "Error compiling vertex shader: " ++ TryCompile d.vert) ∧
    (¬ 0 < (TryCompile d.vert).length → 0 < (TryCompile d.frag).length →
      (Compile d vertShader fragShader outErrMsg).outErrMsg =
        "Error compiling fragment shader: " ++ TryCompile d.frag) ∧
    (¬ 0 < (TryCompile d.vert).length → ¬ 0 < (TryCompile d.frag).length →
      (Compile d vertShader fragShader outErrMsg).outErrMsg = outErrMsg ∧
      (d.link.status = true → (Compile d vertShader fragShader outErrMsg).handle = d.programObj)) := by
  by_cases hv : 0 < (TryCompile d.vert).length
  · simp [Compile, hv]
  · by_cases hf : 0 < (TryCompile d.frag).length
    · simp [Compile, hv, hf]
    · cases hl : d.link.status <;> simp [Compile, hv, hf, hl, hp]

/-- The three-stage overload, in the same way. -/
theorem Compile3_result (d : ShaderDriver) (vertShader geomShader fragShader outErrMsg : String)
    (hp : d.programObj ≠ ShaderProgram_Null) :
    ((Compile3 d vertShader geomShader fragShader outErrMsg).handle = ShaderProgram_Null ↔
      (0 < (TryCompile d.vert).length ∨ 0 < (TryCompile d.geom).length ∨
        0 < (TryCompile d.frag).length ∨ d.link.status = false)) ∧
    (0 < (TryCompile d.vert).length →
      (Compile3 d vertShader geomShader fragShader outErrMsg).outErrMsg =
        "Error compiling vertex shader: " ++ TryCompile d.vert) ∧
    (¬ 0 < (TryCompile d.vert).length → 0 < (TryCompile d.geom).length →
      (Compile3 d vertShader geomShader fragShader outErrMsg).outErrMsg =
        "Error compiling geometry shader: " ++ TryCompile d.geom) ∧
    (¬ 0 < (TryCompile d.vert).length → ¬ 0 < (TryCompile d.geom).length →
      0 < (TryCompile d.frag).length →
      (Compile3 d vertShader geomShader fragShader outErrMsg).outErrMsg =
        "Error compiling fragment shader: " ++ TryCompile d.frag) ∧
    (¬ 0 < (TryCompile d.vert).length → ¬ 0 < (TryCompile d.geom).length →
      ¬ 0 < (TryCompile d.frag).length →
      (Compile3 d vertShader geomShader fragShader outErrMsg).outErrMsg = outErrMsg ∧
      (d.link.status = true →
        (Compile3 d vertShader geomShader fragShader outErrMsg).handle = d.programObj)) := by
  by_cases hv : 0 < (TryCompile d.vert).length
  · simp [Compile3, hv]
  · by_cases hg : 0 < (TryCompile d.geom).length
    · simp [Compile3, hv, hg]
    · by_cases hf : 0 < (TryCompile d.frag).length
      · simp [Compile3, hv, hg, hf]
      · cases hl : d.link.status <;> simp [Compile3, hv, hg, hf, hl, hp]

/-- Claim C23 fails when the link fails: every stage compiles, the driver reports the
link failed, and both overloads of `Compile` return the null handle with `outErrMsg`
still the empty string it was on entry, because the message is assigned to the local
variable `errorMsg`. -/
theorem Compile_link_failure_sets_no_message :
    exampleLinkFailure.link.status = false ∧
    (Compile exampleLinkFailure "vert" "frag" "").handle = ShaderProgram_Null ∧
    (Compile exampleLinkFailure "vert" "frag" "").outErrMsg = "" ∧
    (Compile3 exampleLinkFailure "vert" "geom" "frag" "").handle = ShaderProgram_Null ∧
    (Compile3 exampleLinkFailure "vert" "geom" "frag" "").outErrMsg = "" := by
  decide

/-! ## Contexts and moved targets -/

/-- A callback leaves the thread-local data of `Context.cpp` as it is. -/
theorem Callback.run_contextThreadData (cb : Callback) (currentProgram : GLint)
    (tl : ThreadLocal) :
    (cb.run currentProgram tl).2.thread.contextThreadData = tl.thread.contextThreadData := by
  cases cb <;> simp only [Callback.run] <;> split_ifs <;> rfl

theorem runCallbacks_contextThreadData (currentProgram : GLint) (l : List Callback) :
    ∀ tl : ThreadLocal,
      (runCallbacks currentProgram l tl).2.thread.contextThreadData =
        tl.thread.contextThreadData := by
  induction l with
  | nil => intro tl; rfl
  | cons cb rest ih =>
    intro tl
    have h := Callback.run_contextThreadData cb currentProgram tl
    simp only [runCallbacks]
    cases hr : cb.run currentProgram tl with
    | mk r tl1 =>
      rw [hr] at h
      cases r with
      | error e => exact h
      | ok u =>
        simp only
        rw [ih tl1]
        exact h

/-- Claim C21: when a context is current on the thread, the constructor of a second
`Context` returns with a non-empty error message and without any call to the windowing
library, to GLEW or to the driver; the second object is not initialised, the
thread-local data are untouched and `GetCurrentContext()` is still the first context;
the destructor of the second object then makes no windowing call either and leaves
`GetCurrentContext()` the first context. -/
theorem second_context_is_rejected (thisAddr first : Nat) (cache : Context) (_owner : Nat)
    (errMsg : String) (wd : WindowDriver) (major minor : Int) (currentProgram : GLint)
    (d : Driver) (tl : ThreadLocal) (h : GetCurrentContext tl = some first) :
    ((ContextObject.raw cache).construct thisAddr _owner errMsg wd major minor currentProgram
        d tl).errMsg ≠ "" ∧
    ((ContextObject.raw cache).construct thisAddr _owner errMsg wd major minor currentProgram
        d tl).windowCalls = [] ∧
    ((ContextObject.raw cache).construct thisAddr _owner errMsg wd major minor currentProgram
        d tl).glCalls = [] ∧
    ((ContextObject.raw cache).construct thisAddr _owner errMsg wd major minor currentProgram
        d tl).failure = none ∧
    ((ContextObject.raw cache).construct thisAddr _owner errMsg wd major minor currentProgram
        d tl).object.isInitialized = false ∧
    ((ContextObject.raw cache).construct thisAddr _owner errMsg wd major minor currentProgram
        d tl).tl = tl ∧
    GetCurrentContext ((ContextObject.raw cache).construct thisAddr _owner errMsg wd major
        minor currentProgram d tl).tl = some first ∧
    (((ContextObject.raw cache).construct thisAddr _owner errMsg wd major minor currentProgram
        d tl).object.destroy thisAddr currentProgram d tl).windowCalls = [] ∧
    GetCurrentContext (((ContextObject.raw cache).construct thisAddr _owner errMsg wd major
        minor currentProgram d tl).object.destroy thisAddr currentProgram d tl).tl =
      some first := by
  have hi : tl.thread.contextThreadData.Instance = some first := h
  have hne : tl.thread.contextThreadData.Instance ≠ none := by rw [hi]; simp
  have hobj : ((ContextObject.raw cache).construct thisAddr _owner errMsg wd major minor
      currentProgram d tl).object = { ContextObject.raw cache with owner := _owner } := by
    simp only [ContextObject.construct, if_pos hne]
    split_ifs <;> rfl
  refine ⟨?_, ?_, ?_, ?_, ?_, ?_, ?_, ?_, ?_⟩
  · simp only [ContextObject.construct, if_pos hne]
    split_ifs
    · show "This context has already been constructed!" ≠ ""
      decide
    · show "A context already exists on this thread that hasn't been cleaned up." ≠ ""
      decide
  · simp only [ContextObject.construct, if_pos hne]
    split_ifs <;> rfl
  · simp only [ContextObject.construct, if_pos hne]
    split_ifs <;> rfl
  · simp only [ContextObject.construct, if_pos hne]
    split_ifs <;> rfl
  · rw [hobj]; rfl
  · simp only [ContextObject.construct, if_pos hne]
    split_ifs <;> rfl
  · simp only [ContextObject.construct, if_pos hne]
    split_ifs <;> exact h
  · rw [hobj]
    simp [ContextObject.destroy, ContextObject.raw]
  · rw [hobj]
    simp only [ContextObject.destroy, ContextObject.raw, Bool.false_eq_true, if_false,
      GetCurrentContext]
    rw [runCallbacks_contextThreadData]
    exact hi

/-- An instance: a second context at address 2000 on the example thread, whose current
context is the object at address 1000. -/
theorem second_context_is_rejected_witness :
    ((ContextObject.raw exampleContext).construct 2000 7 ""
        { setMajor := none, setMinor := none, createContext := .ok 1, glew := none } 4 5 0
        (exampleDriver { x := 0, y := 0, z := 0, w := 0 }) exampleThreadLocal).errMsg =
      "A context already exists on this thread that hasn't been cleaned up." ∧
    GetCurrentContext ((ContextObject.raw exampleContext).construct 2000 7 ""
        { setMajor := none, setMinor := none, createContext := .ok 1, glew := none } 4 5 0
        (exampleDriver { x := 0, y := 0, z := 0, w := 0 }) exampleThreadLocal).tl =
      some 1000 :=
  ⟨rfl, (second_context_is_rejected 2000 1000 exampleContext 7 ""
    { setMajor := none, setMinor := none, createContext := .ok 1, glew := none } 4 5 0
    (exampleDriver { x := 0, y := 0, z := 0, w := 0 }) exampleThreadLocal rfl).2.2.2.2.2.2.1⟩

/-- Claim C29 fails: the registry is empty before the first target is constructed with the
framebuffer 3; moving it into a second target creates the framebuffer 4 in the delegated
constructor; after both objects are destroyed the registry holds an entry for the
framebuffer 4, two framebuffers have been created and one deleted, and the destroy
callback of the target registry fails its leak assertion. -/
theorem move_leaves_registry_entry :
    exampleThread.threadData.targetsByOglPtr = [] ∧
    exampleSecond.thread.threadData.targetsByOglPtr = [(3, 100)] ∧
    (exampleMoved.2.thread.threadData.targetsByOglPtr = [(3, 200), (4, 200)] ∧
      exampleMoved.2.this.glPtr = 3) ∧
    exampleBothDestroyed.thread.threadData.targetsByOglPtr = [(4, 200)] ∧
    exampleBothDestroyed.emitted.filter
        (fun call => match call with | .glCreateFramebuffers _ => true | _ => false) =
      [GLCall.glCreateFramebuffers 3, GLCall.glCreateFramebuffers 4] ∧
    exampleBothDestroyed.emitted.filter
        (fun call => match call with | .glDeleteFramebuffers _ => true | _ => false) =
      [GLCall.glDeleteFramebuffers 3] ∧
    (Callback.TargetDestroyed.run 0
        { exampleThreadLocal with thread := exampleBothDestroyed.thread }).1 =
      .error "Target memory leaks!" :=
  ⟨rfl, rfl, ⟨rfl, rfl⟩, rfl, rfl, rfl, rfl⟩

/-! ## Leak detection -/

namespace TargetM

/-- A step that keeps the thread-local data and the handle of the target. -/
theorem Triple.bind_registered {α β : Type} {thread : Thread} {fb : GLuint} {m : TargetM α}
    {f : α → TargetM β} {Q : β → World → Prop}
    (hm : ∀ w a w1, m.run w = (.ok a, w1) →
      w1.thread = w.thread ∧ w1.this.glPtr = w.this.glPtr)
    (h2 : ∀ a, Triple (World.Registered thread fb) (f a) Q) :
    Triple (World.Registered thread fb) (m >>= f) Q :=
  Triple.bind (fun _ => World.Registered thread fb)
    (fun w hw a w1 hrun => ⟨(hm w a w1 hrun).1.trans hw.1, (hm w a w1 hrun).2.trans hw.2⟩) h2

theorem Triple.of_registered {α : Type} {thread : Thread} {fb : GLuint} {m : TargetM α}
    (hm : ∀ w a w1, m.run w = (.ok a, w1) →
      w1.thread = w.thread ∧ w1.this.glPtr = w.this.glPtr) :
    Triple (World.Registered thread fb) m (fun _ => World.Registered thread fb) :=
  fun w hw a w1 hrun => ⟨(hm w a w1 hrun).1.trans hw.1, (hm w a w1 hrun).2.trans hw.2⟩

/-- The statements `this = getThis; setThis (g this)` for an update `g` of fields other
than the handle. -/
theorem Triple.update_registered {β : Type} {thread : Thread} {fb : GLuint}
    {f : Target → TargetM β} {Q : β → World → Prop}
    (h : ∀ t, t.glPtr = fb →
      Triple (fun w => w.thread = thread ∧ w.this = t) (f t) Q) :
    Triple (World.Registered thread fb) (getThis >>= f) Q := by
  intro w hw b w2 hrun
  rw [TargetM.run_bind, TargetM.run_getThis] at hrun
  exact h w.this hw.2 w ⟨hw.1, rfl⟩ b w2 hrun

theorem Triple.setThis_registered {β : Type} {thread : Thread} {fb : GLuint} {P : World → Prop}
    (t : Target) {f : Unit → TargetM β} {Q : β → World → Prop}
    (hp : ∀ w, P w → w.thread = thread) (ht : t.glPtr = fb)
    (h : Triple (World.Registered thread fb) (f ()) Q) :
    Triple P (setThis t >>= f) Q := by
  intro w hw b w2 hrun
  rw [TargetM.run_bind, TargetM.run_setThis] at hrun
  exact h { w with this := t } ⟨hp w hw, ht⟩ b w2 hrun

end TargetM

theorem AttachTexture_registered (attachment : GLenum) (o : TargetOutput) (w : World) (a : Unit)
    (w1 : World) (h : (Target.AttachTexture attachment o).run w = (.ok a, w1)) :
    w1.thread = w.thread ∧ w1.this.glPtr = w.this.glPtr := by
  rw [AttachTexture_run] at h
  split_ifs at h
  · cases h
  · cases h; exact ⟨rfl, rfl⟩

theorem pushColor_registered (o : TargetOutput) (w : World) (a : Unit) (w1 : World)
    (h : (Target.pushColor o).run w = (.ok a, w1)) :
    w1.thread = w.thread ∧ w1.this.glPtr = w.this.glPtr := by
  rw [pushColor_run] at h
  have h2 := congrArg Prod.snd h
  simp only at h2
  rw [← h2]
  exact ⟨rfl, rfl⟩

theorem recordDepthStencil_registered (format : DepthStencilFormats) (o : TargetOutput)
    (w : World) (a : Unit) (w1 : World)
    (h : (Target.recordDepthStencil format o).run w = (.ok a, w1)) :
    w1.thread = w.thread ∧ w1.this.glPtr = w.this.glPtr := by
  rw [recordDepthStencil_run] at h
  have h2 := congrArg Prod.snd h
  simp only at h2
  rw [← h2]
  exact ⟨rfl, rfl⟩

theorem SetDrawBuffers_registered (attachments : List (Option Nat)) (w : World) (a : Unit)
    (w1 : World) (h : (Target.SetDrawBuffers attachments).run w = (.ok a, w1)) :
    w1.thread = w.thread ∧ w1.this.glPtr = w.this.glPtr := by
  rw [SetDrawBuffers_run] at h
  have h2 := congrArg Prod.snd h
  simp only at h2
  rw [← h2]
  exact ⟨rfl, rfl⟩

theorem GetStatusM_registered (native : Target → GLenum) (w : World) (a : TargetStates)
    (w1 : World) (h : (Target.GetStatusM native).run w = (.ok a, w1)) :
    w1.thread = w.thread ∧ w1.this.glPtr = w.this.glPtr := by
  rw [GetStatusM_run] at h
  have h2 : w = w1 := congrArg Prod.snd h
  subst h2
  exact ⟨rfl, rfl⟩

theorem AttachBuffer_registered (rb : GLuint) (format : DepthStencilFormats) (w : World)
    (a : Unit) (w1 : World) (h : (Target.AttachBuffer rb format).run w = (.ok a, w1)) :
    w1.thread = w.thread ∧ w1.this.glPtr = w.this.glPtr := by
  cases hs : w.this.tex_stencil with
  | some s =>
    rw [AttachBuffer_stencil w rb format s hs] at h
    cases h
  | none =>
    rw [AttachBuffer_run w rb format hs] at h
    simp only at h
    split_ifs at h
    · have h2 := congrArg Prod.snd h
      simp only at h2
      rw [← h2]
      exact ⟨rfl, rfl⟩
    · have h2 := congrArg Prod.snd h
      simp only at h2
      rw [← h2]
      exact ⟨rfl, rfl⟩
    · cases h

theorem attachColors_registered (thread : Thread) (fb : GLuint) (outs : List TargetOutput) :
    ∀ i : Nat, Triple (World.Registered thread fb) (Target.attachColors outs i)
      (fun _ => World.Registered thread fb) := by
  induction outs with
  | nil =>
    intro i w hw a w1 hrun
    have h2 : w = w1 := congrArg Prod.snd hrun
    subst h2
    exact hw
  | cons o rest ih =>
    intro i
    unfold Target.attachColors
    refine Triple.bind_registered (AttachTexture_registered _ _) fun _ => ?_
    refine Triple.bind_registered (pushColor_registered _) fun _ => ?_
    exact ih (i + 1)

/-- The delegated constructor registers the new object under its framebuffer. -/
theorem construct_registered (native : Target → GLenum) (fb : GLuint) (thisAddr : Nat)
    (size : UVec2) (nLayers : Nat) (thread : Thread) :
    Triple (fun w => w.thread = thread) (Target.construct native fb thisAddr size nLayers)
      (fun _ => World.Registered (thread.registered fb thisAddr) fb) := by
  intro w hw a w1 hrun
  rw [construct_run] at hrun
  split_ifs at hrun
  · cases hrun
  · cases hrun
  · have h2 := congrArg Prod.snd hrun
    simp only at h2
    rw [← h2]
    exact ⟨by rw [← hw], rfl⟩

/-- Every constructor of a target that returns has registered the new object under the
framebuffer that the driver created, which is the handle of the object. -/
theorem TargetConstructor.program_registered (c : TargetConstructor)
    (native : Target → GLenum) (fb : GLuint) (thisAddr : Nat) (thread : Thread) :
    Triple (fun w => w.thread = thread) (c.program native fb thisAddr)
      (fun _ => World.Registered (thread.registered fb thisAddr) fb) := by
  cases c with
  | sized size nLayers => exact construct_registered native fb thisAddr size nLayers thread
  | managed colorPtr depthPtr rb size colorFormat depthFormat depthIsRenderBuffer =>
    simp only [TargetConstructor.program]
    unfold Target.constructManaged
    refine Triple.bind _ (construct_registered native fb thisAddr size 1 thread) fun _ => ?_
    refine Triple.update_registered fun t ht => ?_
    refine Triple.setThis_registered _ (fun w hw => hw.1) ht ?_
    refine Triple.bind_registered (pushColor_registered _) fun _ => ?_
    refine Triple.bind_registered (AttachTexture_registered _ _) fun _ => ?_
    cases depthIsRenderBuffer with
    | true =>
      refine Triple.bind_registered (AttachBuffer_registered _ _) fun _ => ?_
      exact Triple.of_registered (GetStatusM_registered native)
    | false =>
      refine Triple.update_registered fun t ht => ?_
      refine Triple.setThis_registered _ (fun w hw => hw.1) ht ?_
      refine Triple.liftExcept_bind fun _ _ => ?_
      refine Triple.liftExcept_bind fun _ _ => ?_
      refine Triple.bind_registered (AttachTexture_registered _ _) fun _ => ?_
      refine Triple.bind_registered (recordDepthStencil_registered _ _) fun _ => ?_
      exact Triple.of_registered (GetStatusM_registered native)
  | colorDepth color depthStencil =>
    simp only [TargetConstructor.program]
    unfold Target.constructColorDepth Target.constructColorDepthBody
    refine Triple.liftExcept_bind fun _ _ => ?_
    refine Triple.liftExcept_bind fun _ _ => ?_
    refine Triple.liftExcept_bind fun _ _ => ?_
    refine Triple.liftExcept_bind fun _ _ => ?_
    refine Triple.bind _ (construct_registered native fb thisAddr _ _ thread) fun _ => ?_
    refine Triple.liftExcept_bind fun _ _ => ?_
    refine Triple.liftExcept_bind fun _ _ => ?_
    refine Triple.assert_bind fun _ => ?_
    refine Triple.liftExcept_bind fun _ _ => ?_
    refine Triple.assert_bind fun _ => ?_
    refine Triple.bind_registered (AttachTexture_registered _ _) fun _ => ?_
    refine Triple.bind_registered (pushColor_registered _) fun _ => ?_
    refine Triple.liftExcept_bind fun _ _ => ?_
    refine Triple.liftExcept_bind fun _ _ => ?_
    refine Triple.liftExcept_bind fun _ _ => ?_
    refine Triple.bind_registered (AttachTexture_registered _ _) fun _ => ?_
    refine Triple.bind_registered (recordDepthStencil_registered _ _) fun _ => ?_
    exact Triple.of_registered (GetStatusM_registered native)
  | colorBuffer rb color depthFormat =>
    simp only [TargetConstructor.program]
    unfold Target.constructColorBuffer
    refine Triple.liftExcept_bind fun _ _ => ?_
    refine Triple.liftExcept_bind fun _ _ => ?_
    refine Triple.bind _ (construct_registered native fb thisAddr _ _ thread) fun _ => ?_
    refine Triple.bind_registered (AttachTexture_registered _ _) fun _ => ?_
    refine Triple.bind_registered (pushColor_registered _) fun _ => ?_
    refine Triple.bind_registered (AttachBuffer_registered _ _) fun _ => ?_
    exact Triple.of_registered (GetStatusM_registered native)
  | outputs rb colorOutputs depthOutput =>
    simp only [TargetConstructor.program]
    unfold Target.constructOutputs Target.constructOutputsBody
    refine Triple.liftExcept_bind fun _ _ => ?_
    refine Triple.liftExcept_bind fun _ _ => ?_
    refine Triple.bind _ (construct_registered native fb thisAddr _ _ thread) fun _ => ?_
    refine Triple.bind _ (attachColors_registered _ _ _ _) fun _ => ?_
    refine Triple.bind_registered (SetDrawBuffers_registered _) fun _ => ?_
    cases depthOutput with
    | none =>
      refine Triple.bind_registered (AttachBuffer_registered _ _) fun _ => ?_
      exact Triple.of_registered (GetStatusM_registered native)
    | some depth =>
      refine Triple.liftExcept_bind fun _ _ => ?_
      refine Triple.assert_bind fun _ => ?_
      refine Triple.liftExcept_bind fun _ _ => ?_
      refine Triple.liftExcept_bind fun _ _ => ?_
      refine Triple.bind_registered (AttachTexture_registered _ _) fun _ => ?_
      refine Triple.bind_registered (recordDepthStencil_registered _ _) fun _ => ?_
      exact Triple.of_registered (GetStatusM_registered native)

theorem HandleMap.find_erase_isSome (m : List (GLuint × Nat)) (key other : GLuint)
    (hne : other ≠ key) (h : (HandleMap.find m other).isSome = true) :
    (HandleMap.find (HandleMap.erase m key) other).isSome = true := by
  rw [HandleMap.find_isSome_iff] at h ⊢
  obtain ⟨e, he, hk⟩ := h
  refine ⟨e, ?_, hk⟩
  unfold HandleMap.erase
  rw [List.mem_filter]
  exact ⟨he, by simp [hk, hne]⟩

theorem HandleMap.find_assign_self (m : List (GLuint × Nat)) (key : GLuint) (value : Nat) :
    (HandleMap.find (HandleMap.assign m key value) key).isSome = true := by
  rw [HandleMap.find_isSome_iff]
  unfold HandleMap.assign
  split_ifs with h
  · rw [HandleMap.find_isSome_iff] at h
    obtain ⟨e, he, hk⟩ := h
    exact ⟨(key, value), List.mem_map.mpr ⟨e, he, by simp [hk]⟩, rfl⟩
  · exact ⟨(key, value), by simp, rfl⟩

/-- The destructor of a target. -/
theorem destroy_run (w : World) :
    Target.destroy.run w =
      if w.this.glPtr ≠ 0 then
        (.ok (), { this := { w.this with depthBuffer := none }
                   thread := { w.thread with
                     threadData := { w.thread.threadData with
                       targetsByOglPtr :=
                         HandleMap.erase w.thread.threadData.targetsByOglPtr w.this.glPtr } }
                   emitted := w.emitted ++ [GLCall.glDeleteFramebuffers w.this.glPtr] })
      else (.ok (), { w with this := { w.this with depthBuffer := none } }) := by
  by_cases h : w.this.glPtr = 0
  · simp [Target.destroy, TargetM.run_bind, TargetM.run_getThis, TargetM.run_setThis, h,
      TargetM.run_pure]
  · simp [Target.destroy, TargetM.run_bind, TargetM.run_getThis, TargetM.run_setThis, h,
      TargetM.run_getThread, TargetM.run_setThread, TargetM.run_emit]

theorem CheckInit_destroyCallbacks (thread : Thread) :
    (CheckInit thread).contextThreadData.DestroyCallbacks =
      if thread.threadData.initializedYet then thread.contextThreadData.DestroyCallbacks
      else thread.contextThreadData.DestroyCallbacks ++ [Callback.TargetDestroyed] := by
  unfold CheckInit
  cases thread.threadData.initializedYet <;> simp

theorem registered_targets (thread : Thread) (fb : GLuint) (thisAddr : Nat) :
    (thread.registered fb thisAddr).threadData.targetsByOglPtr =
      HandleMap.assign thread.threadData.targetsByOglPtr fb thisAddr := by
  simp only [Thread.registered, CheckInit_targets]

theorem registered_destroyCallbacks (thread : Thread) (fb : GLuint) (thisAddr : Nat) :
    (thread.registered fb thisAddr).contextThreadData.DestroyCallbacks =
      if thread.threadData.initializedYet then thread.contextThreadData.DestroyCallbacks
      else thread.contextThreadData.DestroyCallbacks ++ [Callback.TargetDestroyed] := by
  simp only [Thread.registered, CheckInit_destroyCallbacks]

theorem registered_initializedYet (thread : Thread) (fb : GLuint) (thisAddr : Nat) :
    (thread.registered fb thisAddr).threadData.initializedYet = true := by
  simp only [Thread.registered, CheckInit]
  cases h : thread.threadData.initializedYet <;> simp [h]

/-- What a constructor of `CompiledShader` that returns has done. -/
theorem CompiledShader.construct_ok (thisAddr : Nat) (handle : GLuint)
    (uniformNames : List String) (currentProgram : GLint) (uniformLocation : String → GLint)
    (tl : ThreadLocal) (shader : CompiledShader) (uniformPtrs : List (String × GLint))
    (tl1 : ThreadLocal)
    (h : CompiledShader.construct thisAddr handle uniformNames currentProgram uniformLocation
      tl = (.ok (shader, uniformPtrs), tl1)) :
    shader.programHandle = handle ∧
    (HandleMap.find tl.shaderData.shadersByHandle handle).isSome = false ∧
    tl1.shaderData.shadersByHandle =
      HandleMap.assign tl.shaderData.shadersByHandle handle thisAddr ∧
    tl1.shaderData.initializedYet = true ∧
    tl1.thread.threadData = tl.thread.threadData ∧
    tl1.thread.contextThreadData.DestroyCallbacks =
      (if tl.shaderData.initializedYet then tl.thread.contextThreadData.DestroyCallbacks
       else tl.thread.contextThreadData.DestroyCallbacks ++ [Callback.ShaderDestroyed]) := by
  unfold CompiledShader.construct at h
  cases hi : tl.shaderData.initializedYet with
  | true =>
    simp only [hi, not_true_eq_false, if_false] at h
    split_ifs at h with hf
    · cases h
    · cases h
      refine ⟨rfl, by simpa using hf, rfl, rfl, rfl, by simp⟩
  | false =>
    simp only [hi, Bool.false_eq_true, not_false_eq_true, if_true, Callback.run] at h
    split_ifs at h with hf
    · cases h
    · cases h
      refine ⟨rfl, by simpa using hf, rfl, rfl, rfl, by simp⟩

/-- Two entries of a list whose images under `f` are pairwise different are equal when
their images are. -/
theorem eq_of_nodup_map {α β : Type} (f : α → β) (l : List α) (h : (l.map f).Nodup)
    (a b : α) (ha : a ∈ l) (hb : b ∈ l) (hab : f a = f b) : a = b :=
  List.inj_on_of_nodup_map h ha hb hab

/-- Constructing and destroying targets and shaders keeps the bookkeeping of the
registries sound. -/
theorem Lifetime.Reachable.sound {s : Lifetime} (h : s.Reachable) : s.Sound := by
  induction h with
  | start contextThreadData =>
    exact
      { targetEntry := fun p hp => by cases hp
        targetHandles := List.nodup_nil
        targetCallback := fun h => by rcases h with h | h <;> simp at h
        shaderEntry := fun p hp => by cases hp
        shaderHandles := List.nodup_nil
        shaderCallback := fun h => by rcases h with h | h <;> simp at h }
  | constructTarget s c native fb thisAddr emitted status w1 _ hfb hfresh hrun ih =>
    obtain ⟨hthread, hptr⟩ := TargetConstructor.program_registered c native fb thisAddr
      s.tl.thread { this := Target.raw, thread := s.tl.thread, emitted := emitted } rfl
      status w1 hrun
    have hcb : ∀ cb, cb ∈ s.tl.thread.contextThreadData.DestroyCallbacks →
        cb ∈ w1.thread.contextThreadData.DestroyCallbacks := by
      intro cb hcb
      rw [hthread, registered_destroyCallbacks]
      split_ifs
      · exact hcb
      · exact List.mem_append_left _ hcb
    refine
      { targetEntry := ?_, targetHandles := ?_, targetCallback := ?_,
        shaderEntry := ih.shaderEntry, shaderHandles := ih.shaderHandles,
        shaderCallback := fun h => hcb _ (ih.shaderCallback h) }
    · intro p hp
      simp only [List.mem_cons] at hp
      show p.2.glPtr ≠ 0 ∧ (HandleMap.find w1.thread.threadData.targetsByOglPtr p.2.glPtr).isSome
      rw [hthread, registered_targets]
      rcases hp with rfl | hp
      · simp only [hptr]
        exact ⟨hfb, HandleMap.find_assign_self _ _ _⟩
      · exact ⟨(ih.targetEntry p hp).1,
          HandleMap.find_assign_isSome _ _ _ _ (ih.targetEntry p hp).2⟩
    · show ((thisAddr, w1.this) :: s.targets).map (fun p => p.2.glPtr) |>.Nodup
      rw [List.map_cons, List.nodup_cons]
      refine ⟨?_, ih.targetHandles⟩
      intro hmem
      obtain ⟨p, hp, hpeq⟩ := List.mem_map.mp hmem
      have := (ih.targetEntry p hp).2
      simp only [hptr] at hpeq
      rw [hpeq, hfresh] at this
      cases this
    · intro _
      show Callback.TargetDestroyed ∈ w1.thread.contextThreadData.DestroyCallbacks
      rw [hthread, registered_destroyCallbacks]
      split_ifs with hi
      · exact ih.targetCallback (Or.inl hi)
      · exact List.mem_append_right _ (List.mem_singleton_self _)
  | destroyTarget s thisAddr t emitted w1 _ hmem hrun ih =>
    have hne : t.glPtr ≠ 0 := (ih.targetEntry _ hmem).1
    rw [destroy_run] at hrun
    simp only [if_pos hne] at hrun
    have hw : w1.thread = { s.tl.thread with
        threadData := { s.tl.thread.threadData with
          targetsByOglPtr :=
            HandleMap.erase s.tl.thread.threadData.targetsByOglPtr t.glPtr } } := by
      have h2 := congrArg Prod.snd hrun
      simp only at h2
      rw [← h2]
    have hnodup : s.targets.Nodup := List.Nodup.of_map _ ih.targetHandles
    refine
      { targetEntry := ?_, targetHandles := ?_, targetCallback := ?_,
        shaderEntry := ih.shaderEntry, shaderHandles := ih.shaderHandles,
        shaderCallback := fun h => by
          show Callback.ShaderDestroyed ∈ w1.thread.contextThreadData.DestroyCallbacks
          rw [hw]
          exact ih.shaderCallback h }
    · intro p hp
      have hp2 : p ≠ (thisAddr, t) ∧ p ∈ s.targets := (List.Nodup.mem_erase_iff hnodup).mp hp
      show p.2.glPtr ≠ 0 ∧ (HandleMap.find w1.thread.threadData.targetsByOglPtr p.2.glPtr).isSome
      rw [hw]
      refine ⟨(ih.targetEntry p hp2.2).1, HandleMap.find_erase_isSome _ _ _ ?_
        (ih.targetEntry p hp2.2).2⟩
      intro heq
      exact hp2.1 (eq_of_nodup_map (fun p => p.2.glPtr) s.targets ih.targetHandles p
        (thisAddr, t) hp2.2 hmem heq)
    · exact List.Nodup.sublist ((List.erase_sublist _ _).map _) ih.targetHandles
    · intro _
      show Callback.TargetDestroyed ∈ w1.thread.contextThreadData.DestroyCallbacks
      rw [hw]
      exact ih.targetCallback (Or.inr (List.ne_nil_of_mem hmem))
  | constructShader s thisAddr handle uniformNames currentProgram uniformLocation shader
      uniformPtrs tl1 _ hrun ih =>
    obtain ⟨hh, hfree, hreg, hinit, htd, hcbs⟩ :=
      CompiledShader.construct_ok thisAddr handle uniformNames currentProgram uniformLocation
        s.tl shader uniformPtrs tl1 hrun
    have hcb : ∀ cb, cb ∈ s.tl.thread.contextThreadData.DestroyCallbacks →
        cb ∈ tl1.thread.contextThreadData.DestroyCallbacks := by
      intro cb hcb
      rw [hcbs]
      split_ifs
      · exact hcb
      · exact List.mem_append_left _ hcb
    refine
      { targetEntry := ?_, targetHandles := ih.targetHandles, targetCallback := ?_,
        shaderEntry := ?_, shaderHandles := ?_, shaderCallback := ?_ }
    · intro p hp
      show p.2.glPtr ≠ 0 ∧ (HandleMap.find tl1.thread.threadData.targetsByOglPtr p.2.glPtr).isSome
      rw [htd]
      exact ih.targetEntry p hp
    · intro h
      show Callback.TargetDestroyed ∈ tl1.thread.contextThreadData.DestroyCallbacks
      apply hcb
      apply ih.targetCallback
      rcases h with h | h
      · left
        have : tl1.thread.threadData.initializedYet = true := h
        rw [htd] at this
        exact this
      · exact Or.inr h
    · intro p hp
      simp only [List.mem_cons] at hp
      show (HandleMap.find tl1.shaderData.shadersByHandle p.2.programHandle).isSome
      rw [hreg]
      rcases hp with rfl | hp
      · simp only [hh]
        exact HandleMap.find_assign_self _ _ _
      · exact HandleMap.find_assign_isSome _ _ _ _ (ih.shaderEntry p hp)
    · show ((thisAddr, shader) :: s.shaders).map (fun p => p.2.programHandle) |>.Nodup
      rw [List.map_cons, List.nodup_cons]
      refine ⟨?_, ih.shaderHandles⟩
      intro hmem
      obtain ⟨p, hp, hpeq⟩ := List.mem_map.mp hmem
      have := ih.shaderEntry p hp
      simp only [hh] at hpeq
      rw [hpeq, hfree] at this
      cases this
    · intro _
      show Callback.ShaderDestroyed ∈ tl1.thread.contextThreadData.DestroyCallbacks
      rw [hcbs]
      split_ifs with hi
      · exact ih.shaderCallback (Or.inl hi)
      · exact List.mem_append_right _ (List.mem_singleton_self _)
  | destroyShader s thisAddr shader _ hmem ih =>
    have hnodup : s.shaders.Nodup := List.Nodup.of_map _ ih.shaderHandles
    by_cases hnull : shader.programHandle = ShaderProgram_Null
    · have hd : (shader.destroy s.tl).1 = s.tl := by
        simp [CompiledShader.destroy, hnull]
      refine
        { targetEntry := ?_, targetHandles := ih.targetHandles, targetCallback := ?_,
          shaderEntry := ?_, shaderHandles := ?_, shaderCallback := ?_ }
      · intro p hp
        show p.2.glPtr ≠ 0 ∧
          (HandleMap.find (shader.destroy s.tl).1.thread.threadData.targetsByOglPtr
            p.2.glPtr).isSome
        rw [hd]
        exact ih.targetEntry p hp
      · intro h
        show Callback.TargetDestroyed ∈
          (shader.destroy s.tl).1.thread.contextThreadData.DestroyCallbacks
        rw [hd]
        apply ih.targetCallback
        rcases h with h | h
        · left
          have : (shader.destroy s.tl).1.thread.threadData.initializedYet = true := h
          rw [hd] at this
          exact this
        · exact Or.inr h
      · intro p hp
        show (HandleMap.find (shader.destroy s.tl).1.shaderData.shadersByHandle
          p.2.programHandle).isSome
        rw [hd]
        exact ih.shaderEntry p (List.mem_of_mem_erase hp)
      · exact List.Nodup.sublist ((List.erase_sublist _ _).map _) ih.shaderHandles
      · intro _
        show Callback.ShaderDestroyed ∈
          (shader.destroy s.tl).1.thread.contextThreadData.DestroyCallbacks
        rw [hd]
        exact ih.shaderCallback (Or.inr (List.ne_nil_of_mem hmem))
    · have hd : (shader.destroy s.tl).1 = { s.tl with shaderData := { s.tl.shaderData with
          shadersByHandle :=
            HandleMap.erase s.tl.shaderData.shadersByHandle shader.programHandle } } := by
        simp [CompiledShader.destroy, hnull]
      refine
        { targetEntry := ?_, targetHandles := ih.targetHandles, targetCallback := ?_,
          shaderEntry := ?_, shaderHandles := ?_, shaderCallback := ?_ }
      · intro p hp
        show p.2.glPtr ≠ 0 ∧
          (HandleMap.find (shader.destroy s.tl).1.thread.threadData.targetsByOglPtr
            p.2.glPtr).isSome
        rw [hd]
        exact ih.targetEntry p hp
      · intro h
        show Callback.TargetDestroyed ∈
          (shader.destroy s.tl).1.thread.contextThreadData.DestroyCallbacks
        rw [hd]
        apply ih.targetCallback
        rcases h with h | h
        · left
          have : (shader.destroy s.tl).1.thread.threadData.initializedYet = true := h
          rw [hd] at this
          exact this
        · exact Or.inr h
      · intro p hp
        have hp2 : p ≠ (thisAddr, shader) ∧ p ∈ s.shaders :=
          (List.Nodup.mem_erase_iff hnodup).mp hp
        show (HandleMap.find (shader.destroy s.tl).1.shaderData.shadersByHandle
          p.2.programHandle).isSome
        rw [hd]
        refine HandleMap.find_erase_isSome _ _ _ ?_ (ih.shaderEntry p hp2.2)
        intro heq
        exact hp2.1 (eq_of_nodup_map (fun p => p.2.programHandle) s.shaders ih.shaderHandles p
          (thisAddr, shader) hp2.2 hmem heq)
      · exact List.Nodup.sublist ((List.erase_sublist _ _).map _) ih.shaderHandles
      · intro _
        show Callback.ShaderDestroyed ∈
          (shader.destroy s.tl).1.thread.contextThreadData.DestroyCallbacks
        rw [hd]
        exact ih.shaderCallback (Or.inr (List.ne_nil_of_mem hmem))

theorem HandleMap.ne_nil_of_find (m : List (GLuint × Nat)) (key : GLuint)
    (h : (HandleMap.find m key).isSome = true) : m ≠ [] := by
  intro h0
  rw [h0] at h
  cases h

/-- The loop over the destroy callbacks fails a leak assertion when a registry with a
registered destroy callback is not empty. -/
theorem runCallbacks_detects_leak (currentProgram : GLint) (l : List Callback) :
    ∀ tl : ThreadLocal,
      ((tl.thread.threadData.targetsByOglPtr ≠ [] ∧ Callback.TargetDestroyed ∈ l) ∨
        (tl.shaderData.shadersByHandle ≠ [] ∧ Callback.ShaderDestroyed ∈ l)) →
      (runCallbacks currentProgram l tl).1 = .error "Target memory leaks!" ∨
      (runCallbacks currentProgram l tl).1 =
        .error "Some CompiledShader instances haven't been cleaned up" := by
  induction l with
  | nil =>
    intro tl h
    rcases h with ⟨-, h⟩ | ⟨-, h⟩ <;> cases h
  | cons cb rest ih =>
    intro tl h
    cases cb with
    | TargetRefresh =>
      simp only [runCallbacks, Callback.run]
      apply ih
      rcases h with ⟨h1, h2⟩ | ⟨h1, h2⟩
      · exact Or.inl ⟨h1, by simpa using h2⟩
      · exact Or.inr ⟨h1, by simpa using h2⟩
    | ShaderRefresh =>
      simp only [runCallbacks, Callback.run]
      apply ih
      rcases h with ⟨h1, h2⟩ | ⟨h1, h2⟩
      · exact Or.inl ⟨h1, by simpa using h2⟩
      · exact Or.inr ⟨h1, by simpa using h2⟩
    | TargetDestroyed =>
      by_cases he : tl.thread.threadData.targetsByOglPtr.length = 0
      · simp only [runCallbacks, Callback.run, if_pos he]
        apply ih
        rcases h with ⟨h1, -⟩ | ⟨h1, h2⟩
        · exact absurd (List.length_eq_zero.mp he) h1
        · exact Or.inr ⟨h1, by simpa using h2⟩
      · left
        simp only [runCallbacks, Callback.run, if_neg he]
    | ShaderDestroyed =>
      by_cases he : tl.shaderData.shadersByHandle.length = 0
      · simp only [runCallbacks, Callback.run, if_pos he]
        apply ih
        rcases h with ⟨h1, h2⟩ | ⟨h1, -⟩
        · exact Or.inl ⟨h1, by simpa using h2⟩
        · exact absurd (List.length_eq_zero.mp he) h1
      · right
        simp only [runCallbacks, Callback.run, if_neg he]

/-- Claim C22: in every state that constructing and destroying targets and shaders
reaches on a thread, a target that has not been destroyed has its destroy callback
registered, and this callback fails its leak assertion; the same holds for a shader that
has not been destroyed; and if any target or shader has not been destroyed, the
destructor of the context fails one of the two leak assertions.  The context destroyed
is the current one if it is initialised. -/
theorem leaked_object_fails_context_destruction (s : Lifetime) (hs : s.Reachable)
    (context : ContextObject) (thisAddr : Nat) (currentProgram : GLint) (d : Driver)
    (hcurrent : context.isInitialized = true → GetCurrentContext s.tl = some thisAddr) :
    (∀ p ∈ s.targets,
      Callback.TargetDestroyed ∈ s.tl.thread.contextThreadData.DestroyCallbacks ∧
      (Callback.TargetDestroyed.run currentProgram s.tl).1 = .error "Target memory leaks!") ∧
    (∀ p ∈ s.shaders,
      Callback.ShaderDestroyed ∈ s.tl.thread.contextThreadData.DestroyCallbacks ∧
      (Callback.ShaderDestroyed.run currentProgram s.tl).1 =
        .error "Some CompiledShader instances haven't been cleaned up") ∧
    ((s.targets ≠ [] ∨ s.shaders ≠ []) →
      (context.destroy thisAddr currentProgram d s.tl).failure = some "Target memory leaks!" ∨
      (context.destroy thisAddr currentProgram d s.tl).failure =
        some "Some CompiledShader instances haven't been cleaned up") := by
  have hsound := hs.sound
  have htargets : s.targets ≠ [] → s.tl.thread.threadData.targetsByOglPtr ≠ [] := by
    intro hne
    obtain ⟨p, hp⟩ := List.exists_mem_of_ne_nil _ hne
    exact HandleMap.ne_nil_of_find _ _ (hsound.targetEntry p hp).2
  have hshaders : s.shaders ≠ [] → s.tl.shaderData.shadersByHandle ≠ [] := by
    intro hne
    obtain ⟨p, hp⟩ := List.exists_mem_of_ne_nil _ hne
    exact HandleMap.ne_nil_of_find _ _ (hsound.shaderEntry p hp)
  refine ⟨?_, ?_, ?_⟩
  · intro p hp
    have hne := htargets (List.ne_nil_of_mem hp)
    refine ⟨hsound.targetCallback (Or.inr (List.ne_nil_of_mem hp)), ?_⟩
    have hlen : ¬ s.tl.thread.threadData.targetsByOglPtr.length = 0 := fun h0 =>
      hne (List.length_eq_zero.mp h0)
    simp only [Callback.run, if_neg hlen]
  · intro p hp
    have hne := hshaders (List.ne_nil_of_mem hp)
    refine ⟨hsound.shaderCallback (Or.inr (List.ne_nil_of_mem hp)), ?_⟩
    have hlen : ¬ s.tl.shaderData.shadersByHandle.length = 0 := fun h0 =>
      hne (List.length_eq_zero.mp h0)
    simp only [Callback.run, if_neg hlen]
  · intro hlive
    have hleak : (s.tl.thread.threadData.targetsByOglPtr ≠ [] ∧
          Callback.TargetDestroyed ∈ s.tl.thread.contextThreadData.DestroyCallbacks) ∨
        (s.tl.shaderData.shadersByHandle ≠ [] ∧
          Callback.ShaderDestroyed ∈ s.tl.thread.contextThreadData.DestroyCallbacks) := by
      rcases hlive with h | h
      · exact Or.inl ⟨htargets h, hsound.targetCallback (Or.inr h)⟩
      · exact Or.inr ⟨hshaders h, hsound.shaderCallback (Or.inr h)⟩
    cases hi : context.isInitialized with
    | false =>
      have := runCallbacks_detects_leak currentProgram
        s.tl.thread.contextThreadData.DestroyCallbacks s.tl hleak
      simp only [ContextObject.destroy, hi, Bool.false_eq_true, if_false]
      rcases this with h | h
      · left; rw [h]
      · right; rw [h]
    | true =>
      have hinst : s.tl.thread.contextThreadData.Instance = some thisAddr := hcurrent hi
      have := runCallbacks_detects_leak currentProgram
        s.tl.thread.contextThreadData.DestroyCallbacks
        { s.tl with thread := { s.tl.thread with
          contextThreadData := { s.tl.thread.contextThreadData with Instance := none } } }
        hleak
      simp only [ContextObject.destroy, hi, if_true, hinst]
      rcases this with h | h
      · left; rw [h]
      · right; rw [h]

theorem exampleLifetime_reachable : exampleLifetime.Reachable :=
  Lifetime.Reachable.constructTarget
    { tl := { thread := exampleThread,
              shaderData := { currentShader := none, initializedYet := false,
                              shadersByHandle := [] } },
      targets := [], shaders := [] }
    (.colorBuffer 9 exampleUIntOutput .Depth_24U) exampleComplete 3 100 [] TargetStates.Ready
    exampleConstructed (Lifetime.Reachable.start exampleThread.contextThreadData) (by decide)
    rfl rfl

/-- An instance: the example target is alive when the current context, the object at
address 1000, is destroyed. -/
theorem leaked_object_fails_context_destruction_witness :
    (ContextObject.destroy 1000
      { cache := exampleContext, owner := 7, sdlContext := some 1, isInitialized := true } 0
      (exampleDriver { x := 0, y := 0, z := 0, w := 0 }) exampleLifetime.tl).failure =
        some "Target memory leaks!" ∨
    (ContextObject.destroy 1000
      { cache := exampleContext, owner := 7, sdlContext := some 1, isInitialized := true } 0
      (exampleDriver { x := 0, y := 0, z := 0, w := 0 }) exampleLifetime.tl).failure =
        some "Some CompiledShader instances haven't been cleaned up" :=
  (leaked_object_fails_context_destruction exampleLifetime exampleLifetime_reachable
    { cache := exampleContext, owner := 7, sdlContext := some 1, isInitialized := true } 1000 0
    (exampleDriver { x := 0, y := 0, z := 0, w := 0 }) (fun _ => rfl)).2.2 (Or.inl (by decide))

end Bplus
